import Mathlib

/-! # Distro launcher: console redirection service and installer orchestration

A shallow embedding of `DistroLauncher/console_service.h`, of
`DistroLauncher/local_named_pipe.cpp`, of the strategy functions of
`DistroLauncher/ApplicationStrategy.cpp`, and of the string and argument functions of
`DistroLauncher/upgrade_policy.cpp` and `DistroLauncher/extended_cli_parser.cpp`.

The operating system is an explicit state (`Win32Utils.Os`) passed through every operation:
the three process standard-handle slots, the C runtime descriptor table, the streams put in
unbuffered mode and the visibility of the console window.  Member functions take the object
first and return the updated object next to their result.
-/

namespace Win32Utils

/-! ## Operating-system state -/

/-- Win32 `HANDLE`: a pointer-sized value, `nullptr` being `0`. -/
abbrev HANDLE := Nat

/-- Win32 `HWND`: a window handle, `nullptr` being `0`. -/
abbrev HWND := Nat

/-- Win32 `DWORD`: an unsigned 32-bit value. -/
abbrev DWORD := Nat

/-- C runtime `FILE*`: a stream, identified with the descriptor `_fileno` reports for it. -/
abbrev FILE := Int

/-- The null handle. -/
def nullptr : HANDLE := 0

/-- Win32 `INVALID_HANDLE_VALUE`, that is `(HANDLE)-1` on a 64-bit target. -/
def INVALID_HANDLE_VALUE : HANDLE := 18446744073709551615

/-- Win32 `STD_INPUT_HANDLE`, that is `(DWORD)-10`. -/
def STD_INPUT_HANDLE : DWORD := 4294967286

/-- Win32 `STD_OUTPUT_HANDLE`, that is `(DWORD)-11`. -/
def STD_OUTPUT_HANDLE : DWORD := 4294967285

/-- Win32 `STD_ERROR_HANDLE`, that is `(DWORD)-12`. -/
def STD_ERROR_HANDLE : DWORD := 4294967284

/-- The C runtime stream `stdout`. -/
def stdout : FILE := 1

/-- The C runtime stream `stderr`. -/
def stderr : FILE := 2

/-- The part of the operating system the console service acts on. -/
structure Os where
  /-- Handle held by the standard-input slot of the process. -/
  stdInput : HANDLE
  /-- Handle held by the standard-output slot of the process. -/
  stdOutput : HANDLE
  /-- Handle held by the standard-error slot of the process. -/
  stdError : HANDLE
  /-- C runtime descriptor table: open descriptor and the file object it refers to. -/
  fds : List (Int × Nat)
  /-- Streams switched to `_IONBF` by `setvbuf`. -/
  unbuffered : List FILE
  /-- Whether the console window is currently shown. -/
  consoleWindowVisible : Bool
deriving DecidableEq, Repr

/-- Win32 `GetStdHandle`: the handle in the slot named by `nStdHandle`. -/
def GetStdHandle (os : Os) (nStdHandle : DWORD) : HANDLE :=
  if nStdHandle = STD_INPUT_HANDLE then os.stdInput
  else if nStdHandle = STD_OUTPUT_HANDLE then os.stdOutput
  else if nStdHandle = STD_ERROR_HANDLE then os.stdError
  else INVALID_HANDLE_VALUE

/-- Win32 `SetStdHandle`: stores `h` in the slot named by `nStdHandle`; any other slot number
is refused and nothing changes. -/
def SetStdHandle (os : Os) (nStdHandle : DWORD) (h : HANDLE) : Os :=
  if nStdHandle = STD_INPUT_HANDLE then { os with stdInput := h }
  else if nStdHandle = STD_OUTPUT_HANDLE then { os with stdOutput := h }
  else if nStdHandle = STD_ERROR_HANDLE then { os with stdError := h }
  else os

/-- C runtime `_fileno`. -/
def _fileno (stream : FILE) : Int := stream

/-- Lowest descriptor number that is not open. -/
def lowestFreeFd (fds : List (Int × Nat)) : Int :=
  Int.ofNat
    (((List.range (fds.length + 1)).find? (fun n => (fds.lookup (Int.ofNat n)).isNone)).getD
      fds.length)

/-- C runtime `_dup`: a new descriptor for the file object of `fd`, or `-1` when `fd` is not
open. -/
def _dup (os : Os) (fd : Int) : Int × Os :=
  match os.fds.lookup fd with
  | none => (-1, os)
  | some file =>
    let fresh := lowestFreeFd os.fds
    (fresh, { os with fds := (fresh, file) :: os.fds })

/-- C runtime `_dup2`: makes `dst` refer to the file object of `src`; nothing happens when
`src` is not open.  The callers discard the return value. -/
def _dup2 (os : Os) (src dst : Int) : Os :=
  match os.fds.lookup src with
  | none => os
  | some file => { os with fds := (dst, file) :: os.fds.filter (fun e => e.1 != dst) }

/-- C runtime `_close`. -/
def _close (os : Os) (fd : Int) : Os :=
  { os with fds := os.fds.filter (fun e => e.1 != fd) }

/-- C runtime `setvbuf(stream, nullptr, _IONBF, 0)`. -/
def setvbuf_IONBF (os : Os) (stream : FILE) : Os :=
  { os with unbuffered := stream :: os.unbuffered.filter (fun s => s != stream) }

/-- Win32 `ShowWindow(window, SW_HIDE)` on the console window: hides it and reports whether it
was visible before. -/
def ShowWindow_SW_HIDE (os : Os) : Bool × Os :=
  (os.consoleWindowVisible, { os with consoleWindowVisible := false })

/-- Win32 `ShowWindow(window, SW_SHOWNORMAL)` on the console window: shows it and reports
whether it was visible before. -/
def ShowWindow_SW_SHOWNORMAL (os : Os) : Bool × Os :=
  (os.consoleWindowVisible, { os with consoleWindowVisible := true })

/-! ## `console_service.h` -/

/-- `struct ConsoleState`: descriptors and handles of stdout and stderr, completely invalid by
default. -/
structure ConsoleState where
  stdOutFileDescriptor : Int := -1
  stdErrFileDescriptor : Int := -1
  stdOutHandle : HANDLE := nullptr
  stdErrHandle : HANDLE := nullptr
deriving DecidableEq, Repr

/-- `operator==(const ConsoleState&, const ConsoleState&)`. -/
def ConsoleState.operator_eq (lhs rhs : ConsoleState) : Bool :=
  lhs.stdErrHandle == rhs.stdErrHandle && lhs.stdOutHandle == rhs.stdOutHandle

/-- The member functions `ConsoleService<Pipe>` calls on its `Pipe` template argument, over the
state `P` of the pipe object.  `writeHandle` and `writeFileDescriptor` may change the pipe
(the write end is opened on first use); `readHandle` is a plain accessor.  A member function
acts on the pipe object alone: the OS objects a pipe owns are part of `P`, and the standard
slots and streams of the process in `Os` are out of its reach. -/
structure PipeApi (P : Type) where
  writeHandle : P → HANDLE × P
  writeFileDescriptor : P → Int × P
  closeWriteHandles : P → P
  disconnect : P → P
  readHandle : P → HANDLE

/-- `template <class Pipe> class ConsoleService`: the data members. -/
structure ConsoleService (P : Type) where
  redirectTo : P
  previousConsoleState : ConsoleState := {}
  bIsRedirected : Bool := false
  window_ : HWND
deriving DecidableEq, Repr

namespace ConsoleService

variable {P : Type}

/-- `ConsoleService::consoleState`: snapshot of the real standard streams.  Each call
duplicates the descriptors of `stderr` and `stdout`. -/
def consoleState (os : Os) : ConsoleState × Os :=
  let (errFd, os1) := _dup os (_fileno stderr)
  let errHandle := GetStdHandle os1 STD_ERROR_HANDLE
  let (outFd, os2) := _dup os1 (_fileno stdout)
  let outHandle := GetStdHandle os2 STD_OUTPUT_HANDLE
  ({ stdOutFileDescriptor := outFd, stdErrFileDescriptor := errFd,
     stdOutHandle := outHandle, stdErrHandle := errHandle }, os2)

/-- `ConsoleService::applyConsoleState`.  The two `fflush` calls have no counterpart: stream
buffers are not part of `Os`. -/
def applyConsoleState (state : ConsoleState) (stderrStream : FILE) (nStderrHandle : DWORD)
    (stdoutStream : FILE) (nStdoutHandle : DWORD) (os : Os) : Os :=
  let (current, os1) := consoleState os
  if state.operator_eq current then
    os1
  else
    let os2 := SetStdHandle os1 nStderrHandle state.stdErrHandle
    let os3 := SetStdHandle os2 nStdoutHandle state.stdOutHandle
    let os4 := _dup2 os3 state.stdErrFileDescriptor (_fileno stderrStream)
    _dup2 os4 state.stdOutFileDescriptor (_fileno stdoutStream)

/-- `ConsoleService::ConsoleService(Pipe&&)`: takes the pipe; the window handle is whatever
`FindWindow` or `GetConsoleWindow` found. -/
def construct (pipe : P) (window : HWND) : ConsoleService P :=
  { redirectTo := pipe, window_ := window }

/-- `ConsoleService::isRedirected`. -/
def isRedirected (self : ConsoleService P) : Bool :=
  self.bIsRedirected

/-- `ConsoleService::window`. -/
def window (self : ConsoleService P) : HWND :=
  self.window_

/-- `ConsoleService::redirectConsole`.  Returns the `expected<HANDLE, wstring>` result, the
updated service and the updated operating-system state.  The two `fflush` calls and
`std::ios::sync_with_stdio` have no counterpart: stream buffers are not part of `Os`. -/
def redirectConsole (api : PipeApi P) (self : ConsoleService P) (stderrStream : FILE)
    (nStderrHandle : DWORD) (stdoutStream : FILE) (nStdoutHandle : DWORD) (os : Os) :
    Except String HANDLE × ConsoleService P × Os :=
  if !self.bIsRedirected then
    let (handle, pipe1) := api.writeHandle self.redirectTo
    if handle = nullptr then
      (.error "Pipe failed to expose the write handle", { self with redirectTo := pipe1 }, os)
    else
      let (file_descriptor, pipe2) := api.writeFileDescriptor pipe1
      let (saved, os1) := consoleState os
      let newConsoleState : ConsoleState :=
        { stdOutFileDescriptor := file_descriptor, stdErrFileDescriptor := file_descriptor,
          stdOutHandle := handle, stdErrHandle := handle }
      let os2 := applyConsoleState newConsoleState stderrStream nStderrHandle stdoutStream
        nStdoutHandle os1
      let os3 := setvbuf_IONBF os2 stderrStream
      let os4 := setvbuf_IONBF os3 stdoutStream
      let pipe3 := api.closeWriteHandles pipe2
      (.ok (api.readHandle pipe3),
       { self with redirectTo := pipe3, previousConsoleState := saved, bIsRedirected := true },
       os4)
  else
    (.ok (api.readHandle self.redirectTo), self, os)

/-- `ConsoleService::restoreConsole`.  `std::ios::sync_with_stdio` has no counterpart. -/
def restoreConsole (api : PipeApi P) (self : ConsoleService P) (stderrStream : FILE)
    (nStderrHandle : DWORD) (stdoutStream : FILE) (nStdoutHandle : DWORD) (os : Os) :
    ConsoleService P × Os :=
  if !self.bIsRedirected then
    (self, os)
  else
    let os1 := applyConsoleState self.previousConsoleState stderrStream nStderrHandle
      stdoutStream nStdoutHandle os
    let os2 := _close os1 self.previousConsoleState.stdErrFileDescriptor
    let os3 := _close os2 self.previousConsoleState.stdOutFileDescriptor
    ({ self with redirectTo := api.disconnect self.redirectTo, bIsRedirected := false,
                 previousConsoleState := {} }, os3)

/-- `ConsoleService::hideConsoleWindow`. -/
def hideConsoleWindow (_self : ConsoleService P) (os : Os) : Bool × Os :=
  let (wasVisible, os1) := ShowWindow_SW_HIDE os
  (wasVisible != false, os1)

/-- `ConsoleService::showConsoleWindow`.  Resizing the console next to `topWindow` moves the
window only, and its failure is only printed: window geometry is not part of `Os`. -/
def showConsoleWindow (_self : ConsoleService P) (_topWindow : HWND) (os : Os) : Bool × Os :=
  let (wasVisible, os1) := ShowWindow_SW_SHOWNORMAL os
  (wasVisible == false, os1)

end ConsoleService

/-! ## The pipes of `ConsoleServiceTests.cpp` -/

/-- The `FakePipe` of `RedirectWithInvalidWriteHandleShouldFail`: it has no data member; its
read handle is whatever the standard-output slot held, here a parameter of the API. -/
def brokenFakePipe (stdOutHandle : HANDLE) : PipeApi Unit where
  writeHandle := fun p => (nullptr, p)
  writeFileDescriptor := fun p => (-1, p)
  closeWriteHandles := fun p => p
  disconnect := fun p => p
  readHandle := fun _ => stdOutHandle

/-- Data members of the `FakePipe` of `RedirectingAGoodFakeDoesNothingButWontFail`, without
the file name. -/
structure GoodFakePipe where
  hFile : HANDLE := nullptr
  fd : Int := -1
  stream : FILE := 0
deriving DecidableEq, Repr

/-- The member functions of `GoodFakePipe`. -/
def goodFakePipe : PipeApi GoodFakePipe where
  writeHandle := fun p => (p.hFile, p)
  writeFileDescriptor := fun p => (p.fd, p)
  closeWriteHandles := fun p => p
  disconnect := fun p => p
  readHandle := fun p => p.hFile

/-- A pipe that counts how often its write end is asked for, and whose write handle is
`handle`: the count is the whole state of the pipe. -/
def countingPipe (handle : HANDLE) : PipeApi Nat where
  writeHandle := fun n => (handle, n + 1)
  writeFileDescriptor := fun n => (3, n + 1)
  closeWriteHandles := fun n => n
  disconnect := fun n => n
  readHandle := fun _ => handle + 1

end Win32Utils

namespace Oobe

open Win32Utils

/-! ## Vocabulary of `ApplicationStrategy.cpp` -/

/-- Win32 `HRESULT`, read as a signed value. -/
abbrev HRESULT := Int

/-- Win32 `S_OK`. -/
def S_OK : HRESULT := 0

/-- Win32 `E_NOTIMPL`, that is `0x80004001`. -/
def E_NOTIMPL : HRESULT := -2147467263

/-- Win32 `E_FAIL`, that is `0x80004005`. -/
def E_FAIL : HRESULT := -2147467259

/-- Win32 `E_UNEXPECTED`, that is `0x8000FFFF`. -/
def E_UNEXPECTED : HRESULT := -2147418113

/-- Modelled from the spec: the enumeration `Mode` of the installer UI is declared in a header
that is not among the sources; an enumerator is taken by its number. -/
abbrev Mode := Nat

/-- Modelled from the spec: `InstallerController<>::Event`, declared in a header that is not
among the sources; the installer events of the spec's data model. -/
inductive InstallerEvent where
  | InteractiveInstall (ui : Mode)
  | Reconfig
  | AutoInstall (autoinstall_file : String)
  | StartInstaller
  | BlockOnInstaller
deriving DecidableEq, Repr

/-- Modelled from the spec: `InstallerController<>::State`, declared in a header that is not
among the sources; the states the spec names, and `Other` for each of the remaining (initial
and terminal) ones. -/
inductive InstallerState where
  | PreparedTui
  | PreparedGui
  | Ready
  | Success
  | UpstreamDefaultInstall (hr : HRESULT)
  | Other (tag : Nat)
deriving DecidableEq, Repr

/-- Modelled from the spec: `SplashController<>::Event`, declared in a header that is not among
the sources. -/
inductive SplashEvent where
  | Run
  | ToggleVisibility
  | Close
deriving DecidableEq, Repr

/-- Modelled from the spec: `SplashController<>::State`, declared in a header that is not among
the sources; `Visible` carries the window of the splash. -/
inductive SplashState where
  | NotRunning
  | Visible (window : HWND)
  | Hidden
  | Closed
deriving DecidableEq, Repr

/-- Modelled from the spec: the installer and splash state machines are external to the
sources.  The collaborators of the strategy are the member functions of the pipe, and
`sm.addEvent` of the installer controller and of the splash controller, over the states `I`
and `S` of those state machines.  `addEvent` answers the new state, or nothing when it
rejects the event. -/
structure Controllers (P I S : Type) where
  pipe : PipeApi P
  installer_addEvent : I → InstallerEvent → Option InstallerState × I
  splash_addEvent : S → SplashEvent → Option SplashState × S

/-- Modelled from the spec: `class SplashEnabledStrategy` is declared in a header that is not
among the sources; these are the data members `ApplicationStrategy.cpp` reads and writes, the
two controllers being held by the state of their state machines.  `consoleGuard` is in
`World`, `splashExePath` is not used by the functions below. -/
structure SplashEnabledStrategy (P I S : Type) where
  installer : I
  console : Option (ConsoleService P)
  splash : Option S
  consoleIsVisible : Bool
  splashIsRunning : Bool
  splashWindow : Option HWND
  consoleReadHandle : HANDLE
deriving DecidableEq, Repr

/-- What a strategy function runs in: the operating system, and what the other thread does to
the mutex `consoleGuard`. -/
structure World where
  os : Os
  /-- Outcomes of the coming `consoleGuard.try_lock_for` calls: `false` when the other thread
  holds the mutex for the whole timeout.  Once the list is used up the mutex is free. -/
  guardOutcomes : List Bool
deriving DecidableEq, Repr

/-- What ends a call abnormally: `std::optional::value()` on an empty optional. -/
inductive Exception where
  | bad_optional_access
deriving DecidableEq, Repr

/-- `guard.try_lock_for(tryLockTimeout)` on `consoleGuard`; the lock is released when the
caller returns. -/
def try_lock_for (w : World) : Bool × World :=
  match w.guardOutcomes with
  | [] => (true, w)
  | acquired :: rest => (acquired, { w with guardOutcomes := rest })

/-! ## The functions shared by the two strategies -/

/-- The local constant `S_CONTINUE` of `do_reconfigure`. -/
def S_CONTINUE : HRESULT := E_NOTIMPL

/-- The `std::visit` of `do_reconfigure`: the status the state gives. -/
def do_reconfigure_visit (state : InstallerState) : HRESULT :=
  match state with
  | .Success => S_OK
  | .PreparedGui => S_CONTINUE
  | .Ready => S_CONTINUE
  | .UpstreamDefaultInstall hr => hr
  | _ => E_UNEXPECTED

/-- The `for` loop of `do_reconfigure`, from the events still to feed, the status `hr` so far
and the installer state machine: it goes on while events are left and `hr == S_CONTINUE`. -/
def do_reconfigure_loop {P I S : Type} (c : Controllers P I S) :
    List InstallerEvent → HRESULT → I → HRESULT × I
  | [], hr, sm => (hr, sm)
  | ev :: rest, hr, sm =>
    if hr = S_CONTINUE then
      match c.installer_addEvent sm ev with
      | (none, sm1) => (hr, sm1)
      | (some state, sm1) => do_reconfigure_loop c rest (do_reconfigure_visit state) sm1
    else
      (hr, sm)

/-- The `eventSequence` of `do_reconfigure`. -/
def do_reconfigure_eventSequence : List InstallerEvent :=
  [.Reconfig, .StartInstaller, .BlockOnInstaller]

/-- `Oobe::do_reconfigure`, on the state machine `controller.sm`: the status, and the state
machine as the call leaves it. -/
def do_reconfigure {P I S : Type} (c : Controllers P I S) (sm : I) : HRESULT × I :=
  do_reconfigure_loop c do_reconfigure_eventSequence S_CONTINUE sm

/-- The `std::visit` of `do_autoinstall`: every alternative assigns `hr`. -/
def do_autoinstall_visit (state : InstallerState) (_hr : HRESULT) : HRESULT :=
  match state with
  | .Success => S_OK
  | .UpstreamDefaultInstall hr => hr
  | _ => E_UNEXPECTED

/-- `Oobe::do_autoinstall`, on the state machine `controller.sm`: the status, and the state
machine as the call leaves it. -/
def do_autoinstall {P I S : Type} (c : Controllers P I S) (autoinstall_file : String)
    (sm : I) : HRESULT × I :=
  match c.installer_addEvent sm (.AutoInstall autoinstall_file) with
  | (none, sm1) => (E_FAIL, sm1)
  | (some _, sm1) =>
    match c.installer_addEvent sm1 .BlockOnInstaller with
    | (none, sm2) => (E_FAIL, sm2)
    | (some state, sm2) => (do_autoinstall_visit state E_NOTIMPL, sm2)

/-- What `do_run_splash` finds when it prepares the splash: whether the splash executable
exists, what `makeNamedPipe` answers, the window the constructor of the console service finds,
and the state machine of the splash controller that `splash.emplace` constructs. -/
structure SplashLaunch (P S : Type) where
  splashExeExists : Bool
  pipe : Except String P
  consoleWindow : HWND
  splashController : S

namespace SplashEnabledStrategy

variable {P I S : Type}

/-- `SplashEnabledStrategy::do_toggle_splash`. -/
def do_toggle_splash (c : Controllers P I S) (self : SplashEnabledStrategy P I S) :
    Except Exception (SplashEnabledStrategy P I S) :=
  match self.splash with
  | none => .error .bad_optional_access
  | some sm =>
    let (_, sm1) := c.splash_addEvent sm .ToggleVisibility
    .ok { self with splash := some sm1 }

/-- `SplashEnabledStrategy::do_show_console`. -/
def do_show_console (c : Controllers P I S) (self : SplashEnabledStrategy P I S) (w : World) :
    Except Exception (SplashEnabledStrategy P I S × World) :=
  let (acquired, w1) := try_lock_for w
  if !acquired then
    .ok (self, w1)
  else
    match self.console with
    | none => .error .bad_optional_access
    | some service =>
      let (service1, os1) :=
        service.restoreConsole c.pipe stderr STD_ERROR_HANDLE stdout STD_OUTPUT_HANDLE w1.os
      let topWindow : HWND :=
        match self.splashWindow with
        | some window => window
        | none => nullptr
      if !self.consoleIsVisible then
        let (shown, os2) := service1.showConsoleWindow topWindow os1
        .ok ({ self with console := some service1, consoleIsVisible := shown },
             { w1 with os := os2 })
      else
        .ok ({ self with console := some service1 }, { w1 with os := os1 })

/-- `SplashEnabledStrategy::do_close_splash`. -/
def do_close_splash (c : Controllers P I S) (self : SplashEnabledStrategy P I S) (w : World) :
    Except Exception (SplashEnabledStrategy P I S × World) :=
  match do_show_console c self w with
  | .error e => .error e
  | .ok (self1, w1) =>
    if self1.splashIsRunning then
      match self1.splash with
      | none => .error .bad_optional_access
      | some sm =>
        let (_, sm1) := c.splash_addEvent sm .Close
        .ok ({ self1 with splash := some sm1, splashIsRunning := false, splashWindow := none },
             w1)
    else
      .ok (self1, w1)

/-- The `std::visit` of `SplashEnabledStrategy::do_install`: what the loop body does with the
state the installer reached, given the status `hr` so far. -/
def do_install_visit (c : Controllers P I S) (state : InstallerState) (hr : HRESULT)
    (self : SplashEnabledStrategy P I S) (w : World) :
    Except Exception (HRESULT × SplashEnabledStrategy P I S × World) :=
  match state with
  | .PreparedTui =>
    match do_show_console c self w with
    | .error e => .error e
    | .ok (self1, w1) => .ok (hr, self1, w1)
  | .Ready =>
    match do_toggle_splash c self with
    | .error e => .error e
    | .ok self1 => .ok (hr, self1, w)
  | .Success =>
    match do_close_splash c self w with
    | .error e => .error e
    | .ok (self1, w1) => .ok (S_OK, self1, w1)
  | .UpstreamDefaultInstall code =>
    match do_show_console c self w with
    | .error e => .error e
    | .ok (self1, w1) => .ok (code, self1, w1)
  | _ => .ok (E_UNEXPECTED, self, w)

/-- The `for (auto& ev : eventSequence)` loop of `SplashEnabledStrategy::do_install`, from the
events still to feed and the status `hr` so far. -/
def do_install_loop (c : Controllers P I S) :
    List InstallerEvent → HRESULT → SplashEnabledStrategy P I S → World →
      Except Exception (HRESULT × SplashEnabledStrategy P I S × World)
  | [], hr, self, w => .ok (hr, self, w)
  | ev :: rest, hr, self, w =>
    let (ok, sm1) := c.installer_addEvent self.installer ev
    let self1 := { self with installer := sm1 }
    match ok with
    | none =>
      match do_close_splash c self1 w with
      | .error e => .error e
      | .ok (self2, w2) => .ok (hr, self2, w2)
    | some state =>
      match do_install_visit c state hr self1 w with
      | .error e => .error e
      | .ok (hr1, self2, w2) => do_install_loop c rest hr1 self2 w2

/-- The `eventSequence` of `do_install`. -/
def do_install_eventSequence (ui : Mode) : List InstallerEvent :=
  [.InteractiveInstall ui, .StartInstaller, .BlockOnInstaller]

/-- `SplashEnabledStrategy::do_install`. -/
def do_install (c : Controllers P I S) (ui : Mode) (self : SplashEnabledStrategy P I S)
    (w : World) : Except Exception (HRESULT × SplashEnabledStrategy P I S × World) :=
  do_install_loop c (do_install_eventSequence ui) E_NOTIMPL self w

/-- `SplashEnabledStrategy::do_run_splash`.  The two messages printed have no counterpart. -/
def do_run_splash (c : Controllers P I S) (launch : SplashLaunch P S) (hideConsole : Bool)
    (self : SplashEnabledStrategy P I S) (w : World) : SplashEnabledStrategy P I S × World :=
  if !launch.splashExeExists then
    (self, w)
  else
    match launch.pipe with
    | .error _ => (self, w)
    | .ok pipe =>
      let self1 := { self with
        consoleReadHandle := c.pipe.readHandle pipe,
        console := some (ConsoleService.construct pipe launch.consoleWindow),
        splash := some launch.splashController }
      let (acquired, w1) := try_lock_for w
      if !acquired then
        (self1, w1)
      else
        let (_, service1, os1) :=
          (ConsoleService.construct pipe launch.consoleWindow).redirectConsole c.pipe stderr
            STD_ERROR_HANDLE stdout STD_OUTPUT_HANDLE w1.os
        let (transition, sm1) := c.splash_addEvent launch.splashController .Run
        match transition with
        | none =>
          let (service2, os2) :=
            service1.restoreConsole c.pipe stderr STD_ERROR_HANDLE stdout STD_OUTPUT_HANDLE os1
          ({ self1 with console := some service2, splash := some sm1 }, { w1 with os := os2 })
        | some (.Visible window) =>
          if hideConsole then
            let (hidden, os2) := service1.hideConsoleWindow os1
            ({ self1 with console := some service1, splash := some sm1,
                          splashWindow := some window, consoleIsVisible := !hidden,
                          splashIsRunning := true },
             { w1 with os := os2 })
          else
            ({ self1 with console := some service1, splash := some sm1,
                          splashWindow := some window, splashIsRunning := true },
             { w1 with os := os1 })
        | some _ =>
          let (service2, os2) :=
            service1.restoreConsole c.pipe stderr STD_ERROR_HANDLE stdout STD_OUTPUT_HANDLE os1
          ({ self1 with console := some service2, splash := some sm1 }, { w1 with os := os2 })

/-- `SplashEnabledStrategy::do_reconfigure`. -/
def do_reconfigure (c : Controllers P I S) (self : SplashEnabledStrategy P I S) :
    HRESULT × SplashEnabledStrategy P I S :=
  ((Oobe.do_reconfigure c self.installer).1,
   { self with installer := (Oobe.do_reconfigure c self.installer).2 })

/-- `SplashEnabledStrategy::do_autoinstall`. -/
def do_autoinstall (c : Controllers P I S) (autoinstall_file : String)
    (self : SplashEnabledStrategy P I S) : HRESULT × SplashEnabledStrategy P I S :=
  ((Oobe.do_autoinstall c autoinstall_file self.installer).1,
   { self with installer := (Oobe.do_autoinstall c autoinstall_file self.installer).2 })

end SplashEnabledStrategy

/-- Modelled from the spec: `class NoSplashStrategy` is declared in a header that is not among
the sources; `installer` is the data member its functions use, held by the state of its state
machine. -/
structure NoSplashStrategy (I : Type) where
  installer : I
deriving DecidableEq, Repr

namespace NoSplashStrategy

variable {P I S : Type}

/-- The `std::visit` of `NoSplashStrategy::do_install`: every alternative assigns `hr`. -/
def do_install_visit (state : InstallerState) (_hr : HRESULT) : HRESULT :=
  match state with
  | .Success => S_OK
  | .UpstreamDefaultInstall hr => hr
  | _ => E_UNEXPECTED

/-- The `for (auto& ev : eventSequence)` loop of `NoSplashStrategy::do_install`. -/
def do_install_loop (c : Controllers P I S) :
    List InstallerEvent → HRESULT → NoSplashStrategy I → HRESULT × NoSplashStrategy I
  | [], hr, self => (hr, self)
  | ev :: rest, hr, self =>
    match c.installer_addEvent self.installer ev with
    | (none, sm1) => (hr, { self with installer := sm1 })
    | (some state, sm1) =>
      do_install_loop c rest (do_install_visit state hr) { self with installer := sm1 }

/-- `NoSplashStrategy::do_install`; its `eventSequence` is the one of
`SplashEnabledStrategy::do_install`. -/
def do_install (c : Controllers P I S) (ui : Mode) (self : NoSplashStrategy I) :
    HRESULT × NoSplashStrategy I :=
  do_install_loop c [.InteractiveInstall ui, .StartInstaller, .BlockOnInstaller] E_NOTIMPL self

/-- `NoSplashStrategy::do_reconfigure`. -/
def do_reconfigure (c : Controllers P I S) (self : NoSplashStrategy I) :
    HRESULT × NoSplashStrategy I :=
  ((Oobe.do_reconfigure c self.installer).1,
   { self with installer := (Oobe.do_reconfigure c self.installer).2 })

/-- `NoSplashStrategy::do_autoinstall`. -/
def do_autoinstall (c : Controllers P I S) (autoinstall_file : String)
    (self : NoSplashStrategy I) : HRESULT × NoSplashStrategy I :=
  ((Oobe.do_autoinstall c autoinstall_file self.installer).1,
   { self with installer := (Oobe.do_autoinstall c autoinstall_file self.installer).2 })

end NoSplashStrategy

end Oobe

/-! ## Reading a run of `do_install` -/

namespace Oobe

open Win32Utils

/-- Both optionals of the strategy hold a value: the console service and the splash controller
have been created. -/
def SplashEnabledStrategy.hasConsoleAndSplash {P I S : Type}
    (self : SplashEnabledStrategy P I S) : Bool :=
  self.console.isSome && self.splash.isSome

/-- The status `hr` after the visitor of `do_install` has seen `state`: `PreparedTui` and
`Ready` leave it as it is, every other state sets it. -/
def statusAfterState (hr : HRESULT) (state : InstallerState) : HRESULT :=
  match state with
  | .PreparedTui => hr
  | .Ready => hr
  | .Success => S_OK
  | .UpstreamDefaultInstall code => code
  | _ => E_UNEXPECTED

/-- The status after the visitor has seen `states` in order, starting from `E_NOTIMPL`. -/
def statusAfterStates (states : List InstallerState) : HRESULT :=
  states.foldl statusAfterState E_NOTIMPL

/-- Feeding `events` to the installer state machine one after the other until it rejects one:
the states it answered before that, the machine after the last event fed (the rejected one,
when there is one), and whether an event was rejected. -/
def feedInstaller {P I S : Type} (c : Controllers P I S) :
    I → List InstallerEvent → List InstallerState × I × Bool
  | sm, [] => ([], sm, false)
  | sm, ev :: rest =>
    match c.installer_addEvent sm ev with
    | (none, sm1) => ([], sm1, true)
    | (some state, sm1) =>
      ((state :: (feedInstaller c sm1 rest).1), (feedInstaller c sm1 rest).2.1,
        (feedInstaller c sm1 rest).2.2)

/-- A scripted installer state machine: it answers the events fed to it with the entries of
its script, one after the other, rejects every event once the script is used up, and keeps
the events it was fed. -/
structure ScriptedInstaller where
  script : List (Option InstallerState)
  fed : List InstallerEvent
deriving DecidableEq, Repr

/-- `addEvent` of the scripted installer state machine. -/
def ScriptedInstaller.addEvent (sm : ScriptedInstaller) (ev : InstallerEvent) :
    Option InstallerState × ScriptedInstaller :=
  match sm.script with
  | [] => (none, { sm with fed := sm.fed ++ [ev] })
  | answer :: rest => (answer, { script := rest, fed := sm.fed ++ [ev] })

/-- `addEvent` of a splash state machine that accepts every event and keeps the events it was
fed: `Run` shows window 77, `ToggleVisibility` hides it, `Close` closes it. -/
def loggingSplash_addEvent (sm : List SplashEvent) (ev : SplashEvent) :
    Option SplashState × List SplashEvent :=
  match ev with
  | .Run => (some (.Visible 77), sm ++ [ev])
  | .ToggleVisibility => (some .Hidden, sm ++ [ev])
  | .Close => (some .Closed, sm ++ [ev])

/-- The healthy fake pipe, the scripted installer and the logging splash together. -/
def scriptedControllers : Controllers GoodFakePipe ScriptedInstaller (List SplashEvent) where
  pipe := goodFakePipe
  installer_addEvent := ScriptedInstaller.addEvent
  splash_addEvent := loggingSplash_addEvent

end Oobe

/-! ## Sequences of calls on a console service -/

namespace Win32Utils

/-- One call of the public interface of a console service: the arguments it is given and the
state the operating system is in when it is made. -/
inductive ConsoleCall where
  | redirectConsole (stderrStream : FILE) (nStderrHandle : DWORD) (stdoutStream : FILE)
      (nStdoutHandle : DWORD) (os : Os)
  | restoreConsole (stderrStream : FILE) (nStderrHandle : DWORD) (stdoutStream : FILE)
      (nStdoutHandle : DWORD) (os : Os)
deriving DecidableEq, Repr

/-- Record of the redirect in force, kept next to the service to state its invariant (the
source keeps no such record): the handles the standard-output and standard-error slots held
when the redirect was made, and the pipe state `newConsoleState` the redirect installed. -/
structure RedirectRecord where
  stdOutBefore : HANDLE
  stdErrBefore : HANDLE
  installed : ConsoleState
deriving DecidableEq, Repr

/-- The `newConsoleState` a redirect builds from the pipe `pipe` of a service that is not
redirected. -/
def installedState {P : Type} (api : PipeApi P) (pipe : P) : ConsoleState :=
  { stdOutFileDescriptor := (api.writeFileDescriptor (api.writeHandle pipe).2).1,
    stdErrFileDescriptor := (api.writeFileDescriptor (api.writeHandle pipe).2).1,
    stdOutHandle := (api.writeHandle pipe).1,
    stdErrHandle := (api.writeHandle pipe).1 }

/-- One call made on a service, with the record of the redirect in force: a redirect that
takes effect writes the record, a restore that takes effect drops it. -/
def callStep {P : Type} (api : PipeApi P) (st : ConsoleService P × Option RedirectRecord)
    (call : ConsoleCall) : ConsoleService P × Option RedirectRecord :=
  match call with
  | .redirectConsole stderrStream nStderrHandle stdoutStream nStdoutHandle os =>
    let service :=
      (st.1.redirectConsole api stderrStream nStderrHandle stdoutStream nStdoutHandle os).2.1
    if !st.1.isRedirected && service.isRedirected then
      (service, some { stdOutBefore := GetStdHandle os STD_OUTPUT_HANDLE,
                       stdErrBefore := GetStdHandle os STD_ERROR_HANDLE,
                       installed := installedState api st.1.redirectTo })
    else
      (service, st.2)
  | .restoreConsole stderrStream nStderrHandle stdoutStream nStdoutHandle os =>
    let service :=
      (st.1.restoreConsole api stderrStream nStderrHandle stdoutStream nStdoutHandle os).1
    if st.1.isRedirected then (service, none) else (service, st.2)

/-- The service reached from construction over `pipe` by the calls `calls`, in order. -/
def runCalls {P : Type} (api : PipeApi P) (pipe : P) (window : HWND)
    (calls : List ConsoleCall) : ConsoleService P × Option RedirectRecord :=
  calls.foldl (callStep api) (ConsoleService.construct pipe window, none)

end Win32Utils

/-! ## `local_named_pipe.cpp` -/

namespace Win32Utils

/-- A call a `LocalNamedPipe` makes to the operating system or the C runtime. -/
inductive PipeOsCall where
  | CreateFile (name : String)
  | SetHandleInformation (handle : HANDLE) (inherit : Bool)
  | ConnectNamedPipe (handle : HANDLE)
  | open_osfhandle (handle : HANDLE)
  | close (fd : Int)
  | FlushFileBuffers (handle : HANDLE)
  | DisconnectNamedPipe (handle : HANDLE)
deriving DecidableEq, Repr

/-- The operating system as a pipe meets it: what it will answer, and the calls made so far.
It is part of the state of the pipe object, next to the data members. -/
structure PipeOs where
  /-- Answers of the coming `CreateFile` calls, `INVALID_HANDLE_VALUE` for a failure; once the
  list is used up `CreateFile` fails. -/
  createFileAnswers : List HANDLE
  /-- Answers of the coming `_open_osfhandle` calls, `-1` for a failure; once the list is used
  up `_open_osfhandle` fails. -/
  openOsfhandleAnswers : List Int
  /-- The calls made so far, in order. -/
  calls : List PipeOsCall
deriving DecidableEq, Repr

namespace PipeOs

/-- Win32 `CreateFile` on the name of the pipe. -/
def CreateFile (os : PipeOs) (name : String) : HANDLE × PipeOs :=
  match os.createFileAnswers with
  | [] => (INVALID_HANDLE_VALUE, { os with calls := os.calls ++ [.CreateFile name] })
  | answer :: rest =>
    (answer, { os with createFileAnswers := rest, calls := os.calls ++ [.CreateFile name] })

/-- C runtime `_open_osfhandle`. -/
def _open_osfhandle (os : PipeOs) (handle : HANDLE) : Int × PipeOs :=
  match os.openOsfhandleAnswers with
  | [] => (-1, { os with calls := os.calls ++ [.open_osfhandle handle] })
  | answer :: rest =>
    (answer,
      { os with openOsfhandleAnswers := rest, calls := os.calls ++ [.open_osfhandle handle] })

/-- A call whose answer the pipe does not look at. -/
def call (os : PipeOs) (made : PipeOsCall) : PipeOs :=
  { os with calls := os.calls ++ [made] }

/-- How many `CreateFile` calls were made so far. -/
def openAttempts (os : PipeOs) : Nat :=
  (os.calls.filter (fun made => match made with | .CreateFile _ => true | _ => false)).length

end PipeOs

/-- Modelled from the spec: `class LocalNamedPipe` is declared in a header that is not among
the sources; these are the data members `local_named_pipe.cpp` reads and writes, without the
security attributes `writeSA`. -/
structure LocalNamedPipe where
  inheritWrite : Bool
  szPipeName : String
  hRead : HANDLE
  hWrite : HANDLE := nullptr
  writeFd : Int := -1
deriving DecidableEq, Repr

namespace LocalNamedPipe

/-- `LocalNamedPipe::closeWriteHandles`. -/
def closeWriteHandles (self : LocalNamedPipe) (os : PipeOs) : LocalNamedPipe × PipeOs :=
  let (self1, os1) :=
    if self.writeFd ≠ -1 then
      ({ self with writeFd := -1 }, os.call (.close self.writeFd))
    else
      (self, os)
  if self1.hWrite ≠ nullptr then
    ({ self1 with hWrite := nullptr }, os1)
  else
    (self1, os1)

/-- `LocalNamedPipe::openWriteEnd`. -/
def openWriteEnd (self : LocalNamedPipe) (os : PipeOs) : LocalNamedPipe × PipeOs :=
  if self.hWrite = nullptr ∧ self.writeFd = -1 then
    let (handle, os1) := os.CreateFile self.szPipeName
    if handle = INVALID_HANDLE_VALUE then
      (self, os1)
    else
      let os2 := os1.call (.SetHandleInformation handle self.inheritWrite)
      let os3 := os2.call (.ConnectNamedPipe self.hRead)
      let (fd, os4) := os3._open_osfhandle handle
      ({ self with hWrite := handle, writeFd := fd }, os4)
  else
    (self, os)

/-- `LocalNamedPipe::writeHandle`. -/
def writeHandle (self : LocalNamedPipe) (os : PipeOs) : HANDLE × LocalNamedPipe × PipeOs :=
  ((self.openWriteEnd os).1.hWrite, self.openWriteEnd os)

/-- `LocalNamedPipe::writeFileDescriptor`. -/
def writeFileDescriptor (self : LocalNamedPipe) (os : PipeOs) :
    Int × LocalNamedPipe × PipeOs :=
  ((self.openWriteEnd os).1.writeFd, self.openWriteEnd os)

/-- `LocalNamedPipe::disconnect`. -/
def disconnect (self : LocalNamedPipe) (os : PipeOs) : LocalNamedPipe × PipeOs :=
  (self, (os.call (.FlushFileBuffers self.hRead)).call (.DisconnectNamedPipe self.hRead))

/-- Modelled from the spec: `LocalNamedPipe::readHandle` is defined in the header that is not
among the sources; it answers the read end created at construction. -/
def readHandle (self : LocalNamedPipe) : HANDLE :=
  self.hRead

end LocalNamedPipe

/-- `LocalNamedPipe` as the `Pipe` of a console service: the pipe object with the operating
system it meets. -/
def localNamedPipeApi : PipeApi (LocalNamedPipe × PipeOs) where
  writeHandle := fun p => p.1.writeHandle p.2
  writeFileDescriptor := fun p => p.1.writeFileDescriptor p.2
  closeWriteHandles := fun p => p.1.closeWriteHandles p.2
  disconnect := fun p => p.1.disconnect p.2
  readHandle := fun p => p.1.readHandle

/-- One request for the write end of a pipe. -/
inductive WriteEndCall where
  | writeHandle
  | writeFileDescriptor
deriving DecidableEq, Repr

/-- The requests `requests` made on a pipe one after the other: what each returned (a handle
or a descriptor), and the pipe and its operating system afterwards. -/
def runWriteEndCalls :
    List WriteEndCall → LocalNamedPipe × PipeOs → List (HANDLE ⊕ Int) × LocalNamedPipe × PipeOs
  | [], p => ([], p)
  | .writeHandle :: rest, p =>
    (.inl (p.1.writeHandle p.2).1 :: (runWriteEndCalls rest (p.1.writeHandle p.2).2).1,
      (runWriteEndCalls rest (p.1.writeHandle p.2).2).2)
  | .writeFileDescriptor :: rest, p =>
    (.inr (p.1.writeFileDescriptor p.2).1 ::
        (runWriteEndCalls rest (p.1.writeFileDescriptor p.2).2).1,
      (runWriteEndCalls rest (p.1.writeFileDescriptor p.2).2).2)

end Win32Utils

/-! ## Concrete inputs -/

namespace Win32Utils

/-- A process with a console: three distinct standard handles, the descriptors 0, 1 and 2 open
on them, and descriptor 5 open on the file object of a pipe. -/
def consoleOs : Os :=
  { stdInput := 3, stdOutput := 7, stdError := 11,
    fds := [(0, 100), (1, 101), (2, 102), (5, 140)],
    unbuffered := [], consoleWindowVisible := true }

/-- A process without standard handles, as a detached process is: the three slots hold the
null handle and the descriptors 0, 1 and 2 are not open; descriptor 5 is the one of a pipe. -/
def detachedOs : Os :=
  { stdInput := 0, stdOutput := 0, stdError := 0, fds := [(5, 140)],
    unbuffered := [], consoleWindowVisible := false }

/-- A process whose standard output and standard error both hold handle `40` already. -/
def sameHandleOs : Os :=
  { stdInput := 3, stdOutput := 40, stdError := 40,
    fds := [(0, 100), (1, 140), (2, 140), (5, 140)],
    unbuffered := [], consoleWindowVisible := true }

/-- A named pipe whose write end was never opened. -/
def freshPipe : LocalNamedPipe :=
  { inheritWrite := false, szPipeName := "pipe", hRead := 30 }

/-- A named pipe whose write end is open: handle `40`, descriptor `5`. -/
def openPipe : LocalNamedPipe :=
  { inheritWrite := false, szPipeName := "pipe", hRead := 30, hWrite := 40, writeFd := 5 }

/-- An operating system that opens the write end of a pipe on the first attempt, with handle
`40` and descriptor `5`. -/
def willingPipeOs : PipeOs :=
  { createFileAnswers := [40], openOsfhandleAnswers := [5], calls := [] }

/-- A healthy fake pipe: handle `40`, descriptor `5`. -/
def goodPipe : GoodFakePipe :=
  { hFile := 40, fd := 5, stream := 5 }

end Win32Utils

namespace Oobe

open Win32Utils

/-- The operating system while the splash runs: both standard slots hold the write handle 40
of the pipe, and the console window is hidden. -/
def redirectedOs : Os :=
  { stdInput := 3, stdOutput := 40, stdError := 40,
    fds := [(0, 100), (1, 140), (2, 140), (3, 102), (4, 101), (5, 140)],
    unbuffered := [1, 2], consoleWindowVisible := false }

/-- The world while the splash runs, with nobody else holding `consoleGuard`. -/
def splashWorld : World :=
  { os := redirectedOs, guardOutcomes := [] }

/-- A strategy whose splash runs: the console is redirected (saved handles 7 and 11) and
hidden, the splash shows window 77, and the installer will answer `script`. -/
def runningStrategy (script : List (Option InstallerState)) :
    SplashEnabledStrategy GoodFakePipe ScriptedInstaller (List SplashEvent) :=
  { installer := { script := script, fed := [] },
    console := some { redirectTo := goodPipe,
                      previousConsoleState :=
                        { stdOutFileDescriptor := 4, stdErrFileDescriptor := 3,
                          stdOutHandle := 7, stdErrHandle := 11 },
                      bIsRedirected := true, window_ := 9 },
    splash := some [.Run],
    consoleIsVisible := false,
    splashIsRunning := true,
    splashWindow := some 77,
    consoleReadHandle := 40 }

/-- The world while the splash runs, with the other thread holding `consoleGuard` during the
next three attempts to take it. -/
def busyWorld : World :=
  { os := redirectedOs, guardOutcomes := [false, false, false] }

/-- What `do_run_splash` finds when everything is in place: the splash executable, the healthy
fake pipe, the console window 9 and a splash controller that was fed nothing yet. -/
def readyLaunch : SplashLaunch GoodFakePipe (List SplashEvent) :=
  { splashExeExists := true, pipe := .ok goodPipe, consoleWindow := 9, splashController := [] }

/-- What `do_run_splash` finds when the splash executable is missing. -/
def missingExeLaunch : SplashLaunch GoodFakePipe (List SplashEvent) :=
  { readyLaunch with splashExeExists := false }

/-- What `do_run_splash` finds when the pipe cannot be created. -/
def noPipeLaunch : SplashLaunch GoodFakePipe (List SplashEvent) :=
  { readyLaunch with pipe := .error "The pipe could not be created" }

/-- `addEvent` of a splash state machine that rejects `Run` and keeps the events it was fed. -/
def refusingSplash_addEvent (sm : List SplashEvent) (ev : SplashEvent) :
    Option SplashState × List SplashEvent :=
  match ev with
  | .Run => (none, sm ++ [ev])
  | .ToggleVisibility => (some .Hidden, sm ++ [ev])
  | .Close => (some .Closed, sm ++ [ev])

/-- The healthy fake pipe, the scripted installer and the splash that rejects `Run`. -/
def refusingControllers : Controllers GoodFakePipe ScriptedInstaller (List SplashEvent) where
  pipe := goodFakePipe
  installer_addEvent := ScriptedInstaller.addEvent
  splash_addEvent := refusingSplash_addEvent

/-- The world of a process with a console, with nobody else holding `consoleGuard`. -/
def consoleWorld : World :=
  { os := consoleOs, guardOutcomes := [] }

/-- A strategy on which `do_run_splash` returned before it created anything: no console
service, no splash controller, no splash running. -/
def bareStrategy (script : List (Option InstallerState)) :
    SplashEnabledStrategy GoodFakePipe ScriptedInstaller (List SplashEvent) :=
  { installer := { script := script, fed := [] },
    console := none,
    splash := none,
    consoleIsVisible := true,
    splashIsRunning := false,
    splashWindow := none,
    consoleReadHandle := 0 }

end Oobe

/-! ## More concrete inputs for the named pipe and the console window -/

namespace Win32Utils

/-- An operating system that refuses the first attempt to open the write end of a pipe and
grants the second, with handle `40` and descriptor `5`. -/
def reluctantPipeOs : PipeOs :=
  { createFileAnswers := [INVALID_HANDLE_VALUE, 40], openOsfhandleAnswers := [5], calls := [] }

/-- An operating system on which `CreateFile` opens the write end with handle `40` and
`_open_osfhandle` then fails. -/
def halfWillingPipeOs : PipeOs :=
  { createFileAnswers := [40], openOsfhandleAnswers := [-1], calls := [] }

/-- A process with a console whose window is hidden. -/
def hiddenConsoleOs : Os :=
  { consoleOs with consoleWindowVisible := false }

end Win32Utils

namespace Oobe

open Win32Utils

/-- The world of a process whose console window is hidden, with nobody else holding
`consoleGuard`. -/
def hiddenConsoleWorld : World :=
  { os := hiddenConsoleOs, guardOutcomes := [] }

/-- A strategy that has nothing yet and knows its console window to be hidden. -/
def hiddenConsoleStrategy :
    SplashEnabledStrategy GoodFakePipe ScriptedInstaller (List SplashEvent) :=
  { bareStrategy [] with consoleIsVisible := false }

/-- The flag `consoleIsVisible` tells the truth about the console window. -/
def SplashEnabledStrategy.consoleFlagIsRight {P I S : Type}
    (self : SplashEnabledStrategy P I S) (w : World) : Bool :=
  self.consoleIsVisible == w.os.consoleWindowVisible

/-- The flag `splashIsRunning` and the optional `splashWindow` agree: the flag is set exactly
when the window handle is there. -/
def SplashEnabledStrategy.splashFieldsAgree {P I S : Type}
    (self : SplashEnabledStrategy P I S) : Bool :=
  self.splashIsRunning == self.splashWindow.isSome

/-- The status the installer states give when only the last one that is neither `PreparedTui`
nor `Ready` counts: `Success` gives `S_OK`, `UpstreamDefaultInstall` its code, every other
state `E_UNEXPECTED`, and `E_NOTIMPL` is left when there is no such state. -/
def statusOfLastDecidingState (states : List InstallerState) : HRESULT :=
  match (states.filter (fun state => state ≠ .PreparedTui ∧ state ≠ .Ready)).getLast? with
  | none => E_NOTIMPL
  | some .Success => S_OK
  | some (.UpstreamDefaultInstall code) => code
  | some _ => E_UNEXPECTED

/-! ## Sequences of calls on a strategy -/

/-- One call of a function of the strategy that touches the splash or the console, with the
world it is made in: the operating system as it is then, and what the other thread does to
`consoleGuard` meanwhile. -/
inductive StrategyCall (P S : Type) where
  | do_run_splash (launch : SplashLaunch P S) (hideConsole : Bool) (w : World)
  | do_toggle_splash
  | do_show_console (w : World)
  | do_close_splash (w : World)
  | do_install (ui : Mode) (w : World)

/-- The strategy one call leaves; a call that raises ends the run. -/
def runStrategyCall {P I S : Type} (c : Controllers P I S)
    (self : SplashEnabledStrategy P I S) :
    StrategyCall P S → Except Exception (SplashEnabledStrategy P I S)
  | .do_run_splash launch hideConsole w => .ok (self.do_run_splash c launch hideConsole w).1
  | .do_toggle_splash => self.do_toggle_splash c
  | .do_show_console w =>
    match self.do_show_console c w with
    | .error e => .error e
    | .ok (self1, _) => .ok self1
  | .do_close_splash w =>
    match self.do_close_splash c w with
    | .error e => .error e
    | .ok (self1, _) => .ok self1
  | .do_install ui w =>
    match self.do_install c ui w with
    | .error e => .error e
    | .ok (_, self1, _) => .ok self1

/-- The strategy a sequence of calls leaves, made one after the other. -/
def runStrategyCalls {P I S : Type} (c : Controllers P I S) :
    List (StrategyCall P S) → SplashEnabledStrategy P I S →
      Except Exception (SplashEnabledStrategy P I S)
  | [], self => .ok self
  | call :: rest, self =>
    match runStrategyCall c self call with
    | .error e => .error e
    | .ok self1 => runStrategyCalls c rest self1

end Oobe

/-! ## Algorithms of the C++ standard library -/

namespace std

/-- `std::mismatch` on two ranges: the positions, one in each range, of the first pair of
elements that differ, or of the end of the shorter range.  An iterator is given by the number
of elements before it, so that `range.length` is the end iterator.  The overload without
`last2` wants the second range to be as long as the first at least, which its callers check
beforehand. -/
def mismatch {α : Type} [DecidableEq α] : List α → List α → Nat × Nat
  | [], _ => (0, 0)
  | _ :: _, [] => (0, 0)
  | a :: range1, b :: range2 =>
    if a = b then ((mismatch range1 range2).1 + 1, (mismatch range1 range2).2 + 1) else (0, 0)

/-- `std::find` on a range: the position of the first element equal to `value`, the end of the
range when there is none. -/
def find {α : Type} [DecidableEq α] : List α → α → Nat
  | [], _ => 0
  | x :: range, value => if x = value then 0 else find range value + 1

/-- The loop of `std::remove_if`, with `todo` elements left to look at: the element at the
read position `i` is moved to the write position `first` unless the predicate holds of it. -/
def remove_if_loop {α : Type} (pred : α → Bool) : Nat → List α → Nat → Nat → List α × Nat
  | 0, range, first, _ => (range, first)
  | todo + 1, range, first, i =>
    match range[i]? with
    | none => (range, first)
    | some x =>
      if pred x then remove_if_loop pred todo range first (i + 1)
      else remove_if_loop pred todo (range.set first x) (first + 1) (i + 1)

/-- `std::remove_if` on a whole container: the container with the elements to keep moved to
the front, and the position after the last of them. -/
def remove_if {α : Type} (pred : α → Bool) (range : List α) : List α × Nat :=
  remove_if_loop pred range.length range 0 0

/-- `std::vector::erase(first, last)`. -/
def erase {α : Type} (v : List α) (first last : Nat) : List α :=
  v.take first ++ v.drop last

end std

/-! ## `upgrade_policy.cpp` -/

namespace internal

/-- `internal::starts_with`. -/
def starts_with (tested start : String) : Bool :=
  if tested.length < start.length then
    false
  else
    (std.mismatch start.data tested.data).1 == start.data.length

/-- `internal::ends_with`; the reverse iterators walk the two strings from the back. -/
def ends_with (tested end_ : String) : Bool :=
  if tested.length < end_.length then
    false
  else
    (std.mismatch end_.data.reverse tested.data.reverse).1 == end_.data.reverse.length

/-- `internal::GetUpgradePolicy`.  `DistributionInfo::Name` is declared in a header that is not
among the sources: it is the parameter `name`. -/
def GetUpgradePolicy (name : String) : String :=
  if name = "Ubuntu" then
    "lts"
  else if starts_with name "Ubuntu" && ends_with name "LTS" then
    "never"
  else
    "normal"

end internal

/-! ## `extended_cli_parser.cpp` -/

namespace Oobe.internal

/-- Modelled from the spec: `struct AutoInstall` is declared in `extended_cli_parser.h`, which
is not among the sources; it is built from the path of the autoinstall file. -/
structure AutoInstall where
  autoInstallFile : String
deriving DecidableEq, Repr

/-- Modelled from the spec: the variant `Opts` is declared in `extended_cli_parser.h`, which is
not among the sources; its alternatives are the types of the values `parse` returns. -/
inductive Opts where
  | monostate
  | ManifestMatchedInstall
  | InstallDefault
  | InstallOnlyDefault
  | Reconfig
  | AutoInstall (value : AutoInstall)
  | InteractiveInstallShell_OobeGui
  | InteractiveInstallShell_OobeTui
  | InteractiveInstallOnly_OobeGui
  | InteractiveInstallOnly_OobeTui
deriving DecidableEq, Repr

/-- Modelled from the spec: the arrays `requirements` of the parsed option types and
`allExtendedArgs` are declared in `extended_cli_parser.h`, which is not among the sources;
their contents are parameters of the parser. -/
structure Grammar where
  ManifestMatchedInstall : List String
  InstallDefault : List String
  InstallOnlyDefault : List String
  Reconfig : List String
  InteractiveInstallShell_SkipInstaller : List String
  InteractiveInstallOnly_SkipInstaller : List String
  AutoInstall : List String
  InteractiveInstallShell_OobeGui : List String
  InteractiveInstallShell_OobeTui : List String
  InteractiveInstallOnly_OobeGui : List String
  InteractiveInstallOnly_OobeTui : List String
  allExtendedArgs : List String
deriving DecidableEq, Repr

/-- The generic `tryParse<ParsedOpt>`, given `ParsedOpt::requirements` and the value
`ParsedOpt{}`. -/
def tryParse {ParsedOpt : Type} (requirements : List String) (value : ParsedOpt)
    (arguments : List String) : Option ParsedOpt :=
  if arguments.length ≠ requirements.length then
    none
  else if (std.mismatch requirements arguments).1 = requirements.length ∧
      (std.mismatch requirements arguments).2 = arguments.length then
    some value
  else
    none

/-- The specialisation `tryParse<AutoInstall>`, given `AutoInstall::requirements`.
`std::prev` of the end iterator is the position of the last element; on an empty
`requirements` the source steps before the beginning of the array, which has no defined
outcome. -/
def tryParse_AutoInstall (requirements : List String) (arguments : List String) :
    Option AutoInstall :=
  if arguments.length ≠ requirements.length then
    none
  else if (std.mismatch requirements arguments).1 = requirements.length - 1 ∧
      (std.mismatch requirements arguments).2 = arguments.length - 1 then
    some { autoInstallFile := arguments.getD (std.mismatch requirements arguments).2 "" }
  else
    none

/-- `Oobe::internal::parse`. -/
def parse (g : Grammar) (arguments : List String) : Opts :=
  match tryParse g.ManifestMatchedInstall Opts.ManifestMatchedInstall arguments with
  | some result => result
  | none =>
  match tryParse g.InstallDefault Opts.InstallDefault arguments with
  | some result => result
  | none =>
  match tryParse g.InstallOnlyDefault Opts.InstallOnlyDefault arguments with
  | some result => result
  | none =>
  match tryParse g.Reconfig Opts.Reconfig arguments with
  | some result => result
  | none =>
  match tryParse g.InteractiveInstallShell_SkipInstaller () arguments with
  | some _ => Opts.monostate
  | none =>
  match tryParse g.InteractiveInstallOnly_SkipInstaller () arguments with
  | some _ => Opts.monostate
  | none =>
  match tryParse_AutoInstall g.AutoInstall arguments with
  | some result => Opts.AutoInstall result
  | none =>
  match tryParse g.InteractiveInstallShell_OobeGui Opts.InteractiveInstallShell_OobeGui
      arguments with
  | some result => result
  | none =>
  match tryParse g.InteractiveInstallShell_OobeTui Opts.InteractiveInstallShell_OobeTui
      arguments with
  | some result => result
  | none =>
  match tryParse g.InteractiveInstallOnly_OobeGui Opts.InteractiveInstallOnly_OobeGui
      arguments with
  | some result => result
  | none =>
  match tryParse g.InteractiveInstallOnly_OobeTui Opts.InteractiveInstallOnly_OobeTui
      arguments with
  | some result => result
  | none => Opts.monostate

/-- The predicate `parseExtendedOptions` hands to `std::remove_if`: `std::find` does not end at
the end of `allExtendedArgs`. -/
def isExtendedArg (g : Grammar) (arg : String) : Bool :=
  decide (std.find g.allExtendedArgs arg ≠ g.allExtendedArgs.length)

/-- `Oobe::internal::parseExtendedOptions`: the options, and `arguments` as the call leaves
it. -/
def parseExtendedOptions (g : Grammar) (arguments : List String) : Opts × List String :=
  let options := parse g arguments
  let removed := std.remove_if (isExtendedArg g) arguments
  (options, std.erase removed.1 removed.2 removed.1.length)

/-- A grammar for trying the parser out: the command lines named in the comments of `parse`. -/
def sampleGrammar : Grammar :=
  { ManifestMatchedInstall := ["--hide-console"],
    InstallDefault := [],
    InstallOnlyDefault := ["install"],
    Reconfig := ["config"],
    InteractiveInstallShell_SkipInstaller := ["--ui=none"],
    InteractiveInstallOnly_SkipInstaller := ["install", "--ui=none"],
    AutoInstall := ["install", "--autoinstall", ""],
    InteractiveInstallShell_OobeGui := ["--ui=gui"],
    InteractiveInstallShell_OobeTui := ["--ui=tui"],
    InteractiveInstallOnly_OobeGui := ["install", "--ui=gui"],
    InteractiveInstallOnly_OobeTui := ["install", "--ui=tui"],
    allExtendedArgs :=
      ["--autoinstall", "--enable-installer", "--ui=gui", "--ui=tui", "--ui=none",
       "--hide-console"] }

end Oobe.internal

/-! ## Properties of the console service -/

namespace Win32Utils

open ConsoleService

/-- `_dup` touches the descriptor table only. -/
theorem dup_frame (os : Os) (fd : Int) :
    (_dup os fd).2.stdOutput = os.stdOutput ∧ (_dup os fd).2.stdError = os.stdError ∧
    (_dup os fd).2.stdInput = os.stdInput ∧
    (_dup os fd).2.consoleWindowVisible = os.consoleWindowVisible ∧
    (_dup os fd).2.unbuffered = os.unbuffered := by
  unfold _dup
  cases os.fds.lookup fd <;> simp

/-- `_dup2` touches the descriptor table only. -/
theorem dup2_frame (os : Os) (src dst : Int) :
    (_dup2 os src dst).stdOutput = os.stdOutput ∧ (_dup2 os src dst).stdError = os.stdError ∧
    (_dup2 os src dst).stdInput = os.stdInput ∧
    (_dup2 os src dst).consoleWindowVisible = os.consoleWindowVisible ∧
    (_dup2 os src dst).unbuffered = os.unbuffered := by
  unfold _dup2
  cases os.fds.lookup src <;> simp

/-- The snapshot holds the handles of the two standard slots, and taking it changes neither
slot. -/
theorem consoleState_handles (os : Os) :
    (consoleState os).1.stdOutHandle = os.stdOutput ∧
    (consoleState os).1.stdErrHandle = os.stdError ∧
    (consoleState os).2.stdOutput = os.stdOutput ∧
    (consoleState os).2.stdError = os.stdError ∧
    (consoleState os).2.stdInput = os.stdInput ∧
    (consoleState os).2.consoleWindowVisible = os.consoleWindowVisible := by
  have h1 := dup_frame os (_fileno stderr)
  have h2 := dup_frame (_dup os (_fileno stderr)).2 (_fileno stdout)
  simp only [consoleState, GetStdHandle, STD_ERROR_HANDLE, STD_OUTPUT_HANDLE, STD_INPUT_HANDLE]
  simp [h1, h2]

/-- Applied to the two standard slots, `applyConsoleState` leaves them holding the handles of
the state it was given: it writes them, or returns early because they are there already. -/
theorem applyConsoleState_std (state : ConsoleState) (stderrStream stdoutStream : FILE)
    (os : Os) :
    (applyConsoleState state stderrStream STD_ERROR_HANDLE stdoutStream STD_OUTPUT_HANDLE
      os).stdOutput = state.stdOutHandle ∧
    (applyConsoleState state stderrStream STD_ERROR_HANDLE stdoutStream STD_OUTPUT_HANDLE
      os).stdError = state.stdErrHandle := by
  have hc := consoleState_handles os
  unfold applyConsoleState
  by_cases heq : state.operator_eq (consoleState os).1 = true
  · simp only [heq, if_true]
    simp only [ConsoleState.operator_eq, Bool.and_eq_true, beq_iff_eq] at heq
    constructor
    · rw [hc.2.2.1, heq.2, hc.1]
    · rw [hc.2.2.2.1, heq.1, hc.2.1]
  · simp only [heq]
    simp [dup2_frame, SetStdHandle, STD_ERROR_HANDLE, STD_OUTPUT_HANDLE, STD_INPUT_HANDLE]

/-- `_close` and `setvbuf` leave the standard slots alone. -/
theorem close_setvbuf_frame (os : Os) (fd : Int) (stream : FILE) :
    (_close os fd).stdOutput = os.stdOutput ∧ (_close os fd).stdError = os.stdError ∧
    (setvbuf_IONBF os stream).stdOutput = os.stdOutput ∧
    (setvbuf_IONBF os stream).stdError = os.stdError := by
  simp [_close, setvbuf_IONBF]

/-- What a redirect of a service that is not redirected yet does when the pipe exposes its
write end: every component of the result. -/
theorem redirectConsole_valid {P : Type} (api : PipeApi P) (self : ConsoleService P)
    (stderrStream : FILE) (nStderrHandle : DWORD) (stdoutStream : FILE) (nStdoutHandle : DWORD)
    (os : Os) (hnot : self.bIsRedirected = false)
    (hvalid : (api.writeHandle self.redirectTo).1 ≠ nullptr) :
    self.redirectConsole api stderrStream nStderrHandle stdoutStream nStdoutHandle os =
      (.ok (api.readHandle (api.closeWriteHandles
          (api.writeFileDescriptor (api.writeHandle self.redirectTo).2).2)),
       { self with
          redirectTo := api.closeWriteHandles
            (api.writeFileDescriptor (api.writeHandle self.redirectTo).2).2,
          previousConsoleState := (consoleState os).1,
          bIsRedirected := true },
       setvbuf_IONBF (setvbuf_IONBF
          (applyConsoleState
            { stdOutFileDescriptor := (api.writeFileDescriptor (api.writeHandle self.redirectTo).2).1,
              stdErrFileDescriptor := (api.writeFileDescriptor (api.writeHandle self.redirectTo).2).1,
              stdOutHandle := (api.writeHandle self.redirectTo).1,
              stdErrHandle := (api.writeHandle self.redirectTo).1 }
            stderrStream nStderrHandle stdoutStream nStdoutHandle (consoleState os).2)
          stderrStream) stdoutStream) := by
  unfold redirectConsole
  simp [hnot, hvalid]

/-- What a restore of a redirected service does: every component of the result. -/
theorem restoreConsole_redirected {P : Type} (api : PipeApi P) (self : ConsoleService P)
    (stderrStream : FILE) (nStderrHandle : DWORD) (stdoutStream : FILE) (nStdoutHandle : DWORD)
    (os : Os) (hred : self.bIsRedirected = true) :
    self.restoreConsole api stderrStream nStderrHandle stdoutStream nStdoutHandle os =
      ({ self with redirectTo := api.disconnect self.redirectTo, bIsRedirected := false,
                   previousConsoleState := {} },
       _close (_close
          (applyConsoleState self.previousConsoleState stderrStream nStderrHandle stdoutStream
            nStdoutHandle os)
          self.previousConsoleState.stdErrFileDescriptor)
          self.previousConsoleState.stdOutFileDescriptor) := by
  unfold restoreConsole
  simp [hred]

/-- A restore of a redirected service on the two standard slots leaves them holding the handles
of the saved state. -/
theorem restoreConsole_std {P : Type} (api : PipeApi P) (self : ConsoleService P)
    (stderrStream stdoutStream : FILE) (os : Os) (hred : self.bIsRedirected = true) :
    (self.restoreConsole api stderrStream STD_ERROR_HANDLE stdoutStream STD_OUTPUT_HANDLE
      os).2.stdOutput = self.previousConsoleState.stdOutHandle ∧
    (self.restoreConsole api stderrStream STD_ERROR_HANDLE stdoutStream STD_OUTPUT_HANDLE
      os).2.stdError = self.previousConsoleState.stdErrHandle := by
  rw [restoreConsole_redirected api self _ _ _ _ os hred]
  have happly := applyConsoleState_std self.previousConsoleState stderrStream stdoutStream os
  simp only [_close]
  exact happly

/-- What a redirect of a service that is not redirected yet does when the pipe does not expose
its write end: every component of the result. -/
theorem redirectConsole_invalid {P : Type} (api : PipeApi P) (self : ConsoleService P)
    (stderrStream : FILE) (nStderrHandle : DWORD) (stdoutStream : FILE) (nStdoutHandle : DWORD)
    (os : Os) (hnot : self.bIsRedirected = false)
    (hinvalid : (api.writeHandle self.redirectTo).1 = nullptr) :
    self.redirectConsole api stderrStream nStderrHandle stdoutStream nStdoutHandle os =
      (.error "Pipe failed to expose the write handle",
       { self with redirectTo := (api.writeHandle self.redirectTo).2 }, os) := by
  unfold redirectConsole
  simp [hnot, hinvalid]

/-- What a redirect of a redirected service does: every component of the result. -/
theorem redirectConsole_redirected {P : Type} (api : PipeApi P) (self : ConsoleService P)
    (stderrStream : FILE) (nStderrHandle : DWORD) (stdoutStream : FILE) (nStdoutHandle : DWORD)
    (os : Os) (hred : self.bIsRedirected = true) :
    self.redirectConsole api stderrStream nStderrHandle stdoutStream nStdoutHandle os =
      (.ok (api.readHandle self.redirectTo), self, os) := by
  unfold redirectConsole
  simp [hred]

/-- What a restore of a service that is not redirected does: every component of the result. -/
theorem restoreConsole_idle {P : Type} (api : PipeApi P) (self : ConsoleService P)
    (stderrStream : FILE) (nStderrHandle : DWORD) (stdoutStream : FILE) (nStdoutHandle : DWORD)
    (os : Os) (hnot : self.bIsRedirected = false) :
    self.restoreConsole api stderrStream nStderrHandle stdoutStream nStdoutHandle os
      = (self, os) := by
  unfold restoreConsole
  simp [hnot]

/-- C1: when the pipe's `writeHandle()` answers the null handle, `redirectConsole` on a service
that is not redirected returns an error and no value; afterwards `isRedirected()` is false,
the saved previous console state is the one held before the call, and the operating-system
state is untouched. -/
theorem redirectConsole_invalid_write_handle_fails {P : Type} (api : PipeApi P)
    (self : ConsoleService P) (stderrStream : FILE) (nStderrHandle : DWORD)
    (stdoutStream : FILE) (nStdoutHandle : DWORD) (os : Os)
    (hnot : self.isRedirected = false)
    (hinvalid : (api.writeHandle self.redirectTo).1 = nullptr) :
    (∃ message,
      (self.redirectConsole api stderrStream nStderrHandle stdoutStream nStdoutHandle os).1
        = Except.error message) ∧
    (self.redirectConsole api stderrStream nStderrHandle stdoutStream nStdoutHandle
      os).2.1.isRedirected = false ∧
    (self.redirectConsole api stderrStream nStderrHandle stdoutStream nStdoutHandle
      os).2.1.previousConsoleState = self.previousConsoleState ∧
    (self.redirectConsole api stderrStream nStderrHandle stdoutStream nStdoutHandle os).2.2
      = os := by
  simp only [isRedirected] at hnot
  rw [redirectConsole_invalid api self _ _ _ _ os hnot hinvalid]
  exact ⟨⟨_, rfl⟩, hnot, rfl, rfl⟩

/-- Witness of C1: the pipe of `RedirectWithInvalidWriteHandleShouldFail` on a process with a
console. -/
theorem redirectConsole_invalid_write_handle_fails_witness :
    ((construct () 9 : ConsoleService Unit).isRedirected = false ∧
      ((brokenFakePipe 7).writeHandle (construct () 9 : ConsoleService Unit).redirectTo).1
        = nullptr) ∧
    ((∃ message,
      ((construct () 9).redirectConsole (brokenFakePipe 7) stderr STD_ERROR_HANDLE stdout
        STD_OUTPUT_HANDLE consoleOs).1 = Except.error message) ∧
    ((construct () 9).redirectConsole (brokenFakePipe 7) stderr STD_ERROR_HANDLE stdout
      STD_OUTPUT_HANDLE consoleOs).2.1.isRedirected = false ∧
    ((construct () 9).redirectConsole (brokenFakePipe 7) stderr STD_ERROR_HANDLE stdout
      STD_OUTPUT_HANDLE consoleOs).2.1.previousConsoleState
        = (construct () 9 : ConsoleService Unit).previousConsoleState ∧
    ((construct () 9).redirectConsole (brokenFakePipe 7) stderr STD_ERROR_HANDLE stdout
      STD_OUTPUT_HANDLE consoleOs).2.2 = consoleOs) :=
  ⟨⟨rfl, rfl⟩,
   redirectConsole_invalid_write_handle_fails (brokenFakePipe 7) (construct () 9) stderr
     STD_ERROR_HANDLE stdout STD_OUTPUT_HANDLE consoleOs rfl rfl⟩

/-- C2: when the pipe's `writeHandle()` answers a non-null handle, `redirectConsole` on a
service that is not redirected succeeds, its value is the pipe's read handle, and
`isRedirected()` is true afterwards; a `restoreConsole` that follows, with any arguments and
whatever happened to the operating system in between, leaves `isRedirected()` false. -/
theorem redirectConsole_valid_write_handle_succeeds {P : Type} (api : PipeApi P)
    (self : ConsoleService P) (stderrStream : FILE) (nStderrHandle : DWORD)
    (stdoutStream : FILE) (nStdoutHandle : DWORD) (os : Os)
    (hnot : self.isRedirected = false)
    (hvalid : (api.writeHandle self.redirectTo).1 ≠ nullptr) :
    (self.redirectConsole api stderrStream nStderrHandle stdoutStream nStdoutHandle os).1
      = Except.ok (api.readHandle
          (self.redirectConsole api stderrStream nStderrHandle stdoutStream nStdoutHandle
            os).2.1.redirectTo) ∧
    (self.redirectConsole api stderrStream nStderrHandle stdoutStream nStdoutHandle
      os).2.1.isRedirected = true ∧
    ∀ (stderrStream1 : FILE) (nStderrHandle1 : DWORD) (stdoutStream1 : FILE)
      (nStdoutHandle1 : DWORD) (os1 : Os),
      ((self.redirectConsole api stderrStream nStderrHandle stdoutStream nStdoutHandle
        os).2.1.restoreConsole api stderrStream1 nStderrHandle1 stdoutStream1 nStdoutHandle1
          os1).1.isRedirected = false := by
  simp only [isRedirected] at hnot
  rw [redirectConsole_valid api self _ _ _ _ os hnot hvalid]
  refine ⟨rfl, rfl, ?_⟩
  intro a b c d os1
  simp [restoreConsole, isRedirected]

/-- Witness of C2: the pipe of `RedirectingAGoodFakeDoesNothingButWontFail`, redirected onto
its own stream and slot number 1 as the test does. -/
theorem redirectConsole_valid_write_handle_succeeds_witness :
    ((construct goodPipe 9).isRedirected = false ∧
      (goodFakePipe.writeHandle (construct goodPipe 9).redirectTo).1 ≠ nullptr) ∧
    ((construct goodPipe 9).redirectConsole goodFakePipe goodPipe.stream 1 goodPipe.stream 1
      consoleOs).1 = Except.ok 40 ∧
    ((construct goodPipe 9).redirectConsole goodFakePipe goodPipe.stream 1 goodPipe.stream 1
      consoleOs).2.1.isRedirected = true :=
  ⟨⟨rfl, by decide⟩,
   (redirectConsole_valid_write_handle_succeeds goodFakePipe (construct goodPipe 9)
      goodPipe.stream 1 goodPipe.stream 1 consoleOs rfl (by decide)).1,
   (redirectConsole_valid_write_handle_succeeds goodFakePipe (construct goodPipe 9)
      goodPipe.stream 1 goodPipe.stream 1 consoleOs rfl (by decide)).2.1⟩

/-- C3: whatever handles the standard-output and standard-error slots hold at first, and for
every pipe with a valid write handle, `redirectConsole` on those two slots succeeds and a
`restoreConsole` on the same slots that follows leaves them holding the handles of the
snapshot the redirect saved: the snapshot of the slots taken afterwards is equal to it under
`operator==`, and each slot holds the handle it held before the redirect. -/
theorem redirect_restore_roundtrip {P : Type} (api : PipeApi P) (self : ConsoleService P)
    (stderrStream stdoutStream : FILE) (os : Os)
    (hnot : self.isRedirected = false)
    (hvalid : (api.writeHandle self.redirectTo).1 ≠ nullptr) :
    (∃ readHandle,
      (self.redirectConsole api stderrStream STD_ERROR_HANDLE stdoutStream STD_OUTPUT_HANDLE
        os).1 = Except.ok readHandle) ∧
    (self.redirectConsole api stderrStream STD_ERROR_HANDLE stdoutStream STD_OUTPUT_HANDLE
      os).2.1.previousConsoleState = (consoleState os).1 ∧
    ((consoleState
        ((self.redirectConsole api stderrStream STD_ERROR_HANDLE stdoutStream STD_OUTPUT_HANDLE
          os).2.1.restoreConsole api stderrStream STD_ERROR_HANDLE stdoutStream
            STD_OUTPUT_HANDLE
            (self.redirectConsole api stderrStream STD_ERROR_HANDLE stdoutStream
              STD_OUTPUT_HANDLE os).2.2).2).1.operator_eq
      (self.redirectConsole api stderrStream STD_ERROR_HANDLE stdoutStream STD_OUTPUT_HANDLE
        os).2.1.previousConsoleState) = true ∧
    GetStdHandle
      ((self.redirectConsole api stderrStream STD_ERROR_HANDLE stdoutStream STD_OUTPUT_HANDLE
        os).2.1.restoreConsole api stderrStream STD_ERROR_HANDLE stdoutStream
          STD_OUTPUT_HANDLE
          (self.redirectConsole api stderrStream STD_ERROR_HANDLE stdoutStream
            STD_OUTPUT_HANDLE os).2.2).2 STD_OUTPUT_HANDLE
      = GetStdHandle os STD_OUTPUT_HANDLE ∧
    GetStdHandle
      ((self.redirectConsole api stderrStream STD_ERROR_HANDLE stdoutStream STD_OUTPUT_HANDLE
        os).2.1.restoreConsole api stderrStream STD_ERROR_HANDLE stdoutStream
          STD_OUTPUT_HANDLE
          (self.redirectConsole api stderrStream STD_ERROR_HANDLE stdoutStream
            STD_OUTPUT_HANDLE os).2.2).2 STD_ERROR_HANDLE
      = GetStdHandle os STD_ERROR_HANDLE := by
  simp only [isRedirected] at hnot
  rw [redirectConsole_valid api self _ _ _ _ os hnot hvalid]
  have hsnap := consoleState_handles os
  have key := restoreConsole_std api
    ({ self with
        redirectTo := api.closeWriteHandles
          (api.writeFileDescriptor (api.writeHandle self.redirectTo).2).2,
        previousConsoleState := (consoleState os).1,
        bIsRedirected := true } : ConsoleService P) stderrStream stdoutStream
  replace key := fun os1 => key os1 rfl
  simp only [hsnap.1, hsnap.2.1] at key
  refine ⟨⟨_, rfl⟩, rfl, ?_, ?_, ?_⟩
  · simp only [ConsoleState.operator_eq, Bool.and_eq_true, beq_iff_eq]
    refine ⟨?_, ?_⟩
    · rw [(consoleState_handles _).2.1, (key _).2, hsnap.2.1]
    · rw [(consoleState_handles _).1, (key _).1, hsnap.1]
  · simp only [GetStdHandle, STD_OUTPUT_HANDLE, STD_INPUT_HANDLE]
    simpa using (key _).1
  · simp only [GetStdHandle, STD_ERROR_HANDLE, STD_OUTPUT_HANDLE, STD_INPUT_HANDLE]
    simpa using (key _).2

/-- Witness of C3: the healthy fake pipe on a process whose standard output holds handle 7 and
whose standard error holds handle 11; after the round trip they hold 7 and 11 again. -/
theorem redirect_restore_roundtrip_witness :
    ((construct goodPipe 9).isRedirected = false ∧
      (goodFakePipe.writeHandle (construct goodPipe 9).redirectTo).1 ≠ nullptr) ∧
    GetStdHandle
      (((construct goodPipe 9).redirectConsole goodFakePipe stderr STD_ERROR_HANDLE stdout
        STD_OUTPUT_HANDLE consoleOs).2.1.restoreConsole goodFakePipe stderr STD_ERROR_HANDLE
          stdout STD_OUTPUT_HANDLE
          ((construct goodPipe 9).redirectConsole goodFakePipe stderr STD_ERROR_HANDLE stdout
            STD_OUTPUT_HANDLE consoleOs).2.2).2 STD_OUTPUT_HANDLE = 7 ∧
    GetStdHandle
      (((construct goodPipe 9).redirectConsole goodFakePipe stderr STD_ERROR_HANDLE stdout
        STD_OUTPUT_HANDLE consoleOs).2.1.restoreConsole goodFakePipe stderr STD_ERROR_HANDLE
          stdout STD_OUTPUT_HANDLE
          ((construct goodPipe 9).redirectConsole goodFakePipe stderr STD_ERROR_HANDLE stdout
            STD_OUTPUT_HANDLE consoleOs).2.2).2 STD_ERROR_HANDLE = 11 :=
  ⟨⟨rfl, by decide⟩,
   (redirect_restore_roundtrip goodFakePipe (construct goodPipe 9) stderr stdout consoleOs rfl
      (by decide)).2.2.2.1,
   (redirect_restore_roundtrip goodFakePipe (construct goodPipe 9) stderr stdout consoleOs rfl
      (by decide)).2.2.2.2⟩

/-- C4: `restoreConsole` on a service whose `isRedirected()` is false returns the service and
the operating-system state exactly as they were (the function has no failing outcome); in
particular, after a successful redirect and a first `restoreConsole`, a second
`restoreConsole` changes neither the service nor the operating-system state it runs in. -/
theorem restoreConsole_not_redirected_is_noop {P : Type} (api : PipeApi P)
    (self : ConsoleService P) (stderrStream : FILE) (nStderrHandle : DWORD)
    (stdoutStream : FILE) (nStdoutHandle : DWORD) (os : Os)
    (hnot : self.isRedirected = false) :
    self.restoreConsole api stderrStream nStderrHandle stdoutStream nStdoutHandle os
      = (self, os) ∧
    ((api.writeHandle self.redirectTo).1 ≠ nullptr →
      ∀ (stderrStream1 : FILE) (nStderrHandle1 : DWORD) (stdoutStream1 : FILE)
        (nStdoutHandle1 : DWORD) (stderrStream2 : FILE) (nStderrHandle2 : DWORD)
        (stdoutStream2 : FILE) (nStdoutHandle2 : DWORD),
        (∃ readHandle,
          (self.redirectConsole api stderrStream nStderrHandle stdoutStream nStdoutHandle
            os).1 = Except.ok readHandle) ∧
        ((self.redirectConsole api stderrStream nStderrHandle stdoutStream nStdoutHandle
            os).2.1.restoreConsole api stderrStream1 nStderrHandle1 stdoutStream1
              nStdoutHandle1
              (self.redirectConsole api stderrStream nStderrHandle stdoutStream nStdoutHandle
                os).2.2).1.restoreConsole api stderrStream2 nStderrHandle2 stdoutStream2
                  nStdoutHandle2
            ((self.redirectConsole api stderrStream nStderrHandle stdoutStream nStdoutHandle
              os).2.1.restoreConsole api stderrStream1 nStderrHandle1 stdoutStream1
                nStdoutHandle1
                (self.redirectConsole api stderrStream nStderrHandle stdoutStream
                  nStdoutHandle os).2.2).2
          = (self.redirectConsole api stderrStream nStderrHandle stdoutStream nStdoutHandle
              os).2.1.restoreConsole api stderrStream1 nStderrHandle1 stdoutStream1
                nStdoutHandle1
                (self.redirectConsole api stderrStream nStderrHandle stdoutStream nStdoutHandle
                  os).2.2) := by
  simp only [isRedirected] at hnot
  refine ⟨restoreConsole_idle api self _ _ _ _ os hnot, ?_⟩
  intro hvalid a1 b1 c1 d1 a2 b2 c2 d2
  rw [redirectConsole_valid api self _ _ _ _ os hnot hvalid]
  refine ⟨⟨_, rfl⟩, ?_⟩
  rw [restoreConsole_redirected api _ a1 b1 c1 d1 _ rfl]
  exact restoreConsole_idle api _ _ _ _ _ _ rfl

/-- Witness of C4: a freshly constructed service over the healthy fake pipe; a restore changes
nothing, and after a redirect the second of two restores changes nothing. -/
theorem restoreConsole_not_redirected_is_noop_witness :
    ((construct goodPipe 9).isRedirected = false ∧
      (goodFakePipe.writeHandle (construct goodPipe 9).redirectTo).1 ≠ nullptr) ∧
    (construct goodPipe 9).restoreConsole goodFakePipe stderr STD_ERROR_HANDLE stdout
      STD_OUTPUT_HANDLE consoleOs = (construct goodPipe 9, consoleOs) ∧
    (((construct goodPipe 9).redirectConsole goodFakePipe stderr STD_ERROR_HANDLE stdout
        STD_OUTPUT_HANDLE consoleOs).2.1.restoreConsole goodFakePipe stderr STD_ERROR_HANDLE
          stdout STD_OUTPUT_HANDLE
          ((construct goodPipe 9).redirectConsole goodFakePipe stderr STD_ERROR_HANDLE stdout
            STD_OUTPUT_HANDLE consoleOs).2.2).1.restoreConsole goodFakePipe stderr
              STD_ERROR_HANDLE stdout STD_OUTPUT_HANDLE
        (((construct goodPipe 9).redirectConsole goodFakePipe stderr STD_ERROR_HANDLE stdout
          STD_OUTPUT_HANDLE consoleOs).2.1.restoreConsole goodFakePipe stderr STD_ERROR_HANDLE
            stdout STD_OUTPUT_HANDLE
            ((construct goodPipe 9).redirectConsole goodFakePipe stderr STD_ERROR_HANDLE stdout
              STD_OUTPUT_HANDLE consoleOs).2.2).2
      = ((construct goodPipe 9).redirectConsole goodFakePipe stderr STD_ERROR_HANDLE stdout
          STD_OUTPUT_HANDLE consoleOs).2.1.restoreConsole goodFakePipe stderr STD_ERROR_HANDLE
            stdout STD_OUTPUT_HANDLE
            ((construct goodPipe 9).redirectConsole goodFakePipe stderr STD_ERROR_HANDLE stdout
              STD_OUTPUT_HANDLE consoleOs).2.2 :=
  ⟨⟨rfl, by decide⟩,
   (restoreConsole_not_redirected_is_noop goodFakePipe (construct goodPipe 9) stderr
      STD_ERROR_HANDLE stdout STD_OUTPUT_HANDLE consoleOs rfl).1,
   ((restoreConsole_not_redirected_is_noop goodFakePipe (construct goodPipe 9) stderr
      STD_ERROR_HANDLE stdout STD_OUTPUT_HANDLE consoleOs rfl).2 (by decide)
      stderr STD_ERROR_HANDLE stdout STD_OUTPUT_HANDLE
      stderr STD_ERROR_HANDLE stdout STD_OUTPUT_HANDLE).2⟩

/-- C5: `redirectConsole` on a service whose `isRedirected()` is true already changes
nothing: the pipe object is the one held before (its write end is not asked for), the
operating-system state with its stream slots is the one before, the saved console state is
the one before, and the value returned is the read handle of that pipe. -/
theorem redirectConsole_already_redirected_is_noop {P : Type} (api : PipeApi P)
    (self : ConsoleService P) (stderrStream : FILE) (nStderrHandle : DWORD)
    (stdoutStream : FILE) (nStdoutHandle : DWORD) (os : Os)
    (hred : self.isRedirected = true) :
    self.redirectConsole api stderrStream nStderrHandle stdoutStream nStdoutHandle os
      = (Except.ok (api.readHandle self.redirectTo), self, os) := by
  simp only [isRedirected] at hred
  exact redirectConsole_redirected api self _ _ _ _ os hred

/-- Witness of C5: a redirected service over the pipe that counts the requests for its write
end; the count is 0 before the call and 0 after it. -/
theorem redirectConsole_already_redirected_is_noop_witness :
    ({ redirectTo := 0, bIsRedirected := true, window_ := 9,
       previousConsoleState := { stdOutHandle := 7, stdErrHandle := 11 } } :
        ConsoleService Nat).isRedirected = true ∧
    (({ redirectTo := 0, bIsRedirected := true, window_ := 9,
        previousConsoleState := { stdOutHandle := 7, stdErrHandle := 11 } } :
        ConsoleService Nat).redirectConsole (countingPipe 40) stderr STD_ERROR_HANDLE stdout
          STD_OUTPUT_HANDLE consoleOs).2.1.redirectTo = 0 :=
  ⟨rfl,
   congrArg (fun r => r.2.1.redirectTo)
    (redirectConsole_already_redirected_is_noop (countingPipe 40)
      { redirectTo := 0, bIsRedirected := true, window_ := 9,
        previousConsoleState := { stdOutHandle := 7, stdErrHandle := 11 } }
      stderr STD_ERROR_HANDLE stdout STD_OUTPUT_HANDLE consoleOs rfl)⟩

/-- C6: `a == b` on two `ConsoleState` values holds exactly when their stdout handles are
equal and their stderr handles are equal; replacing the two file descriptors of either side
by any values leaves the result as it is; and the relation is reflexive, symmetric and
transitive. -/
theorem ConsoleState_operator_eq_iff_handles :
    (∀ a b : ConsoleState,
      a.operator_eq b = true ↔
        (a.stdOutHandle = b.stdOutHandle ∧ a.stdErrHandle = b.stdErrHandle)) ∧
    (∀ (a b : ConsoleState) (outFd errFd outFd1 errFd1 : Int),
      ConsoleState.operator_eq
        { a with stdOutFileDescriptor := outFd, stdErrFileDescriptor := errFd }
        { b with stdOutFileDescriptor := outFd1, stdErrFileDescriptor := errFd1 }
        = a.operator_eq b) ∧
    (∀ a : ConsoleState, a.operator_eq a = true) ∧
    (∀ a b : ConsoleState, a.operator_eq b = true → b.operator_eq a = true) ∧
    (∀ a b c : ConsoleState,
      a.operator_eq b = true → b.operator_eq c = true → a.operator_eq c = true) := by
  refine ⟨?_, ?_, ?_, ?_, ?_⟩
  · intro a b
    simp only [ConsoleState.operator_eq, Bool.and_eq_true, beq_iff_eq]
    exact ⟨fun h => ⟨h.2, h.1⟩, fun h => ⟨h.2, h.1⟩⟩
  · intro a b _ _ _ _
    rfl
  · intro a
    simp [ConsoleState.operator_eq]
  · intro a b h
    simp only [ConsoleState.operator_eq, Bool.and_eq_true, beq_iff_eq] at h ⊢
    exact ⟨h.1.symm, h.2.symm⟩
  · intro a b c h1 h2
    simp only [ConsoleState.operator_eq, Bool.and_eq_true, beq_iff_eq] at h1 h2 ⊢
    exact ⟨h1.1.trans h2.1, h1.2.trans h2.2⟩

/-- Witness of C6: two snapshots of the same handles 7 and 11 with different descriptors are
equal in both directions, and a snapshot with another stderr handle is not equal to them. -/
theorem ConsoleState_operator_eq_iff_handles_witness :
    ConsoleState.operator_eq
      { stdOutFileDescriptor := 4, stdErrFileDescriptor := 3, stdOutHandle := 7,
        stdErrHandle := 11 }
      { stdOutFileDescriptor := 8, stdErrFileDescriptor := 6, stdOutHandle := 7,
        stdErrHandle := 11 } = true ∧
    ConsoleState.operator_eq
      { stdOutFileDescriptor := 8, stdErrFileDescriptor := 6, stdOutHandle := 7,
        stdErrHandle := 11 }
      { stdOutFileDescriptor := 4, stdErrFileDescriptor := 3, stdOutHandle := 7,
        stdErrHandle := 11 } = true ∧
    ¬ (ConsoleState.operator_eq
      { stdOutFileDescriptor := 4, stdErrFileDescriptor := 3, stdOutHandle := 7,
        stdErrHandle := 11 }
      { stdOutFileDescriptor := 4, stdErrFileDescriptor := 3, stdOutHandle := 7,
        stdErrHandle := 12 } = true) :=
  ⟨(ConsoleState_operator_eq_iff_handles.1 _ _).2 ⟨rfl, rfl⟩,
   ConsoleState_operator_eq_iff_handles.2.2.2.1 _ _
    ((ConsoleState_operator_eq_iff_handles.1 _ _).2 ⟨rfl, rfl⟩),
   fun h => absurd ((ConsoleState_operator_eq_iff_handles.1 _ _).1 h).2 (by decide)⟩

/-- The invariant of the saved state, on a service and the record of the redirect in
force. -/
theorem callStep_invariant {P : Type} (api : PipeApi P)
    (st : ConsoleService P × Option RedirectRecord) (call : ConsoleCall)
    (hoff : st.1.bIsRedirected = false → st.2 = none ∧ st.1.previousConsoleState = {})
    (hon : st.1.bIsRedirected = true → ∃ record, st.2 = some record ∧
      st.1.previousConsoleState.stdOutHandle = record.stdOutBefore ∧
      st.1.previousConsoleState.stdErrHandle = record.stdErrBefore) :
    ((callStep api st call).1.bIsRedirected = false →
      (callStep api st call).2 = none ∧ (callStep api st call).1.previousConsoleState = {}) ∧
    ((callStep api st call).1.bIsRedirected = true → ∃ record,
      (callStep api st call).2 = some record ∧
      (callStep api st call).1.previousConsoleState.stdOutHandle = record.stdOutBefore ∧
      (callStep api st call).1.previousConsoleState.stdErrHandle = record.stdErrBefore) := by
  obtain ⟨service, record⟩ := st
  cases hflag : service.bIsRedirected with
  | true =>
    have hon1 := hon hflag
    cases call with
    | redirectConsole a b c d os =>
      simp only [callStep, redirectConsole_redirected api service a b c d os hflag,
        isRedirected, hflag, Bool.not_true, Bool.false_and, Bool.false_eq_true, if_false]
      exact ⟨fun h => by simp at h, fun _ => hon1⟩
    | restoreConsole a b c d os =>
      simp only [callStep, restoreConsole_redirected api service a b c d os hflag,
        isRedirected, hflag, if_true]
      simp
  | false =>
    have hoff1 := hoff hflag
    cases call with
    | redirectConsole a b c d os =>
      by_cases hvalid : (api.writeHandle service.redirectTo).1 = nullptr
      · simp only [callStep, redirectConsole_invalid api service a b c d os hflag hvalid,
          isRedirected, hflag, Bool.not_false, Bool.and_false, Bool.false_eq_true, if_false]
        exact ⟨fun _ => hoff1, fun h => by simp at h⟩
      · have hsnap := consoleState_handles os
        simp only [callStep, redirectConsole_valid api service a b c d os hflag hvalid,
          isRedirected, hflag, Bool.not_false, Bool.and_self, if_true]
        refine ⟨fun h => by simp at h, fun _ => ⟨_, rfl, ?_, ?_⟩⟩
        · simp [hsnap.1, GetStdHandle, STD_OUTPUT_HANDLE, STD_INPUT_HANDLE]
        · simp [hsnap.2.1, GetStdHandle, STD_ERROR_HANDLE, STD_OUTPUT_HANDLE, STD_INPUT_HANDLE]
    | restoreConsole a b c d os =>
      simp only [callStep, restoreConsole_idle api service a b c d os hflag,
        isRedirected, hflag, Bool.false_eq_true, if_false]
      exact ⟨fun _ => hoff1, fun h => by simp at h⟩

/-- The invariant of `callStep_invariant` holds after every sequence of calls from a state where
it holds. -/
theorem foldl_callStep_invariant {P : Type} (api : PipeApi P) (calls : List ConsoleCall) :
    ∀ st : ConsoleService P × Option RedirectRecord,
      (st.1.bIsRedirected = false → st.2 = none ∧ st.1.previousConsoleState = {}) →
      (st.1.bIsRedirected = true → ∃ record, st.2 = some record ∧
        st.1.previousConsoleState.stdOutHandle = record.stdOutBefore ∧
        st.1.previousConsoleState.stdErrHandle = record.stdErrBefore) →
      (((calls.foldl (callStep api) st).1.bIsRedirected = false →
        (calls.foldl (callStep api) st).2 = none ∧
        (calls.foldl (callStep api) st).1.previousConsoleState = {}) ∧
      ((calls.foldl (callStep api) st).1.bIsRedirected = true → ∃ record,
        (calls.foldl (callStep api) st).2 = some record ∧
        (calls.foldl (callStep api) st).1.previousConsoleState.stdOutHandle
          = record.stdOutBefore ∧
        (calls.foldl (callStep api) st).1.previousConsoleState.stdErrHandle
          = record.stdErrBefore)) := by
  induction calls with
  | nil => intro st hoff hon; exact ⟨hoff, hon⟩
  | cons call rest ih =>
    intro st hoff hon
    have hstep := callStep_invariant api st call hoff hon
    exact ih (callStep api st call) hstep.1 hstep.2

/-- C7: the code at the failing input.  On a process without standard handles, one
`redirectConsole` on a service over the healthy fake pipe leaves `isRedirected()` true with a
saved state that is the default-constructed `ConsoleState`, the one the source calls
completely invalid: the snapshot is stored as it comes.  In the same way, on a process whose
two standard slots already hold the pipe's write handle, it leaves `isRedirected()` true with
a saved state equal under `operator==` to the pipe state the redirect installs. -/
theorem redirectConsole_saves_invalid_state :
    ((runCalls goodFakePipe goodPipe 9
        [.redirectConsole stderr STD_ERROR_HANDLE stdout STD_OUTPUT_HANDLE
          detachedOs]).1.isRedirected = true ∧
      (runCalls goodFakePipe goodPipe 9
        [.redirectConsole stderr STD_ERROR_HANDLE stdout STD_OUTPUT_HANDLE
          detachedOs]).1.previousConsoleState = {}) ∧
    ((runCalls goodFakePipe goodPipe 9
        [.redirectConsole stderr STD_ERROR_HANDLE stdout STD_OUTPUT_HANDLE
          sameHandleOs]).1.isRedirected = true ∧
      (runCalls goodFakePipe goodPipe 9
        [.redirectConsole stderr STD_ERROR_HANDLE stdout STD_OUTPUT_HANDLE
          sameHandleOs]).2
        = some { stdOutBefore := 40, stdErrBefore := 40,
                 installed := installedState goodFakePipe goodPipe } ∧
      (runCalls goodFakePipe goodPipe 9
        [.redirectConsole stderr STD_ERROR_HANDLE stdout STD_OUTPUT_HANDLE
          sameHandleOs]).1.previousConsoleState.operator_eq
        (installedState goodFakePipe goodPipe) = true) := by
  decide

/-- What does hold of the saved state: in every state reached from construction by a sequence
of `redirectConsole` and `restoreConsole` calls, made with any arguments in any states of the
operating system, `isRedirected()` false implies that no redirect is in force and the saved
state is the default-constructed one, and `isRedirected()` true implies that the saved state
holds the handles the standard-output and standard-error slots held when the redirect in force
was made; it then differs under `operator==` from the default-constructed state whenever one
of the two slots held a non-null handle, and from the pipe state the redirect installed
whenever the two slots did not both hold that state's handle already. -/
theorem saved_state_is_snapshot {P : Type} (api : PipeApi P) (pipe : P) (window : HWND)
    (calls : List ConsoleCall) :
    ((runCalls api pipe window calls).1.isRedirected = false →
      (runCalls api pipe window calls).2 = none ∧
      (runCalls api pipe window calls).1.previousConsoleState = {}) ∧
    ((runCalls api pipe window calls).1.isRedirected = true → ∃ record,
      (runCalls api pipe window calls).2 = some record ∧
      (runCalls api pipe window calls).1.previousConsoleState.stdOutHandle
        = record.stdOutBefore ∧
      (runCalls api pipe window calls).1.previousConsoleState.stdErrHandle
        = record.stdErrBefore ∧
      (¬ (record.stdOutBefore = nullptr ∧ record.stdErrBefore = nullptr) →
        (runCalls api pipe window calls).1.previousConsoleState.operator_eq {} = false) ∧
      (¬ (record.stdOutBefore = record.installed.stdOutHandle ∧
          record.stdErrBefore = record.installed.stdErrHandle) →
        (runCalls api pipe window calls).1.previousConsoleState.operator_eq record.installed
          = false)) := by
  have hinv := foldl_callStep_invariant api calls (construct pipe window, none)
    (fun _ => ⟨rfl, rfl⟩) (fun h => by simp [construct] at h)
  refine ⟨hinv.1, fun hred => ?_⟩
  obtain ⟨record, hrec, hout, herr⟩ := hinv.2 hred
  refine ⟨record, hrec, hout, herr, ?_, ?_⟩
  · intro hnull
    cases hcmp : ConsoleState.operator_eq
        (runCalls api pipe window calls).1.previousConsoleState {} with
    | false => rfl
    | true =>
      simp only [ConsoleState.operator_eq, Bool.and_eq_true, beq_iff_eq] at hcmp
      exact absurd ⟨hout ▸ hcmp.2, herr ▸ hcmp.1⟩ hnull
  · intro hdiff
    cases hcmp : ConsoleState.operator_eq
        (runCalls api pipe window calls).1.previousConsoleState record.installed with
    | false => rfl
    | true =>
      simp only [ConsoleState.operator_eq, Bool.and_eq_true, beq_iff_eq] at hcmp
      exact absurd ⟨hout ▸ hcmp.2, herr ▸ hcmp.1⟩ hdiff

/-- The saved state at a concrete input: on a process with a console whose standard output
holds handle 7 and standard error handle 11, the state saved by a redirect over the healthy
fake pipe holds 7 and 11, and after the restore that follows the saved state is the default
one again. -/
theorem saved_state_is_snapshot_witness :
    (∃ record,
      (runCalls goodFakePipe goodPipe 9
        [.redirectConsole stderr STD_ERROR_HANDLE stdout STD_OUTPUT_HANDLE consoleOs]).2
        = some record ∧
      (runCalls goodFakePipe goodPipe 9
        [.redirectConsole stderr STD_ERROR_HANDLE stdout STD_OUTPUT_HANDLE
          consoleOs]).1.previousConsoleState.stdOutHandle = record.stdOutBefore ∧
      record.stdOutBefore = 7 ∧ record.stdErrBefore = 11) ∧
    (runCalls goodFakePipe goodPipe 9
      [.redirectConsole stderr STD_ERROR_HANDLE stdout STD_OUTPUT_HANDLE consoleOs,
       .restoreConsole stderr STD_ERROR_HANDLE stdout STD_OUTPUT_HANDLE
         consoleOs]).1.previousConsoleState = {} := by
  refine ⟨?_, ?_⟩
  · obtain ⟨record, hrec, hout, _, _, _⟩ :=
      (saved_state_is_snapshot goodFakePipe goodPipe 9
        [.redirectConsole stderr STD_ERROR_HANDLE stdout STD_OUTPUT_HANDLE consoleOs]).2
        (by decide)
    refine ⟨record, hrec, hout, ?_, ?_⟩
    · have h : (runCalls goodFakePipe goodPipe 9
          [.redirectConsole stderr STD_ERROR_HANDLE stdout STD_OUTPUT_HANDLE consoleOs]).2
          = some { stdOutBefore := 7, stdErrBefore := 11,
                   installed := installedState goodFakePipe goodPipe } := by decide
      rw [h] at hrec
      cases hrec
      rfl
    · have h : (runCalls goodFakePipe goodPipe 9
          [.redirectConsole stderr STD_ERROR_HANDLE stdout STD_OUTPUT_HANDLE consoleOs]).2
          = some { stdOutBefore := 7, stdErrBefore := 11,
                   installed := installedState goodFakePipe goodPipe } := by decide
      rw [h] at hrec
      cases hrec
      rfl
  · exact ((saved_state_is_snapshot goodFakePipe goodPipe 9
      [.redirectConsole stderr STD_ERROR_HANDLE stdout STD_OUTPUT_HANDLE consoleOs,
       .restoreConsole stderr STD_ERROR_HANDLE stdout STD_OUTPUT_HANDLE consoleOs]).1
      (by decide)).2

end Win32Utils

/-! ## Properties of the installer orchestration -/

namespace Oobe

open Win32Utils SplashEnabledStrategy

variable {P I S : Type}

/-- With a console service in place `do_show_console` returns normally; it touches neither the
installer nor the splash state, and keeps the console service in place. -/
theorem do_show_console_ok (c : Controllers P I S) (self : SplashEnabledStrategy P I S)
    (w : World) (hconsole : self.console.isSome = true) :
    ∃ self1 w1, do_show_console c self w = .ok (self1, w1) ∧
      self1.installer = self.installer ∧ self1.console.isSome = true ∧
      self1.splash = self.splash ∧ self1.splashIsRunning = self.splashIsRunning ∧
      self1.splashWindow = self.splashWindow := by
  unfold do_show_console
  rcases hlock : try_lock_for w with ⟨acquired, w1⟩
  cases acquired with
  | false =>
    simp only [Bool.not_false, if_true]
    exact ⟨_, _, rfl, rfl, hconsole, rfl, rfl, rfl⟩
  | true =>
    cases hsvc : self.console with
    | none => simp [hsvc] at hconsole
    | some service =>
      cases hvis : self.consoleIsVisible with
      | false =>
        simp only [Bool.not_true, Bool.false_eq_true, if_false, Bool.not_false, if_true]
        exact ⟨_, _, rfl, rfl, rfl, rfl, rfl, rfl⟩
      | true =>
        simp only [Bool.not_true, Bool.false_eq_true, if_false]
        exact ⟨_, _, rfl, rfl, rfl, rfl, rfl, rfl⟩

/-- With a splash controller in place `do_toggle_splash` returns normally; only the splash
state machine changes. -/
theorem do_toggle_splash_ok (c : Controllers P I S) (self : SplashEnabledStrategy P I S)
    (hsplash : self.splash.isSome = true) :
    ∃ self1, do_toggle_splash c self = .ok self1 ∧
      self1.installer = self.installer ∧ self1.console = self.console ∧
      self1.splash.isSome = true ∧ self1.splashIsRunning = self.splashIsRunning := by
  unfold do_toggle_splash
  cases hsm : self.splash with
  | none => simp [hsm] at hsplash
  | some sm => exact ⟨_, rfl, rfl, rfl, rfl, rfl⟩

/-- With the console service and the splash controller in place `do_close_splash` returns
normally and leaves `splashIsRunning` false; the installer is untouched. -/
theorem do_close_splash_ok (c : Controllers P I S) (self : SplashEnabledStrategy P I S)
    (w : World) (hboth : self.hasConsoleAndSplash = true) :
    ∃ self1 w1, do_close_splash c self w = .ok (self1, w1) ∧
      self1.installer = self.installer ∧ self1.hasConsoleAndSplash = true ∧
      self1.splashIsRunning = false := by
  simp only [hasConsoleAndSplash, Bool.and_eq_true] at hboth
  obtain ⟨self1, w1, hshow, hinst, hcons, hsplash, hrun, _⟩ :=
    do_show_console_ok c self w hboth.1
  unfold do_close_splash
  simp only [hshow]
  cases hflag : self1.splashIsRunning with
  | false =>
    refine ⟨self1, w1, by simp, hinst, ?_, hflag⟩
    simp [hasConsoleAndSplash, hcons, hsplash, hboth.2]
  | true =>
    cases hsm : self1.splash with
    | none => rw [hsplash] at hsm; simp [hsm] at hboth
    | some sm =>
      simp only [if_true]
      refine ⟨_, _, rfl, hinst, ?_, rfl⟩
      simp [hasConsoleAndSplash, hcons]

/-- With the console service and the splash controller in place the visitor of `do_install`
returns normally with the status `statusAfterState` gives; the installer is untouched, and
after `Success` the flag `splashIsRunning` is false. -/
theorem do_install_visit_ok (c : Controllers P I S) (state : InstallerState) (hr : HRESULT)
    (self : SplashEnabledStrategy P I S) (w : World)
    (hboth : self.hasConsoleAndSplash = true) :
    ∃ self1 w1, do_install_visit c state hr self w
        = .ok (statusAfterState hr state, self1, w1) ∧
      self1.installer = self.installer ∧ self1.hasConsoleAndSplash = true ∧
      (state = .Success → self1.splashIsRunning = false) := by
  have hparts := hboth
  simp only [hasConsoleAndSplash, Bool.and_eq_true] at hparts
  cases state with
  | PreparedTui =>
    obtain ⟨self1, w1, hshow, hinst, hcons, hsplash, _, _⟩ :=
      do_show_console_ok c self w hparts.1
    refine ⟨self1, w1, by simp [do_install_visit, hshow, statusAfterState], hinst, ?_,
      fun h => by cases h⟩
    simp [hasConsoleAndSplash, hcons, hsplash, hparts.2]
  | PreparedGui =>
    exact ⟨self, w, rfl, rfl, hboth, fun h => by cases h⟩
  | Ready =>
    obtain ⟨self1, htoggle, hinst, hcons, hsplash, _⟩ := do_toggle_splash_ok c self hparts.2
    refine ⟨self1, w, by simp [do_install_visit, htoggle, statusAfterState], hinst, ?_,
      fun h => by cases h⟩
    simp [hasConsoleAndSplash, hcons, hsplash, hparts.1]
  | Success =>
    obtain ⟨self1, w1, hclose, hinst, hboth1, hrun⟩ := do_close_splash_ok c self w hboth
    exact ⟨self1, w1, by simp [do_install_visit, hclose, statusAfterState], hinst, hboth1,
      fun _ => hrun⟩
  | UpstreamDefaultInstall code =>
    obtain ⟨self1, w1, hshow, hinst, hcons, hsplash, _, _⟩ :=
      do_show_console_ok c self w hparts.1
    refine ⟨self1, w1, by simp [do_install_visit, hshow, statusAfterState], hinst, ?_,
      fun h => by cases h⟩
    simp [hasConsoleAndSplash, hcons, hsplash, hparts.2]
  | Other tag =>
    exact ⟨self, w, rfl, rfl, hboth, fun h => by cases h⟩

/-- One turn of the loop of `do_install` on an event the installer accepts: the loop goes on
with the remaining events, the status `statusAfterState` gives and the installer machine the
event left. -/
theorem do_install_loop_accept (c : Controllers P I S) (ev : InstallerEvent)
    (rest : List InstallerEvent) (hr : HRESULT) (self : SplashEnabledStrategy P I S)
    (w : World) (state : InstallerState) (sm1 : I)
    (hboth : self.hasConsoleAndSplash = true)
    (haccept : c.installer_addEvent self.installer ev = (some state, sm1)) :
    ∃ self1 w1, do_install_loop c (ev :: rest) hr self w
        = do_install_loop c rest (statusAfterState hr state) self1 w1 ∧
      self1.installer = sm1 ∧ self1.hasConsoleAndSplash = true ∧
      (state = .Success → self1.splashIsRunning = false) := by
  obtain ⟨self1, w1, hvisit, hinst, hboth1, hrun⟩ :=
    do_install_visit_ok c state hr { self with installer := sm1 } w hboth
  refine ⟨self1, w1, ?_, hinst, hboth1, hrun⟩
  simp only [do_install_loop, haccept, hvisit]

/-- One turn of the loop of `do_install` on an event the installer rejects: the call returns
the status so far, with the installer machine the rejected event left and `splashIsRunning`
false. -/
theorem do_install_loop_reject (c : Controllers P I S) (ev : InstallerEvent)
    (rest : List InstallerEvent) (hr : HRESULT) (self : SplashEnabledStrategy P I S)
    (w : World) (sm1 : I)
    (hboth : self.hasConsoleAndSplash = true)
    (hreject : c.installer_addEvent self.installer ev = (none, sm1)) :
    ∃ self1 w1, do_install_loop c (ev :: rest) hr self w = .ok (hr, self1, w1) ∧
      self1.installer = sm1 ∧ self1.hasConsoleAndSplash = true ∧
      self1.splashIsRunning = false := by
  obtain ⟨self1, w1, hclose, hinst, hboth1, hrun⟩ :=
    do_close_splash_ok c { self with installer := sm1 } w hboth
  refine ⟨self1, w1, ?_, hinst, hboth1, hrun⟩
  simp only [do_install_loop, hreject, hclose]

/-- The loop of `do_install` against `feedInstaller`: with the console service and the splash
controller in place the loop returns normally, its status is the one the visitor accumulates
over the states answered before the first rejection, the installer machine it leaves is the
one left by the last event `feedInstaller` fed, and after a rejection `splashIsRunning` is
false. -/
theorem do_install_loop_ok (c : Controllers P I S) (events : List InstallerEvent) :
    ∀ (hr : HRESULT) (self : SplashEnabledStrategy P I S) (w : World),
      self.hasConsoleAndSplash = true →
      ∃ self1 w1, do_install_loop c events hr self w
          = .ok ((feedInstaller c self.installer events).1.foldl statusAfterState hr,
              self1, w1) ∧
        self1.installer = (feedInstaller c self.installer events).2.1 ∧
        self1.hasConsoleAndSplash = true ∧
        ((feedInstaller c self.installer events).2.2 = true →
          self1.splashIsRunning = false) := by
  induction events with
  | nil =>
    intro hr self w hboth
    exact ⟨self, w, rfl, rfl, hboth, fun h => by simp [feedInstaller] at h⟩
  | cons ev rest ih =>
    intro hr self w hboth
    rcases hadd : c.installer_addEvent self.installer ev with ⟨answer, sm1⟩
    cases answer with
    | none =>
      obtain ⟨self1, w1, hloop, hinst, hboth1, hrun⟩ :=
        do_install_loop_reject c ev rest hr self w sm1 hboth hadd
      refine ⟨self1, w1, ?_, ?_, hboth1, fun _ => hrun⟩
      · simp only [hloop, feedInstaller, hadd, List.foldl_nil]
      · simp only [hinst, feedInstaller, hadd]
    | some state =>
      obtain ⟨self1, w1, hloop, hinst, hboth1, _⟩ :=
        do_install_loop_accept c ev rest hr self w state sm1 hboth hadd
      obtain ⟨self2, w2, hrest, hinst2, hboth2, hrun2⟩ :=
        ih (statusAfterState hr state) self1 w1 hboth1
      rw [hinst] at hrest hinst2 hrun2
      refine ⟨self2, w2, ?_, ?_, hboth2, ?_⟩
      · simp only [hloop, hrest, feedInstaller, hadd, List.foldl_cons]
      · simp only [hinst2, feedInstaller, hadd]
      · simpa only [feedInstaller, hadd] using hrun2

/-- On a strategy whose console service and splash controller exist, for every installer
state machine that accepts `InteractiveInstall`, `StartInstaller` and `BlockOnInstaller` in
that order, whatever the first two states are, and whose state after the last event is
`Success`, `do_install` returns `S_OK` and `splashIsRunning` is false on return, whatever it was
before and whether or not `consoleGuard` could be taken. -/
theorem do_install_success_returns_S_OK (c : Controllers P I S) (ui : Mode)
    (self : SplashEnabledStrategy P I S) (w : World) (state1 state2 : InstallerState)
    (sm1 sm2 sm3 : I)
    (hboth : self.hasConsoleAndSplash = true)
    (h1 : c.installer_addEvent self.installer (.InteractiveInstall ui) = (some state1, sm1))
    (h2 : c.installer_addEvent sm1 .StartInstaller = (some state2, sm2))
    (h3 : c.installer_addEvent sm2 .BlockOnInstaller = (some .Success, sm3)) :
    ∃ self1 w1, do_install c ui self w = .ok (S_OK, self1, w1) ∧
      S_OK = 0 ∧ self1.splashIsRunning = false := by
  obtain ⟨s1, w1, hstep1, hinst1, hboth1, _⟩ :=
    do_install_loop_accept c (.InteractiveInstall ui) [.StartInstaller, .BlockOnInstaller]
      E_NOTIMPL self w state1 sm1 hboth h1
  obtain ⟨s2, w2, hstep2, hinst2, hboth2, _⟩ :=
    do_install_loop_accept c .StartInstaller [.BlockOnInstaller]
      (statusAfterState E_NOTIMPL state1) s1 w1 state2 sm2 hboth1 (hinst1 ▸ h2)
  obtain ⟨s3, w3, hstep3, _, _, hrun⟩ :=
    do_install_loop_accept c .BlockOnInstaller []
      (statusAfterState (statusAfterState E_NOTIMPL state1) state2) s2 w2 .Success sm3 hboth2
      (hinst2 ▸ h3)
  refine ⟨s3, w3, ?_, rfl, hrun rfl⟩
  unfold do_install do_install_eventSequence
  rw [hstep1, hstep2, hstep3]
  rfl

/-- On a strategy whose console service and splash controller exist, for every status code
and every installer state machine that accepts the three install events and whose state after
the last one is `UpstreamDefaultInstall` with that code, `do_install` returns exactly that
code. -/
theorem do_install_upstream_returns_code (c : Controllers P I S) (ui : Mode)
    (self : SplashEnabledStrategy P I S) (w : World) (code : HRESULT)
    (state1 state2 : InstallerState) (sm1 sm2 sm3 : I)
    (hboth : self.hasConsoleAndSplash = true)
    (h1 : c.installer_addEvent self.installer (.InteractiveInstall ui) = (some state1, sm1))
    (h2 : c.installer_addEvent sm1 .StartInstaller = (some state2, sm2))
    (h3 : c.installer_addEvent sm2 .BlockOnInstaller
      = (some (.UpstreamDefaultInstall code), sm3)) :
    ∃ self1 w1, do_install c ui self w = .ok (code, self1, w1) := by
  obtain ⟨s1, w1, hstep1, hinst1, hboth1, _⟩ :=
    do_install_loop_accept c (.InteractiveInstall ui) [.StartInstaller, .BlockOnInstaller]
      E_NOTIMPL self w state1 sm1 hboth h1
  obtain ⟨s2, w2, hstep2, hinst2, hboth2, _⟩ :=
    do_install_loop_accept c .StartInstaller [.BlockOnInstaller]
      (statusAfterState E_NOTIMPL state1) s1 w1 state2 sm2 hboth1 (hinst1 ▸ h2)
  obtain ⟨s3, w3, hstep3, _, _, _⟩ :=
    do_install_loop_accept c .BlockOnInstaller []
      (statusAfterState (statusAfterState E_NOTIMPL state1) state2) s2 w2
      (.UpstreamDefaultInstall code) sm3 hboth2 (hinst2 ▸ h3)
  refine ⟨s3, w3, ?_⟩
  unfold do_install do_install_eventSequence
  rw [hstep1, hstep2, hstep3]
  rfl

/-- The hypotheses of `do_install_success_returns_S_OK` at a concrete input: the running
splash strategy and an installer that answers `PreparedGui`,
`Ready` and `Success`. -/
theorem do_install_success_returns_S_OK_witness :
    (runningStrategy [some .PreparedGui, some .Ready, some .Success]).hasConsoleAndSplash
      = true ∧
    ∃ self1 w1,
      do_install scriptedControllers 0
        (runningStrategy [some .PreparedGui, some .Ready, some .Success]) splashWorld
        = .ok (S_OK, self1, w1) ∧
      S_OK = 0 ∧ self1.splashIsRunning = false :=
  ⟨rfl,
   do_install_success_returns_S_OK scriptedControllers 0
    (runningStrategy [some .PreparedGui, some .Ready, some .Success]) splashWorld
    .PreparedGui .Ready
    { script := [some .Ready, some .Success], fed := [.InteractiveInstall 0] }
    { script := [some .Success], fed := [.InteractiveInstall 0, .StartInstaller] }
    { script := [], fed := [.InteractiveInstall 0, .StartInstaller, .BlockOnInstaller] }
    rfl rfl rfl rfl⟩

/-- The hypotheses of `do_install_upstream_returns_code` at a concrete input: the running
splash strategy and an installer that answers `PreparedGui`,
`Ready` and `UpstreamDefaultInstall` with code 7; the call returns 7. -/
theorem do_install_upstream_returns_code_witness :
    (runningStrategy
      [some .PreparedGui, some .Ready, some (.UpstreamDefaultInstall 7)]).hasConsoleAndSplash
      = true ∧
    ∃ self1 w1,
      do_install scriptedControllers 0
        (runningStrategy [some .PreparedGui, some .Ready, some (.UpstreamDefaultInstall 7)])
        splashWorld = .ok (7, self1, w1) :=
  ⟨rfl,
   do_install_upstream_returns_code scriptedControllers 0
    (runningStrategy [some .PreparedGui, some .Ready, some (.UpstreamDefaultInstall 7)])
    splashWorld 7 .PreparedGui .Ready
    { script := [some .Ready, some (.UpstreamDefaultInstall 7)],
      fed := [.InteractiveInstall 0] }
    { script := [some (.UpstreamDefaultInstall 7)],
      fed := [.InteractiveInstall 0, .StartInstaller] }
    { script := [], fed := [.InteractiveInstall 0, .StartInstaller, .BlockOnInstaller] }
    rfl rfl rfl rfl⟩

/-- As long as no state seen is `Success` or `UpstreamDefaultInstall`, a status that is one of
the two generic failure codes stays one of them. -/
theorem foldl_statusAfterState_generic (states : List InstallerState) :
    ∀ hr : HRESULT, (hr = E_NOTIMPL ∨ hr = E_UNEXPECTED) →
      (∀ state ∈ states, state ≠ .Success ∧ ∀ code, state ≠ .UpstreamDefaultInstall code) →
      (states.foldl statusAfterState hr = E_NOTIMPL ∨
        states.foldl statusAfterState hr = E_UNEXPECTED) := by
  induction states with
  | nil => intro hr hhr _; exact hhr
  | cons state rest ih =>
    intro hr hhr hall
    have hstate := hall state (List.mem_cons_self _ _)
    have hrest : ∀ st ∈ rest, st ≠ .Success ∧ ∀ code, st ≠ .UpstreamDefaultInstall code :=
      fun st hst => hall st (List.mem_cons_of_mem _ hst)
    simp only [List.foldl_cons]
    apply ih _ _ hrest
    cases state with
    | PreparedTui => exact hhr
    | PreparedGui => exact Or.inr rfl
    | Ready => exact hhr
    | Success => exact absurd rfl hstate.1
    | UpstreamDefaultInstall code => exact absurd rfl (hstate.2 code)
    | Other tag => exact Or.inr rfl

/-- C10 as stated fails.  The installer answers `PreparedTui` to `InteractiveInstall` and
`Success` to `StartInstaller`, then rejects `BlockOnInstaller`: `do_install` on the running
splash strategy returns the success status 0 after the rejection. -/
theorem do_install_rejection_counterexample :
    (feedInstaller scriptedControllers
      (runningStrategy [some .PreparedTui, some .Success, none]).installer
      (do_install_eventSequence 0)).1 = [.PreparedTui, .Success] ∧
    (feedInstaller scriptedControllers
      (runningStrategy [some .PreparedTui, some .Success, none]).installer
      (do_install_eventSequence 0)).2.2 = true ∧
    ∃ self1 w1,
      do_install scriptedControllers 0
        (runningStrategy [some .PreparedTui, some .Success, none]) splashWorld
        = .ok (0, self1, w1) :=
  ⟨by decide, by decide, _, _, rfl⟩

/-- C10 as amended: on a strategy whose console service and splash controller exist, for every
installer state machine, if it rejects an event of the install sequence then `do_install`
feeds no event after the rejected one (the installer machine on return is the one the
rejected event left), returns the status left by the states reached before the rejection,
and `splashIsRunning` is false on return.  That status is `E_NOTIMPL` when the first event is
rejected, and it is one of the generic failure codes `E_NOTIMPL` and `E_UNEXPECTED`, so not 0,
whenever none of the states reached before the rejection is `Success` or
`UpstreamDefaultInstall`. -/
theorem do_install_rejection_returns_status_so_far {P I S : Type} (c : Controllers P I S)
    (ui : Mode) (self : SplashEnabledStrategy P I S) (w : World)
    (hboth : self.hasConsoleAndSplash = true)
    (hreject : (feedInstaller c self.installer (do_install_eventSequence ui)).2.2 = true) :
    ∃ self1 w1,
      do_install c ui self w
        = .ok (statusAfterStates (feedInstaller c self.installer
            (do_install_eventSequence ui)).1, self1, w1) ∧
      self1.installer = (feedInstaller c self.installer (do_install_eventSequence ui)).2.1 ∧
      self1.splashIsRunning = false ∧
      ((feedInstaller c self.installer (do_install_eventSequence ui)).1 = [] →
        statusAfterStates (feedInstaller c self.installer (do_install_eventSequence ui)).1
          = E_NOTIMPL) ∧
      ((∀ state ∈ (feedInstaller c self.installer (do_install_eventSequence ui)).1,
          state ≠ .Success ∧ ∀ code, state ≠ .UpstreamDefaultInstall code) →
        (statusAfterStates (feedInstaller c self.installer (do_install_eventSequence ui)).1
            = E_NOTIMPL ∨
          statusAfterStates (feedInstaller c self.installer (do_install_eventSequence ui)).1
            = E_UNEXPECTED) ∧
        statusAfterStates (feedInstaller c self.installer (do_install_eventSequence ui)).1
          ≠ S_OK) := by
  obtain ⟨self1, w1, hloop, hinst, _, hrun⟩ :=
    do_install_loop_ok c (do_install_eventSequence ui) E_NOTIMPL self w hboth
  refine ⟨self1, w1, hloop, hinst, hrun hreject, ?_, ?_⟩
  · intro hnil
    rw [hnil]
    rfl
  · intro hall
    have hgeneric := foldl_statusAfterState_generic _ E_NOTIMPL (Or.inl rfl) hall
    refine ⟨hgeneric, ?_⟩
    rcases hgeneric with h | h
    · simp only [statusAfterStates, h]; decide
    · simp only [statusAfterStates, h]; decide

/-- Witness of the amended C10: the installer accepts `InteractiveInstall` with the state
`PreparedGui` and rejects `StartInstaller`; `do_install` returns `E_UNEXPECTED`, the installer
was fed those two events and no third, and `splashIsRunning` is false. -/
theorem do_install_rejection_returns_status_so_far_witness :
    ((runningStrategy [some .PreparedGui, none, some .Success]).hasConsoleAndSplash = true ∧
      (feedInstaller scriptedControllers
        (runningStrategy [some .PreparedGui, none, some .Success]).installer
        (do_install_eventSequence 0)).2.2 = true) ∧
    ∃ self1 w1,
      do_install scriptedControllers 0
        (runningStrategy [some .PreparedGui, none, some .Success]) splashWorld
        = .ok (E_UNEXPECTED, self1, w1) ∧
      self1.installer
        = { script := [some .Success], fed := [.InteractiveInstall 0, .StartInstaller] } ∧
      self1.splashIsRunning = false := by
  refine ⟨⟨rfl, by decide⟩, ?_⟩
  obtain ⟨self1, w1, hcall, hinst, hrun, _, _⟩ :=
    do_install_rejection_returns_status_so_far scriptedControllers 0
      (runningStrategy [some .PreparedGui, none, some .Success]) splashWorld rfl (by decide)
  exact ⟨self1, w1, hcall, hinst, hrun⟩

/-- C8: the code at the failing input.  On a strategy on which `do_run_splash` returned before
it created the console service and the splash controller, with `consoleGuard` free, the
installer accepts the three install events and ends in `Success`, and `do_install` does not
return `S_OK`: it raises `bad_optional_access`, from `do_toggle_splash` when a `Ready` state
is passed on the way, and from `do_show_console` under `do_close_splash` when `Success` is
reached. -/
theorem do_install_success_raises_without_console :
    (feedInstaller scriptedControllers
        (bareStrategy [some .PreparedGui, some .Ready, some .Success]).installer
        (do_install_eventSequence 0)).1 = [.PreparedGui, .Ready, .Success] ∧
    do_install scriptedControllers 0
      (bareStrategy [some .PreparedGui, some .Ready, some .Success]) consoleWorld
      = .error .bad_optional_access ∧
    (feedInstaller scriptedControllers
        (bareStrategy [some .PreparedGui, some (.Other 0), some .Success]).installer
        (do_install_eventSequence 0)).1 = [.PreparedGui, .Other 0, .Success] ∧
    do_install scriptedControllers 0
      (bareStrategy [some .PreparedGui, some (.Other 0), some .Success]) consoleWorld
      = .error .bad_optional_access :=
  ⟨by decide, rfl, by decide, rfl⟩

/-- C9: the code at the failing input.  On a strategy on which `do_run_splash` returned before
it created the console service and the splash controller, with `consoleGuard` free, the
installer accepts the three install events and ends in `UpstreamDefaultInstall` with code 7,
and `do_install` does not return 7: it raises `bad_optional_access`, from `do_toggle_splash`
when a `Ready` state is passed on the way, and from `do_show_console` when
`UpstreamDefaultInstall` is reached. -/
theorem do_install_upstream_raises_without_console :
    (feedInstaller scriptedControllers
        (bareStrategy
          [some .PreparedGui, some .Ready, some (.UpstreamDefaultInstall 7)]).installer
        (do_install_eventSequence 0)).1
      = [.PreparedGui, .Ready, .UpstreamDefaultInstall 7] ∧
    do_install scriptedControllers 0
      (bareStrategy [some .PreparedGui, some .Ready, some (.UpstreamDefaultInstall 7)])
      consoleWorld = .error .bad_optional_access ∧
    (feedInstaller scriptedControllers
        (bareStrategy
          [some .PreparedGui, some (.Other 0), some (.UpstreamDefaultInstall 7)]).installer
        (do_install_eventSequence 0)).1
      = [.PreparedGui, .Other 0, .UpstreamDefaultInstall 7] ∧
    do_install scriptedControllers 0
      (bareStrategy [some .PreparedGui, some (.Other 0), some (.UpstreamDefaultInstall 7)])
      consoleWorld = .error .bad_optional_access :=
  ⟨by decide, rfl, by decide, rfl⟩

end Oobe

/-! ## Properties of the named pipe -/

namespace Win32Utils

/-- With a write handle in place `openWriteEnd` does nothing. -/
theorem openWriteEnd_open (self : LocalNamedPipe) (os : PipeOs)
    (hopen : self.hWrite ≠ nullptr) : self.openWriteEnd os = (self, os) := by
  unfold LocalNamedPipe.openWriteEnd
  simp [hopen]

/-- One more call that is not `CreateFile` leaves the number of open attempts as it is. -/
theorem openAttempts_call (os : PipeOs) (made : PipeOsCall)
    (hother : ∀ name, made ≠ .CreateFile name) :
    (os.call made).openAttempts = os.openAttempts := by
  cases made with
  | CreateFile name => exact absurd rfl (hother name)
  | _ => simp [PipeOs.call, PipeOs.openAttempts, List.filter_append]

/-- `CreateFile` is one open attempt. -/
theorem openAttempts_CreateFile (os : PipeOs) (name : String) :
    (os.CreateFile name).2.openAttempts = os.openAttempts + 1 := by
  unfold PipeOs.CreateFile
  cases os.createFileAnswers <;> simp [PipeOs.openAttempts, List.filter_append]

/-- `_open_osfhandle` is no open attempt. -/
theorem openAttempts_open_osfhandle (os : PipeOs) (handle : HANDLE) :
    (os._open_osfhandle handle).2.openAttempts = os.openAttempts := by
  unfold PipeOs._open_osfhandle
  cases os.openOsfhandleAnswers <;> simp [PipeOs.openAttempts, List.filter_append]

/-- On a pipe whose write end was never opened `openWriteEnd` makes one open attempt. -/
theorem openWriteEnd_closed (self : LocalNamedPipe) (os : PipeOs)
    (hhandle : self.hWrite = nullptr) (hfd : self.writeFd = -1) :
    (self.openWriteEnd os).2.openAttempts = os.openAttempts + 1 := by
  unfold LocalNamedPipe.openWriteEnd
  simp only [hhandle, hfd, and_self, if_true]
  by_cases hfail : (os.CreateFile self.szPipeName).1 = INVALID_HANDLE_VALUE
  · simp only [hfail, if_true]
    exact openAttempts_CreateFile os _
  · simp only [hfail, if_false]
    rw [openAttempts_open_osfhandle, openAttempts_call _ _ (fun _ h => by cases h),
      openAttempts_call _ _ (fun _ h => by cases h)]
    exact openAttempts_CreateFile os _

/-- C20: on a `LocalNamedPipe` whose write end is open, `writeHandle()` answers the open
handle and `writeFileDescriptor()` the descriptor held, each leaves the pipe and the operating
system with its record of calls as they were (no open call is made), and so does every
sequence of such requests, in any order and of any length; on a pipe whose write end was
never opened, the first request, be it `writeHandle()` or `writeFileDescriptor()`, makes
exactly one open attempt. -/
theorem LocalNamedPipe_write_end_is_opened_once (self : LocalNamedPipe) (os : PipeOs) :
    (self.hWrite ≠ nullptr →
      self.writeHandle os = (self.hWrite, self, os) ∧
      self.writeFileDescriptor os = (self.writeFd, self, os) ∧
      ∀ requests : List WriteEndCall,
        runWriteEndCalls requests (self, os)
          = (requests.map (fun request =>
                match request with
                | .writeHandle => Sum.inl self.hWrite
                | .writeFileDescriptor => Sum.inr self.writeFd),
              self, os)) ∧
    (self.hWrite = nullptr → self.writeFd = -1 →
      (self.writeHandle os).2.2.openAttempts = os.openAttempts + 1 ∧
      (self.writeFileDescriptor os).2.2.openAttempts = os.openAttempts + 1) := by
  refine ⟨fun hopen => ?_, fun hhandle hfd => ?_⟩
  · have hnoop := openWriteEnd_open self os hopen
    have hwrite : self.writeHandle os = (self.hWrite, self, os) := by
      simp [LocalNamedPipe.writeHandle, hnoop]
    have hfd : self.writeFileDescriptor os = (self.writeFd, self, os) := by
      simp [LocalNamedPipe.writeFileDescriptor, hnoop]
    refine ⟨hwrite, hfd, fun requests => ?_⟩
    induction requests with
    | nil => rfl
    | cons request rest ih =>
      cases request with
      | writeHandle => simp only [runWriteEndCalls, hwrite, ih, List.map_cons]
      | writeFileDescriptor => simp only [runWriteEndCalls, hfd, ih, List.map_cons]
  · exact ⟨openWriteEnd_closed self os hhandle hfd, openWriteEnd_closed self os hhandle hfd⟩

/-- Witness of C20: three requests on the open pipe answer 40, 5 and 40 and record no call; the
first request on the fresh pipe records one `CreateFile`. -/
theorem LocalNamedPipe_write_end_is_opened_once_witness :
    (openPipe.hWrite ≠ nullptr ∧ freshPipe.hWrite = nullptr ∧ freshPipe.writeFd = -1) ∧
    runWriteEndCalls [.writeHandle, .writeFileDescriptor, .writeHandle]
        (openPipe, willingPipeOs)
      = ([.inl 40, .inr 5, .inl 40], openPipe, willingPipeOs) ∧
    (freshPipe.writeHandle willingPipeOs).2.2.openAttempts = 1 :=
  ⟨⟨by decide, rfl, rfl⟩,
   ((LocalNamedPipe_write_end_is_opened_once openPipe willingPipeOs).1 (by decide)).2.2
      [.writeHandle, .writeFileDescriptor, .writeHandle],
   ((LocalNamedPipe_write_end_is_opened_once freshPipe willingPipeOs).2 rfl rfl).1⟩

end Win32Utils

/-! ## Properties of `do_reconfigure` and `do_autoinstall` -/

namespace Oobe

open Win32Utils

variable {P I S : Type}

/-- With a status other than `S_CONTINUE` the loop of `do_reconfigure` feeds nothing more. -/
theorem do_reconfigure_loop_stop (c : Controllers P I S) (events : List InstallerEvent)
    (hr : HRESULT) (sm : I) (hstop : hr ≠ S_CONTINUE) :
    do_reconfigure_loop c events hr sm = (hr, sm) := by
  cases events with
  | nil => rfl
  | cons ev rest => simp [do_reconfigure_loop, hstop]

/-- A rejected event ends the loop of `do_reconfigure` with the status `S_CONTINUE`. -/
theorem do_reconfigure_loop_reject (c : Controllers P I S) (ev : InstallerEvent)
    (rest : List InstallerEvent) (sm sm1 : I)
    (hreject : c.installer_addEvent sm ev = (none, sm1)) :
    do_reconfigure_loop c (ev :: rest) S_CONTINUE sm = (S_CONTINUE, sm1) := by
  simp [do_reconfigure_loop, hreject]

/-- An accepted event hands the loop of `do_reconfigure` the status its state gives. -/
theorem do_reconfigure_loop_accept (c : Controllers P I S) (ev : InstallerEvent)
    (rest : List InstallerEvent) (sm sm1 : I) (state : InstallerState)
    (haccept : c.installer_addEvent sm ev = (some state, sm1)) :
    do_reconfigure_loop c (ev :: rest) S_CONTINUE sm
      = do_reconfigure_loop c rest (do_reconfigure_visit state) sm1 := by
  simp [do_reconfigure_loop, haccept]

/-- In `do_reconfigure`, for an event accepted at any place of the sequence: after
`PreparedGui` or `Ready` the loop goes on with the events that are left, and after any other
state whose status is not `S_CONTINUE` (so after `Success`, after `UpstreamDefaultInstall` with
a code other than `E_NOTIMPL`, and after every state the visitor does not name) the call
returns that state's status and the installer machine the event left. -/
theorem do_reconfigure_loop_after_state (c : Controllers P I S) (ev : InstallerEvent)
    (rest : List InstallerEvent) (sm sm1 : I) (state : InstallerState)
    (haccept : c.installer_addEvent sm ev = (some state, sm1)) :
    ((state = .PreparedGui ∨ state = .Ready) →
      do_reconfigure_loop c (ev :: rest) S_CONTINUE sm
        = do_reconfigure_loop c rest S_CONTINUE sm1) ∧
    (state = .Success →
      do_reconfigure_loop c (ev :: rest) S_CONTINUE sm = (S_OK, sm1)) ∧
    (∀ code, state = .UpstreamDefaultInstall code → code ≠ E_NOTIMPL →
      do_reconfigure_loop c (ev :: rest) S_CONTINUE sm = (code, sm1)) ∧
    (state = .PreparedTui ∨ (∃ tag, state = .Other tag) →
      do_reconfigure_loop c (ev :: rest) S_CONTINUE sm = (E_UNEXPECTED, sm1)) := by
  rw [do_reconfigure_loop_accept c ev rest sm sm1 state haccept]
  refine ⟨?_, ?_, ?_, ?_⟩
  · rintro (h | h) <;> subst h <;> rfl
  · intro h
    subst h
    exact do_reconfigure_loop_stop c rest _ sm1 (by decide)
  · intro code h hcode
    subst h
    exact do_reconfigure_loop_stop c rest _ sm1 hcode
  · have hne : E_UNEXPECTED ≠ S_CONTINUE := by decide
    rintro (h | ⟨tag, h⟩) <;> subst h <;>
      exact do_reconfigure_loop_stop c rest _ sm1 hne

/-- C11: the code at the failing input.  The installer answers `UpstreamDefaultInstall` with
the code `E_NOTIMPL` to `Reconfig`.  That code is the value of `S_CONTINUE`, so the loop of
`do_reconfigure` goes on: it feeds `StartInstaller` too.  When the installer rejects that
event the status returned is `E_NOTIMPL` after two events fed; when it answers `Success` the
status returned is `S_OK`. -/
theorem do_reconfigure_upstream_E_NOTIMPL_goes_on :
    do_reconfigure scriptedControllers
        { script := [some (.UpstreamDefaultInstall E_NOTIMPL)], fed := [] }
      = (E_NOTIMPL, { script := [], fed := [.Reconfig, .StartInstaller] }) ∧
    do_reconfigure scriptedControllers
        { script := [some (.UpstreamDefaultInstall E_NOTIMPL), some .Success], fed := [] }
      = (S_OK, { script := [], fed := [.Reconfig, .StartInstaller] }) := by
  decide

/-- C12 as stated fails.  The installer answers `Success` to `Reconfig` and would answer
`Success` to the two events after it: `do_reconfigure` returns `S_OK` with `Reconfig` the only
event fed. -/
theorem do_reconfigure_success_counterexample :
    do_reconfigure scriptedControllers
        { script := [some .Success, some .Success, some .Success], fed := [] }
      = (S_OK, { script := [some .Success, some .Success], fed := [.Reconfig] }) := by
  decide

/-- C12 as amended: in `do_reconfigure`, `Success` ends the loop.  When an event is accepted
with the resulting state `Success`, at any place of the sequence, the call returns `S_OK` and
the installer machine that event left, so no event after it is fed; stated for the loop at
any event, for `Reconfig` answered with `Success`, and for `StartInstaller` answered with
`Success` after `Reconfig` was answered with `PreparedGui` or `Ready`. -/
theorem do_reconfigure_success_ends_loop (c : Controllers P I S) (sm : I) :
    (∀ (ev : InstallerEvent) (rest : List InstallerEvent) (sm0 sm1 : I),
      c.installer_addEvent sm0 ev = (some .Success, sm1) →
      do_reconfigure_loop c (ev :: rest) S_CONTINUE sm0 = (S_OK, sm1)) ∧
    (∀ sm1 : I, c.installer_addEvent sm .Reconfig = (some .Success, sm1) →
      do_reconfigure c sm = (S_OK, sm1)) ∧
    (∀ (state1 : InstallerState) (sm1 sm2 : I),
      c.installer_addEvent sm .Reconfig = (some state1, sm1) →
      (state1 = .PreparedGui ∨ state1 = .Ready) →
      c.installer_addEvent sm1 .StartInstaller = (some .Success, sm2) →
      do_reconfigure c sm = (S_OK, sm2)) := by
  have hstep : ∀ (ev : InstallerEvent) (rest : List InstallerEvent) (sm0 sm1 : I),
      c.installer_addEvent sm0 ev = (some .Success, sm1) →
      do_reconfigure_loop c (ev :: rest) S_CONTINUE sm0 = (S_OK, sm1) := by
    intro ev rest sm0 sm1 h
    rw [do_reconfigure_loop_accept c ev rest sm0 sm1 _ h]
    exact do_reconfigure_loop_stop c rest _ sm1 (by decide)
  refine ⟨hstep, fun sm1 h => hstep _ _ sm sm1 h, ?_⟩
  intro state1 sm1 sm2 h1 hcont h2
  unfold do_reconfigure do_reconfigure_eventSequence
  rw [do_reconfigure_loop_accept c _ _ sm sm1 state1 h1]
  have hvisit : do_reconfigure_visit state1 = S_CONTINUE := by
    rcases hcont with h | h <;> subst h <;> rfl
  rw [hvisit]
  exact hstep _ _ sm1 sm2 h2

/-- Witness of the amended C12: the installer answers `PreparedGui` to `Reconfig` and `Success`
to `StartInstaller`; `do_reconfigure` returns `S_OK` and `BlockOnInstaller` is not fed. -/
theorem do_reconfigure_success_ends_loop_witness :
    do_reconfigure scriptedControllers
        { script := [some .PreparedGui, some .Success, some .Success], fed := [] }
      = (S_OK, { script := [some .Success], fed := [.Reconfig, .StartInstaller] }) :=
  (do_reconfigure_success_ends_loop scriptedControllers
      { script := [some .PreparedGui, some .Success, some .Success], fed := [] }).2.2
    .PreparedGui
    { script := [some .Success, some .Success], fed := [.Reconfig] }
    { script := [some .Success], fed := [.Reconfig, .StartInstaller] }
    rfl (Or.inl rfl) rfl

/-- C13: for every installer state machine that accepts `AutoInstall` with the path given and
then `BlockOnInstaller`, `do_autoinstall` leaves the installer machine those two events left,
fed in that order, and returns `S_OK` when the state after `BlockOnInstaller` is `Success`, the
code when it is `UpstreamDefaultInstall` with a code, and `E_UNEXPECTED` for every other state;
the state answered to `AutoInstall` has no part in the result. -/
theorem do_autoinstall_status (c : Controllers P I S) (autoinstall_file : String) (sm : I)
    (state1 state2 : InstallerState) (sm1 sm2 : I)
    (h1 : c.installer_addEvent sm (.AutoInstall autoinstall_file) = (some state1, sm1))
    (h2 : c.installer_addEvent sm1 .BlockOnInstaller = (some state2, sm2)) :
    (do_autoinstall c autoinstall_file sm).2 = sm2 ∧
    (state2 = .Success → (do_autoinstall c autoinstall_file sm).1 = S_OK) ∧
    (∀ code, state2 = .UpstreamDefaultInstall code →
      (do_autoinstall c autoinstall_file sm).1 = code) ∧
    (state2 ≠ .Success → (∀ code, state2 ≠ .UpstreamDefaultInstall code) →
      (do_autoinstall c autoinstall_file sm).1 = E_UNEXPECTED) := by
  have hcall : do_autoinstall c autoinstall_file sm
      = (do_autoinstall_visit state2 E_NOTIMPL, sm2) := by
    simp [do_autoinstall, h1, h2]
  rw [hcall]
  refine ⟨rfl, ?_, ?_, ?_⟩
  · intro h; subst h; rfl
  · intro code h; subst h; rfl
  · intro hs hu
    cases state2 with
    | Success => exact absurd rfl hs
    | UpstreamDefaultInstall code => exact absurd rfl (hu code)
    | _ => rfl

/-- Witness of C13: the installer answers `Ready` to `AutoInstall` and `UpstreamDefaultInstall`
with code 7 to `BlockOnInstaller`; `do_autoinstall` returns 7 and the installer was fed those
two events in that order. -/
theorem do_autoinstall_status_witness :
    (do_autoinstall scriptedControllers "autoinstall.yaml"
        { script := [some .Ready, some (.UpstreamDefaultInstall 7)], fed := [] }).2
      = { script := [], fed := [.AutoInstall "autoinstall.yaml", .BlockOnInstaller] } ∧
    (do_autoinstall scriptedControllers "autoinstall.yaml"
        { script := [some .Ready, some (.UpstreamDefaultInstall 7)], fed := [] }).1 = 7 :=
  ⟨(do_autoinstall_status scriptedControllers "autoinstall.yaml"
      { script := [some .Ready, some (.UpstreamDefaultInstall 7)], fed := [] }
      .Ready (.UpstreamDefaultInstall 7)
      { script := [some (.UpstreamDefaultInstall 7)],
        fed := [.AutoInstall "autoinstall.yaml"] }
      { script := [], fed := [.AutoInstall "autoinstall.yaml", .BlockOnInstaller] }
      rfl rfl).1,
   (do_autoinstall_status scriptedControllers "autoinstall.yaml"
      { script := [some .Ready, some (.UpstreamDefaultInstall 7)], fed := [] }
      .Ready (.UpstreamDefaultInstall 7)
      { script := [some (.UpstreamDefaultInstall 7)],
        fed := [.AutoInstall "autoinstall.yaml"] }
      { script := [], fed := [.AutoInstall "autoinstall.yaml", .BlockOnInstaller] }
      rfl rfl).2.2.1 7 rfl⟩

end Oobe

namespace Oobe

open Win32Utils SplashEnabledStrategy

variable {P I S : Type}

/-- The status the visitor of `do_install` accumulates is the one it started from, `S_OK`,
`E_UNEXPECTED`, or the code of an `UpstreamDefaultInstall` state among those seen. -/
theorem foldl_statusAfterState_cases (states : List InstallerState) :
    ∀ hr : HRESULT,
      states.foldl statusAfterState hr = hr ∨ states.foldl statusAfterState hr = S_OK ∨
      states.foldl statusAfterState hr = E_UNEXPECTED ∨
      .UpstreamDefaultInstall (states.foldl statusAfterState hr) ∈ states := by
  induction states with
  | nil => intro hr; exact Or.inl rfl
  | cons state rest ih =>
    intro hr
    simp only [List.foldl_cons]
    rcases ih (statusAfterState hr state) with h | h | h | h
    · rw [h]
      cases state with
      | PreparedTui => exact Or.inl rfl
      | PreparedGui => exact Or.inr (Or.inr (Or.inl rfl))
      | Ready => exact Or.inl rfl
      | Success => exact Or.inr (Or.inl rfl)
      | UpstreamDefaultInstall code =>
        exact Or.inr (Or.inr (Or.inr (List.mem_cons_self _ _)))
      | Other tag => exact Or.inr (Or.inr (Or.inl rfl))
    · exact Or.inr (Or.inl h)
    · exact Or.inr (Or.inr (Or.inl h))
    · exact Or.inr (Or.inr (Or.inr (List.mem_cons_of_mem _ h)))

/-- The loop of `do_reconfigure` against `feedInstaller`: it feeds the first events of the
sequence, as many as `k`, and its status is `S_OK`, `E_NOTIMPL`, `E_UNEXPECTED` or the code of
an `UpstreamDefaultInstall` state answered to one of them. -/
theorem do_reconfigure_loop_reached (c : Controllers P I S) (events : List InstallerEvent) :
    ∀ sm : I, ∃ k : Nat,
      (do_reconfigure_loop c events S_CONTINUE sm).2
        = (feedInstaller c sm (events.take k)).2.1 ∧
      ((do_reconfigure_loop c events S_CONTINUE sm).1 = S_OK ∨
        (do_reconfigure_loop c events S_CONTINUE sm).1 = E_NOTIMPL ∨
        (do_reconfigure_loop c events S_CONTINUE sm).1 = E_UNEXPECTED ∨
        .UpstreamDefaultInstall (do_reconfigure_loop c events S_CONTINUE sm).1
          ∈ (feedInstaller c sm (events.take k)).1) := by
  induction events with
  | nil => intro sm; exact ⟨0, rfl, Or.inr (Or.inl rfl)⟩
  | cons ev rest ih =>
    intro sm
    rcases hadd : c.installer_addEvent sm ev with ⟨answer, sm1⟩
    cases answer with
    | none =>
      refine ⟨1, ?_, Or.inr (Or.inl ?_)⟩
      · simp [do_reconfigure_loop_reject c ev rest sm sm1 hadd, feedInstaller, hadd]
      · rw [do_reconfigure_loop_reject c ev rest sm sm1 hadd]
        rfl
    | some state =>
      rw [do_reconfigure_loop_accept c ev rest sm sm1 state hadd]
      by_cases hvisit : do_reconfigure_visit state = S_CONTINUE
      · rw [hvisit]
        obtain ⟨k, hmachine, hstatus⟩ := ih sm1
        refine ⟨k + 1, ?_, ?_⟩
        · simp [feedInstaller, hadd, hmachine]
        · rcases hstatus with h | h | h | h
          · exact Or.inl h
          · exact Or.inr (Or.inl h)
          · exact Or.inr (Or.inr (Or.inl h))
          · refine Or.inr (Or.inr (Or.inr ?_))
            simp only [List.take_succ_cons, feedInstaller, hadd]
            exact List.mem_cons_of_mem _ h
      · rw [do_reconfigure_loop_stop c rest _ sm1 hvisit]
        refine ⟨1, ?_, ?_⟩
        · simp [feedInstaller, hadd]
        · cases state with
          | PreparedTui => exact Or.inr (Or.inr (Or.inl rfl))
          | PreparedGui => exact Or.inr (Or.inl rfl)
          | Ready => exact Or.inr (Or.inl rfl)
          | Success => exact Or.inl rfl
          | UpstreamDefaultInstall code =>
            refine Or.inr (Or.inr (Or.inr ?_))
            simp [feedInstaller, hadd, do_reconfigure_visit]
          | Other tag => exact Or.inr (Or.inr (Or.inl rfl))

/-- C14 as stated fails.  The installer rejects `AutoInstall`: `do_autoinstall` returns
`E_FAIL`, which is not 0, not `E_NOTIMPL` and not `E_UNEXPECTED`, and no state was reached
whose code it could be. -/
theorem do_autoinstall_rejection_counterexample :
    do_autoinstall scriptedControllers "autoinstall.yaml" { script := [none], fed := [] }
      = (E_FAIL, { script := [], fed := [.AutoInstall "autoinstall.yaml"] }) ∧
    (feedInstaller scriptedControllers { script := [none], fed := [] }
      [.AutoInstall "autoinstall.yaml", .BlockOnInstaller]).1 = [] ∧
    E_FAIL ≠ S_OK ∧ E_FAIL ≠ E_NOTIMPL ∧ E_FAIL ≠ E_UNEXPECTED := by
  decide

/-- C14 as amended: for every behaviour of the installer state machine, rejections included,
the status `do_install` returns on a strategy whose console service and splash controller
exist, and the status `do_reconfigure` returns, is 0, `E_NOTIMPL`, `E_UNEXPECTED` or the code of
an `UpstreamDefaultInstall` state the run reached; the status `do_autoinstall` returns is `E_FAIL`
when the state machine rejected one of its two events, and otherwise 0, `E_UNEXPECTED` or the
code of an `UpstreamDefaultInstall` state the run reached. -/
theorem returned_status_codes (c : Controllers P I S) (ui : Mode) (autoinstall_file : String)
    (self : SplashEnabledStrategy P I S) (w : World) (sm : I) :
    (self.hasConsoleAndSplash = true →
      ∃ hr self1 w1, do_install c ui self w = .ok (hr, self1, w1) ∧
        self1.installer = (feedInstaller c self.installer (do_install_eventSequence ui)).2.1 ∧
        (hr = S_OK ∨ hr = E_NOTIMPL ∨ hr = E_UNEXPECTED ∨
          .UpstreamDefaultInstall hr
            ∈ (feedInstaller c self.installer (do_install_eventSequence ui)).1)) ∧
    (∃ k : Nat,
      (do_reconfigure c sm).2
        = (feedInstaller c sm (do_reconfigure_eventSequence.take k)).2.1 ∧
      ((do_reconfigure c sm).1 = S_OK ∨ (do_reconfigure c sm).1 = E_NOTIMPL ∨
        (do_reconfigure c sm).1 = E_UNEXPECTED ∨
        .UpstreamDefaultInstall (do_reconfigure c sm).1
          ∈ (feedInstaller c sm (do_reconfigure_eventSequence.take k)).1)) ∧
    ((do_autoinstall c autoinstall_file sm).2
        = (feedInstaller c sm [.AutoInstall autoinstall_file, .BlockOnInstaller]).2.1 ∧
      (((feedInstaller c sm [.AutoInstall autoinstall_file, .BlockOnInstaller]).2.2 = true ∧
          (do_autoinstall c autoinstall_file sm).1 = E_FAIL) ∨
        ((feedInstaller c sm [.AutoInstall autoinstall_file, .BlockOnInstaller]).2.2 = false ∧
          ((do_autoinstall c autoinstall_file sm).1 = S_OK ∨
            (do_autoinstall c autoinstall_file sm).1 = E_UNEXPECTED ∨
            .UpstreamDefaultInstall (do_autoinstall c autoinstall_file sm).1
              ∈ (feedInstaller c sm
                  [.AutoInstall autoinstall_file, .BlockOnInstaller]).1)))) := by
  refine ⟨fun hboth => ?_, do_reconfigure_loop_reached c do_reconfigure_eventSequence sm, ?_⟩
  · obtain ⟨self1, w1, hloop, hinst, _, _⟩ :=
      do_install_loop_ok c (do_install_eventSequence ui) E_NOTIMPL self w hboth
    refine ⟨_, self1, w1, hloop, hinst, ?_⟩
    rcases foldl_statusAfterState_cases
        (feedInstaller c self.installer (do_install_eventSequence ui)).1 E_NOTIMPL
      with h | h | h | h
    · exact Or.inr (Or.inl h)
    · exact Or.inl h
    · exact Or.inr (Or.inr (Or.inl h))
    · exact Or.inr (Or.inr (Or.inr h))
  · rcases h1 : c.installer_addEvent sm (.AutoInstall autoinstall_file) with ⟨answer1, sm1⟩
    cases answer1 with
    | none => simp [do_autoinstall, feedInstaller, h1]
    | some state1 =>
      rcases h2 : c.installer_addEvent sm1 .BlockOnInstaller with ⟨answer2, sm2⟩
      cases answer2 with
      | none => simp [do_autoinstall, feedInstaller, h1, h2]
      | some state2 =>
        cases state2 <;> simp [do_autoinstall, feedInstaller, h1, h2, do_autoinstall_visit]

end Oobe

namespace Oobe

open Win32Utils SplashEnabledStrategy

variable {P I S : Type}

/-- Witness of the amended C14: on the running splash strategy the installer answers
`PreparedGui`, `Ready` and `UpstreamDefaultInstall` with code 7, and `do_install` returns a
status of the list; on a rejected `AutoInstall` the status of `do_autoinstall` is `E_FAIL`. -/
theorem returned_status_codes_witness :
    (runningStrategy
      [some .PreparedGui, some .Ready, some (.UpstreamDefaultInstall 7)]).hasConsoleAndSplash
      = true ∧
    (∃ hr self1 w1,
      do_install scriptedControllers 0
        (runningStrategy [some .PreparedGui, some .Ready, some (.UpstreamDefaultInstall 7)])
        splashWorld = .ok (hr, self1, w1) ∧
      self1.installer
        = (feedInstaller scriptedControllers
            (runningStrategy
              [some .PreparedGui, some .Ready, some (.UpstreamDefaultInstall 7)]).installer
            (do_install_eventSequence 0)).2.1 ∧
      (hr = S_OK ∨ hr = E_NOTIMPL ∨ hr = E_UNEXPECTED ∨
        .UpstreamDefaultInstall hr
          ∈ (feedInstaller scriptedControllers
              (runningStrategy
                [some .PreparedGui, some .Ready, some (.UpstreamDefaultInstall 7)]).installer
              (do_install_eventSequence 0)).1)) ∧
    (do_autoinstall scriptedControllers "autoinstall.yaml"
      { script := [none], fed := [] }).1 = E_FAIL :=
  ⟨rfl,
   (returned_status_codes scriptedControllers 0 "autoinstall.yaml"
      (runningStrategy [some .PreparedGui, some .Ready, some (.UpstreamDefaultInstall 7)])
      splashWorld { script := [none], fed := [] }).1 rfl,
   by decide⟩

/-- The loop of `NoSplashStrategy::do_install` against `feedInstaller`: the status is the one
its visitor accumulates over the states answered before the first rejection, and the
installer machine it leaves is the one left by the last event `feedInstaller` fed. -/
theorem NoSplash_do_install_loop_eq (c : Controllers P I S) (events : List InstallerEvent) :
    ∀ (hr : HRESULT) (self : NoSplashStrategy I),
      NoSplashStrategy.do_install_loop c events hr self
        = ((feedInstaller c self.installer events).1.foldl
              (fun status state => NoSplashStrategy.do_install_visit state status) hr,
            { installer := (feedInstaller c self.installer events).2.1 }) := by
  induction events with
  | nil => intro hr self; rfl
  | cons ev rest ih =>
    intro hr self
    rcases hadd : c.installer_addEvent self.installer ev with ⟨answer, sm1⟩
    cases answer with
    | none => simp [NoSplashStrategy.do_install_loop, feedInstaller, hadd]
    | some state =>
      simp [NoSplashStrategy.do_install_loop, feedInstaller, hadd, ih]

/-- The two visitors accumulate the same status over states whose last one is neither
`PreparedTui` nor `Ready`; after a last state `PreparedTui` or `Ready` the visitor of
`NoSplashStrategy::do_install` gives `E_UNEXPECTED`, and the visitor of
`SplashEnabledStrategy::do_install` the status it had before that state. -/
theorem visitors_agree (states : List InstallerState) (hr : HRESULT) :
    (states.getLast? ≠ some .PreparedTui → states.getLast? ≠ some .Ready →
      states.foldl (fun status state => NoSplashStrategy.do_install_visit state status) hr
        = states.foldl statusAfterState hr) ∧
    (states.getLast? = some .PreparedTui ∨ states.getLast? = some .Ready →
      states.foldl (fun status state => NoSplashStrategy.do_install_visit state status) hr
          = E_UNEXPECTED ∧
        states.foldl statusAfterState hr = states.dropLast.foldl statusAfterState hr) := by
  rcases List.eq_nil_or_concat states with hnil | ⟨front, last, hconcat⟩
  · subst hnil
    exact ⟨fun _ _ => rfl, fun h => by simp at h⟩
  · subst hconcat
    simp only [List.concat_eq_append, List.getLast?_concat, List.foldl_append, List.foldl_cons,
      List.foldl_nil, ne_eq, Option.some.injEq, List.dropLast_concat]
    refine ⟨fun htui hready => ?_, fun h => ?_⟩
    · cases last with
      | PreparedTui => exact absurd rfl htui
      | Ready => exact absurd rfl hready
      | _ => rfl
    · rcases h with h | h <;> subst h <;> exact ⟨rfl, rfl⟩

/-- C15 as stated fails.  The installer answers `PreparedTui` to `InteractiveInstall` and
rejects `StartInstaller`.  Both strategies feed those two events, but
`SplashEnabledStrategy::do_install` returns `E_NOTIMPL` and `NoSplashStrategy::do_install`
returns `E_UNEXPECTED`. -/
theorem NoSplash_do_install_counterexample :
    (∃ self1 w1,
      SplashEnabledStrategy.do_install scriptedControllers 0
        (runningStrategy [some .PreparedTui]) splashWorld = .ok (E_NOTIMPL, self1, w1) ∧
      self1.installer = { script := [], fed := [.InteractiveInstall 0, .StartInstaller] }) ∧
    NoSplashStrategy.do_install scriptedControllers 0
        { installer := { script := [some .PreparedTui], fed := [] } }
      = (E_UNEXPECTED,
          { installer := { script := [], fed := [.InteractiveInstall 0, .StartInstaller] } }) ∧
    E_NOTIMPL ≠ E_UNEXPECTED :=
  ⟨⟨_, _, rfl, rfl⟩, by decide, by decide⟩

/-- C15 as amended: for every installer state machine behaviour and every UI mode, on a
strategy whose console service and splash controller exist,
`SplashEnabledStrategy::do_install` returns, and `NoSplashStrategy::do_install` on the same
installer leaves the same installer machine (the same events were fed in the same order); it
returns the same status whenever the last state the installer answered is neither
`PreparedTui` nor `Ready`, also when it answered none; when that last state is `PreparedTui` or
`Ready` it returns `E_UNEXPECTED`, and `SplashEnabledStrategy::do_install` the status left by
the states before that one. -/
theorem NoSplash_do_install_agrees (c : Controllers P I S) (ui : Mode)
    (self : SplashEnabledStrategy P I S) (w : World)
    (hboth : self.hasConsoleAndSplash = true) :
    ∃ hr self1 w1,
      SplashEnabledStrategy.do_install c ui self w = .ok (hr, self1, w1) ∧
      (NoSplashStrategy.do_install c ui { installer := self.installer }).2.installer
        = self1.installer ∧
      ((feedInstaller c self.installer (do_install_eventSequence ui)).1.getLast?
          ≠ some .PreparedTui →
        (feedInstaller c self.installer (do_install_eventSequence ui)).1.getLast?
          ≠ some .Ready →
        (NoSplashStrategy.do_install c ui { installer := self.installer }).1 = hr) ∧
      ((feedInstaller c self.installer (do_install_eventSequence ui)).1.getLast?
            = some .PreparedTui ∨
          (feedInstaller c self.installer (do_install_eventSequence ui)).1.getLast?
            = some .Ready →
        (NoSplashStrategy.do_install c ui { installer := self.installer }).1
            = E_UNEXPECTED ∧
          hr = statusAfterStates
            (feedInstaller c self.installer (do_install_eventSequence ui)).1.dropLast) := by
  obtain ⟨self1, w1, hloop, hinst, _, _⟩ :=
    do_install_loop_ok c (do_install_eventSequence ui) E_NOTIMPL self w hboth
  have hno : NoSplashStrategy.do_install c ui { installer := self.installer }
      = ((feedInstaller c self.installer (do_install_eventSequence ui)).1.foldl
            (fun status state => NoSplashStrategy.do_install_visit state status) E_NOTIMPL,
          { installer := (feedInstaller c self.installer (do_install_eventSequence ui)).2.1 }) :=
    NoSplash_do_install_loop_eq c (do_install_eventSequence ui) E_NOTIMPL
      { installer := self.installer }
  have hvis := visitors_agree
    (feedInstaller c self.installer (do_install_eventSequence ui)).1 E_NOTIMPL
  refine ⟨_, self1, w1, hloop, ?_, ?_, ?_⟩
  · rw [hno, hinst]
  · intro htui hready
    rw [hno]
    exact hvis.1 htui hready
  · intro hlast
    rw [hno]
    exact hvis.2 hlast

/-- Witness of the amended C15: on the running splash strategy the installer answers
`PreparedGui`, `Ready` and `Success`; both strategies return `S_OK`. -/
theorem NoSplash_do_install_agrees_witness :
    (runningStrategy [some .PreparedGui, some .Ready, some .Success]).hasConsoleAndSplash
      = true ∧
    (NoSplashStrategy.do_install scriptedControllers 0
      { installer := (runningStrategy
          [some .PreparedGui, some .Ready, some .Success]).installer }).1 = S_OK ∧
    ∃ self1 w1,
      SplashEnabledStrategy.do_install scriptedControllers 0
        (runningStrategy [some .PreparedGui, some .Ready, some .Success]) splashWorld
        = .ok (S_OK, self1, w1) := by
  refine ⟨rfl, by decide, ?_⟩
  obtain ⟨hr, self1, w1, hcall, _, hsame, _⟩ :=
    NoSplash_do_install_agrees scriptedControllers 0
      (runningStrategy [some .PreparedGui, some .Ready, some .Success]) splashWorld rfl
  have hstatus := hsame (by decide) (by decide)
  have hno : (NoSplashStrategy.do_install scriptedControllers 0
      { installer := (runningStrategy
          [some .PreparedGui, some .Ready, some .Success]).installer }).1 = S_OK := by decide
  rw [hno] at hstatus
  exact ⟨self1, w1, hstatus ▸ hcall⟩

end Oobe

/-! ## Properties of the splash operations -/

namespace Win32Utils

open ConsoleService

/-- After `restoreConsole` the service is not redirected, whatever it was before. -/
theorem restoreConsole_not_redirected {P : Type} (api : PipeApi P) (self : ConsoleService P)
    (stderrStream : FILE) (nStderrHandle : DWORD) (stdoutStream : FILE) (nStdoutHandle : DWORD)
    (os : Os) :
    (self.restoreConsole api stderrStream nStderrHandle stdoutStream nStdoutHandle
      os).1.bIsRedirected = false := by
  cases hflag : self.bIsRedirected with
  | false => rw [restoreConsole_idle api self _ _ _ _ os hflag]; exact hflag
  | true => rw [restoreConsole_redirected api self _ _ _ _ os hflag]

end Win32Utils

namespace Oobe

open Win32Utils SplashEnabledStrategy

variable {P I S : Type}

/-- C17: in `do_run_splash`, once the splash executable and the pipe are there and the token
is acquired, the console is redirected and `Run` is fed to the splash state machine; if the
state machine rejects the event or answers a state other than `Visible`, then on return the
console service is not redirected, and `splashIsRunning`, `splashWindow` and
`consoleIsVisible` have the values they had on entry. -/
theorem do_run_splash_rolls_back (c : Controllers P I S) (launch : SplashLaunch P S)
    (hideConsole : Bool) (self : SplashEnabledStrategy P I S) (w : World) (pipe : P)
    (hexe : launch.splashExeExists = true) (hpipe : launch.pipe = .ok pipe)
    (hlock : (try_lock_for w).1 = true)
    (hrun : ∀ window,
      (c.splash_addEvent launch.splashController .Run).1 ≠ some (.Visible window)) :
    (∃ service, (do_run_splash c launch hideConsole self w).1.console = some service ∧
      service.isRedirected = false) ∧
    (do_run_splash c launch hideConsole self w).1.splash
      = some (c.splash_addEvent launch.splashController .Run).2 ∧
    (do_run_splash c launch hideConsole self w).1.splashIsRunning = self.splashIsRunning ∧
    (do_run_splash c launch hideConsole self w).1.splashWindow = self.splashWindow ∧
    (do_run_splash c launch hideConsole self w).1.consoleIsVisible = self.consoleIsVisible := by
  rcases htry : try_lock_for w with ⟨acquired, w1⟩
  rw [htry] at hlock
  simp only at hlock
  subst hlock
  rcases hadd : c.splash_addEvent launch.splashController .Run with ⟨transition, sm1⟩
  rw [hadd] at hrun
  simp only at hrun
  have hrestored := restoreConsole_not_redirected c.pipe
  cases transition with
  | none =>
    simp only [do_run_splash, hexe, hpipe, htry, hadd, Bool.not_true, Bool.false_eq_true,
      if_false]
    exact ⟨⟨_, rfl, hrestored _ _ _ _ _ _⟩, by simp⟩
  | some state =>
    cases state with
    | Visible window => exact absurd rfl (hrun window)
    | _ =>
      simp only [do_run_splash, hexe, hpipe, htry, hadd, Bool.not_true, Bool.false_eq_true,
        if_false]
      exact ⟨⟨_, rfl, hrestored _ _ _ _ _ _⟩, by simp⟩

/-- Witness of C17: the splash state machine rejects `Run`; the strategy that had nothing comes
back with a console service that is not redirected, the splash fed `Run`, and the three
fields as they were. -/
theorem do_run_splash_rolls_back_witness :
    (readyLaunch.splashExeExists = true ∧ readyLaunch.pipe = .ok goodPipe ∧
      (try_lock_for consoleWorld).1 = true ∧
      ∀ window,
        (refusingControllers.splash_addEvent readyLaunch.splashController .Run).1
          ≠ some (.Visible window)) ∧
    (∃ service,
      (do_run_splash refusingControllers readyLaunch true (bareStrategy [])
        consoleWorld).1.console = some service ∧ service.isRedirected = false) ∧
    (do_run_splash refusingControllers readyLaunch true (bareStrategy [])
      consoleWorld).1.splashIsRunning = false :=
  ⟨⟨rfl, rfl, rfl, fun _ h => by cases h⟩,
   (do_run_splash_rolls_back refusingControllers readyLaunch true (bareStrategy [])
      consoleWorld goodPipe rfl rfl rfl (fun _ h => by cases h)).1,
   (do_run_splash_rolls_back refusingControllers readyLaunch true (bareStrategy [])
      consoleWorld goodPipe rfl rfl rfl (fun _ h => by cases h)).2.2.1⟩

end Oobe

namespace Oobe

open Win32Utils SplashEnabledStrategy

variable {P I S : Type}

/-- C18 as stated fails.  While the other thread holds `consoleGuard`, `do_close_splash` on the
running splash strategy still feeds `Close` to the splash state machine and clears
`splashIsRunning` and `splashWindow`, and `do_toggle_splash`, which never asks for the token,
still feeds `ToggleVisibility`. -/
theorem token_not_acquired_counterexample :
    (try_lock_for busyWorld).1 = false ∧
    do_close_splash scriptedControllers (runningStrategy []) busyWorld
      = .ok ({ runningStrategy [] with splash := some [.Run, .Close],
                                       splashIsRunning := false, splashWindow := none },
             { os := redirectedOs, guardOutcomes := [false, false] }) ∧
    do_toggle_splash scriptedControllers (runningStrategy [])
      = .ok { runningStrategy [] with splash := some [.Run, .ToggleVisibility] } :=
  ⟨rfl, rfl, rfl⟩

/-- C18 as amended: if the token cannot be acquired within the timeout, `do_show_console`
returns the strategy and the operating system as they were, and `do_run_splash`, with the
splash executable and the pipe in place, returns after it created the console service and
the splash controller and recorded the read handle: no event was fed to the splash state
machine, the console service is not redirected, the operating system is as it was, and
`consoleIsVisible`, `splashIsRunning` and `splashWindow` are unchanged.  `do_close_splash` then
restores nothing and touches no window, but when `splashIsRunning` is true it still feeds
`Close` and clears `splashIsRunning` and `splashWindow`.  `do_toggle_splash` asks for no token
and feeds `ToggleVisibility` whoever holds it. -/
theorem token_not_acquired (c : Controllers P I S) (launch : SplashLaunch P S)
    (hideConsole : Bool) (self : SplashEnabledStrategy P I S) (w : World)
    (hbusy : (try_lock_for w).1 = false) :
    (try_lock_for w).2.os = w.os ∧
    do_show_console c self w = .ok (self, (try_lock_for w).2) ∧
    (∀ pipe, launch.splashExeExists = true → launch.pipe = .ok pipe →
      do_run_splash c launch hideConsole self w
        = ({ self with consoleReadHandle := c.pipe.readHandle pipe,
                       console := some (ConsoleService.construct pipe launch.consoleWindow),
                       splash := some launch.splashController },
           (try_lock_for w).2)) ∧
    (self.splashIsRunning = false →
      do_close_splash c self w = .ok (self, (try_lock_for w).2)) ∧
    (∀ sm, self.splashIsRunning = true → self.splash = some sm →
      do_close_splash c self w
        = .ok ({ self with splash := some (c.splash_addEvent sm .Close).2,
                           splashIsRunning := false, splashWindow := none },
               (try_lock_for w).2)) ∧
    (∀ sm, self.splash = some sm →
      do_toggle_splash c self
        = .ok { self with splash := some (c.splash_addEvent sm .ToggleVisibility).2 }) := by
  rcases htry : try_lock_for w with ⟨acquired, w1⟩
  rw [htry] at hbusy
  simp only at hbusy
  subst hbusy
  have hos : w1.os = w.os := by
    unfold try_lock_for at htry
    cases hq : w.guardOutcomes with
    | nil => simp [hq] at htry
    | cons outcome rest =>
      simp only [hq, Prod.mk.injEq] at htry
      rw [← htry.2]
  have hshow : do_show_console c self w = .ok (self, w1) := by
    simp [do_show_console, htry]
  refine ⟨hos, hshow, ?_, ?_, ?_, ?_⟩
  · intro pipe hexe hpipe
    simp [do_run_splash, hexe, hpipe, htry]
  · intro hidle
    simp [do_close_splash, hshow, hidle]
  · intro sm hrunning hsm
    simp [do_close_splash, hshow, hrunning, hsm]
  · intro sm hsm
    simp [do_toggle_splash, hsm]

/-- Witness of the amended C18: while the other thread holds `consoleGuard`, `do_show_console`
on the running splash strategy changes nothing but the attempts left, and `do_run_splash` on
the strategy that had nothing sends no event and redirects nothing. -/
theorem token_not_acquired_witness :
    (try_lock_for busyWorld).1 = false ∧
    do_show_console scriptedControllers (runningStrategy []) busyWorld
      = .ok (runningStrategy [], { os := redirectedOs, guardOutcomes := [false, false] }) ∧
    do_run_splash scriptedControllers readyLaunch true (bareStrategy []) busyWorld
      = ({ bareStrategy [] with consoleReadHandle := 40,
                                console := some (ConsoleService.construct goodPipe 9),
                                splash := some [] },
         { os := redirectedOs, guardOutcomes := [false, false] }) :=
  ⟨rfl,
   (token_not_acquired scriptedControllers readyLaunch true (runningStrategy []) busyWorld
      rfl).2.1,
   (token_not_acquired scriptedControllers readyLaunch true (bareStrategy []) busyWorld
      rfl).2.2.1 goodPipe rfl rfl⟩

/-- C19: the code at the failing input.  `do_run_splash` returns at once, leaving the strategy
without console service and splash controller, when the splash executable is missing and
when the pipe could not be created.  With `consoleGuard` free, the `do_install` that follows
does not complete: it raises `bad_optional_access` when the installer answers `PreparedTui`,
`Success` (the text-mode sequence), from `do_show_console`, and when it answers
`PreparedGui`, `Ready`, `Success`, from `do_toggle_splash`. -/
theorem do_install_after_aborted_splash_raises :
    do_run_splash scriptedControllers missingExeLaunch true
        (bareStrategy [some .PreparedTui, some .Success]) consoleWorld
      = (bareStrategy [some .PreparedTui, some .Success], consoleWorld) ∧
    do_run_splash scriptedControllers noPipeLaunch true
        (bareStrategy [some .PreparedGui, some .Ready, some .Success]) consoleWorld
      = (bareStrategy [some .PreparedGui, some .Ready, some .Success], consoleWorld) ∧
    do_install scriptedControllers 0
        (do_run_splash scriptedControllers missingExeLaunch true
          (bareStrategy [some .PreparedTui, some .Success]) consoleWorld).1
        (do_run_splash scriptedControllers missingExeLaunch true
          (bareStrategy [some .PreparedTui, some .Success]) consoleWorld).2
      = .error .bad_optional_access ∧
    do_install scriptedControllers 0
        (do_run_splash scriptedControllers noPipeLaunch true
          (bareStrategy [some .PreparedGui, some .Ready, some .Success]) consoleWorld).1
        (do_run_splash scriptedControllers noPipeLaunch true
          (bareStrategy [some .PreparedGui, some .Ready, some .Success]) consoleWorld).2
      = .error .bad_optional_access :=
  ⟨rfl, rfl, rfl, rfl⟩

end Oobe

/-! ## The write end of the named pipe after a failure -/

namespace Win32Utils

open ConsoleService

/-- What `_open_osfhandle` answers depends on the answers left for it alone, not on the calls
made before. -/
theorem open_osfhandle_answer (os : PipeOs) (name : String) (first second : PipeOsCall)
    (handle : HANDLE) :
    ((((os.CreateFile name).2.call first).call second)._open_osfhandle handle).1
      = (os._open_osfhandle handle).1 := by
  unfold PipeOs.CreateFile PipeOs.call PipeOs._open_osfhandle
  cases os.createFileAnswers <;> cases os.openOsfhandleAnswers <;> rfl

/-- On a pipe whose write end is closed, `openWriteEnd` with a failing `CreateFile` leaves the
pipe object as it was. -/
theorem openWriteEnd_failed (self : LocalNamedPipe) (os : PipeOs)
    (hhandle : self.hWrite = nullptr) (hfd : self.writeFd = -1)
    (hfail : (os.CreateFile self.szPipeName).1 = INVALID_HANDLE_VALUE) :
    self.openWriteEnd os = (self, (os.CreateFile self.szPipeName).2) := by
  unfold LocalNamedPipe.openWriteEnd
  simp [hhandle, hfd, hfail]

/-- On a pipe whose write end is closed, `openWriteEnd` with a `CreateFile` that succeeds
stores the handle it answered and the descriptor `_open_osfhandle` answers. -/
theorem openWriteEnd_granted (self : LocalNamedPipe) (os : PipeOs)
    (hhandle : self.hWrite = nullptr) (hfd : self.writeFd = -1)
    (hgranted : (os.CreateFile self.szPipeName).1 ≠ INVALID_HANDLE_VALUE) :
    (self.openWriteEnd os).1
      = { self with hWrite := (os.CreateFile self.szPipeName).1,
                    writeFd := (os._open_osfhandle (os.CreateFile self.szPipeName).1).1 } := by
  unfold LocalNamedPipe.openWriteEnd
  simp only [hhandle, hfd, and_self, if_true, hgranted, if_false]
  rw [open_osfhandle_answer]

/-- C21 as stated fails.  The first `writeHandle()` on a fresh pipe fails at `CreateFile` and
answers the null handle; the second one attempts the open again, the operating system grants
it, and the call answers handle 40; `writeFileDescriptor()` then answers descriptor 5.  Two
open attempts were made. -/
theorem failed_open_counterexample :
    (freshPipe.writeHandle reluctantPipeOs).1 = nullptr ∧
    (runWriteEndCalls [.writeHandle, .writeHandle, .writeFileDescriptor]
      (freshPipe, reluctantPipeOs)).1 = [.inl nullptr, .inl 40, .inr 5] ∧
    (runWriteEndCalls [.writeHandle, .writeHandle, .writeFileDescriptor]
      (freshPipe, reluctantPipeOs)).2.2.openAttempts = 2 := by
  decide

/-- C21 as amended: on a `LocalNamedPipe` whose write end is closed, a `writeHandle()` or
`writeFileDescriptor()` whose `CreateFile` fails answers the null handle, or the descriptor -1,
and leaves the pipe object as it was; so every later such call, whatever state the operating
system is in by then, attempts the open again with one more `CreateFile`: it answers the null
handle, or -1, again when that attempt fails too, and the handle `CreateFile` answered, or the
descriptor `_open_osfhandle` answered, when it succeeds. -/
theorem failed_open_is_attempted_again (self : LocalNamedPipe) (os : PipeOs)
    (hhandle : self.hWrite = nullptr) (hfd : self.writeFd = -1)
    (hfail : (os.CreateFile self.szPipeName).1 = INVALID_HANDLE_VALUE) :
    self.writeHandle os = (nullptr, self, (os.CreateFile self.szPipeName).2) ∧
    self.writeFileDescriptor os = (-1, self, (os.CreateFile self.szPipeName).2) ∧
    ∀ later : PipeOs,
      (self.writeHandle later).2.2.openAttempts = later.openAttempts + 1 ∧
      (self.writeFileDescriptor later).2.2.openAttempts = later.openAttempts + 1 ∧
      ((later.CreateFile self.szPipeName).1 = INVALID_HANDLE_VALUE →
        (self.writeHandle later).1 = nullptr ∧ (self.writeFileDescriptor later).1 = -1 ∧
        (self.writeHandle later).2.1 = self ∧ (self.writeFileDescriptor later).2.1 = self) ∧
      ((later.CreateFile self.szPipeName).1 ≠ INVALID_HANDLE_VALUE →
        (self.writeHandle later).1 = (later.CreateFile self.szPipeName).1 ∧
        (self.writeFileDescriptor later).1
          = (later._open_osfhandle (later.CreateFile self.szPipeName).1).1) := by
  have hfirst := openWriteEnd_failed self os hhandle hfd hfail
  refine ⟨?_, ?_, fun later => ⟨?_, ?_, fun hagain => ?_, fun hgranted => ?_⟩⟩
  · simp [LocalNamedPipe.writeHandle, hfirst, hhandle]
  · simp [LocalNamedPipe.writeFileDescriptor, hfirst, hfd]
  · exact openWriteEnd_closed self later hhandle hfd
  · exact openWriteEnd_closed self later hhandle hfd
  · have hlater := openWriteEnd_failed self later hhandle hfd hagain
    simp [LocalNamedPipe.writeHandle, LocalNamedPipe.writeFileDescriptor, hlater, hhandle, hfd]
  · have hlater := openWriteEnd_granted self later hhandle hfd hgranted
    simp [LocalNamedPipe.writeHandle, LocalNamedPipe.writeFileDescriptor, hlater]

/-- Witness of the amended C21: the fresh pipe on the operating system that refuses the first
attempt; the first call answers the null handle and leaves the pipe fresh, and the call made
next, on the operating system as the first call left it, answers handle 40. -/
theorem failed_open_is_attempted_again_witness :
    (freshPipe.hWrite = nullptr ∧ freshPipe.writeFd = -1 ∧
      (reluctantPipeOs.CreateFile freshPipe.szPipeName).1 = INVALID_HANDLE_VALUE) ∧
    freshPipe.writeHandle reluctantPipeOs
      = (nullptr, freshPipe, (reluctantPipeOs.CreateFile freshPipe.szPipeName).2) ∧
    (freshPipe.writeHandle (reluctantPipeOs.CreateFile freshPipe.szPipeName).2).1 = 40 ∧
    (freshPipe.writeHandle
      (reluctantPipeOs.CreateFile freshPipe.szPipeName).2).2.2.openAttempts = 2 :=
  ⟨⟨rfl, rfl, rfl⟩,
   (failed_open_is_attempted_again freshPipe reluctantPipeOs rfl rfl rfl).1,
   (((failed_open_is_attempted_again freshPipe reluctantPipeOs rfl rfl rfl).2.2
      (reluctantPipeOs.CreateFile freshPipe.szPipeName).2).2.2.2 (by decide)).1,
   ((failed_open_is_attempted_again freshPipe reluctantPipeOs rfl rfl rfl).2.2
      (reluctantPipeOs.CreateFile freshPipe.szPipeName).2).1⟩

end Win32Utils

namespace Win32Utils

open ConsoleService

/-- After `closeWriteHandles` the write end is closed: the handle is null and the descriptor
is -1. -/
theorem closeWriteHandles_closed (self : LocalNamedPipe) (os : PipeOs) :
    (self.closeWriteHandles os).1.hWrite = nullptr ∧
    (self.closeWriteHandles os).1.writeFd = -1 := by
  unfold LocalNamedPipe.closeWriteHandles
  by_cases hfd : self.writeFd = -1 <;> by_cases hhandle : self.hWrite = nullptr <;>
    simp [hfd, hhandle]

/-- On a pipe whose write end is closed `closeWriteHandles` does nothing and makes no call. -/
theorem closeWriteHandles_idle (self : LocalNamedPipe) (os : PipeOs)
    (hhandle : self.hWrite = nullptr) (hfd : self.writeFd = -1) :
    self.closeWriteHandles os = (self, os) := by
  unfold LocalNamedPipe.closeWriteHandles
  simp [hfd, hhandle]

/-- Where `_open_osfhandle` answers a descriptor, `openWriteEnd` keeps the rule that a write
handle comes with a descriptor. -/
theorem openWriteEnd_descriptor_valid (self : LocalNamedPipe) (os : PipeOs)
    (hrule : self.hWrite ≠ nullptr → self.writeFd ≠ -1)
    (hanswer : ∀ handle, (os._open_osfhandle handle).1 ≠ -1) :
    (self.openWriteEnd os).1.hWrite ≠ nullptr → (self.openWriteEnd os).1.writeFd ≠ -1 := by
  by_cases hclosed : self.hWrite = nullptr ∧ self.writeFd = -1
  · by_cases hfail : (os.CreateFile self.szPipeName).1 = INVALID_HANDLE_VALUE
    · rw [openWriteEnd_failed self os hclosed.1 hclosed.2 hfail]
      intro hopen
      exact absurd hclosed.1 hopen
    · rw [openWriteEnd_granted self os hclosed.1 hclosed.2 hfail]
      intro _
      exact hanswer _
  · have hsame : self.openWriteEnd os = (self, os) := by
      unfold LocalNamedPipe.openWriteEnd
      simp [hclosed]
    rw [hsame]
    exact hrule

/-- C22: the code at the failing input.  On a fresh pipe, `CreateFile` answers handle 40 and
`_open_osfhandle` fails: `writeHandle()` answers 40 and leaves the pipe with the write handle
40 and the descriptor -1.  Every `writeFileDescriptor()` that follows answers -1 without a new
attempt, and a `redirectConsole` over this pipe reports success with the standard-output slot
holding 40 while descriptor 1 still refers to the file of the console. -/
theorem write_handle_without_descriptor :
    (freshPipe.writeHandle halfWillingPipeOs).1 = 40 ∧
    (freshPipe.writeHandle halfWillingPipeOs).2.1
      = { freshPipe with hWrite := 40, writeFd := -1 } ∧
    (runWriteEndCalls [.writeHandle, .writeFileDescriptor, .writeFileDescriptor]
      (freshPipe, halfWillingPipeOs)).1 = [.inl 40, .inr (-1), .inr (-1)] ∧
    (runWriteEndCalls [.writeHandle, .writeFileDescriptor, .writeFileDescriptor]
      (freshPipe, halfWillingPipeOs)).2.2.openAttempts = 1 ∧
    ((construct (freshPipe, halfWillingPipeOs) 9).redirectConsole localNamedPipeApi stderr
      STD_ERROR_HANDLE stdout STD_OUTPUT_HANDLE consoleOs).2.1.isRedirected = true ∧
    ((construct (freshPipe, halfWillingPipeOs) 9).redirectConsole localNamedPipeApi stderr
      STD_ERROR_HANDLE stdout STD_OUTPUT_HANDLE consoleOs).2.2.stdOutput = 40 ∧
    ((construct (freshPipe, halfWillingPipeOs) 9).redirectConsole localNamedPipeApi stderr
      STD_ERROR_HANDLE stdout STD_OUTPUT_HANDLE consoleOs).2.2.fds.lookup 1 = some 101 := by
  decide

/-- A call on a console service over a `LocalNamedPipe` keeps the rule that a redirected
service holds a pipe whose write end is closed. -/
theorem callStep_write_end_closed
    (st : ConsoleService (LocalNamedPipe × PipeOs) × Option RedirectRecord) (call : ConsoleCall)
    (hrule : st.1.bIsRedirected = true →
      st.1.redirectTo.1.hWrite = nullptr ∧ st.1.redirectTo.1.writeFd = -1) :
    (callStep localNamedPipeApi st call).1.bIsRedirected = true →
      (callStep localNamedPipeApi st call).1.redirectTo.1.hWrite = nullptr ∧
      (callStep localNamedPipeApi st call).1.redirectTo.1.writeFd = -1 := by
  obtain ⟨service, record⟩ := st
  cases hflag : service.bIsRedirected with
  | true =>
    cases call with
    | redirectConsole a b c d os =>
      simp only [callStep, redirectConsole_redirected localNamedPipeApi service a b c d os hflag,
        isRedirected, hflag, Bool.not_true, Bool.false_and, Bool.false_eq_true, if_false]
      intro _
      exact hrule hflag
    | restoreConsole a b c d os =>
      simp only [callStep, restoreConsole_redirected localNamedPipeApi service a b c d os hflag,
        isRedirected, hflag, if_true]
      intro h
      simp at h
  | false =>
    cases call with
    | redirectConsole a b c d os =>
      by_cases hvalid : (localNamedPipeApi.writeHandle service.redirectTo).1 = nullptr
      · simp only [callStep,
          redirectConsole_invalid localNamedPipeApi service a b c d os hflag hvalid,
          isRedirected, hflag, Bool.not_false, Bool.and_false, Bool.false_eq_true, if_false]
        intro h
        simp [hflag] at h
      · simp only [callStep,
          redirectConsole_valid localNamedPipeApi service a b c d os hflag hvalid,
          isRedirected, hflag, Bool.not_false, Bool.and_self, if_true]
        intro _
        exact closeWriteHandles_closed _ _
    | restoreConsole a b c d os =>
      simp only [callStep, restoreConsole_idle localNamedPipeApi service a b c d os hflag,
        isRedirected, hflag, Bool.false_eq_true, if_false]
      intro h
      simp [hflag] at h

/-- The rule of `callStep_write_end_closed` holds after every sequence of calls from a state
where it holds. -/
theorem foldl_callStep_write_end_closed (calls : List ConsoleCall) :
    ∀ st : ConsoleService (LocalNamedPipe × PipeOs) × Option RedirectRecord,
      (st.1.bIsRedirected = true →
        st.1.redirectTo.1.hWrite = nullptr ∧ st.1.redirectTo.1.writeFd = -1) →
      ((calls.foldl (callStep localNamedPipeApi) st).1.bIsRedirected = true →
        (calls.foldl (callStep localNamedPipeApi) st).1.redirectTo.1.hWrite = nullptr ∧
        (calls.foldl (callStep localNamedPipeApi) st).1.redirectTo.1.writeFd = -1) := by
  induction calls with
  | nil => intro st hrule; exact hrule
  | cons call rest ih =>
    intro st hrule
    exact ih (callStep localNamedPipeApi st call) (callStep_write_end_closed st call hrule)

/-- C23: take a console service in any state reached from its construction over a
`LocalNamedPipe`, in whatever state that pipe is, by `redirectConsole` and `restoreConsole`
calls; after every `redirectConsole` on it that succeeds the write end of its pipe is closed:
the write handle is null and the write descriptor is -1.  `closeWriteHandles` is idempotent: a
second call changes neither the pipe nor the record of the calls made. -/
theorem redirectConsole_closes_write_end (pipe : LocalNamedPipe) (pipeOs : PipeOs)
    (window : HWND) (calls : List ConsoleCall) (stderrStream : FILE) (nStderrHandle : DWORD)
    (stdoutStream : FILE) (nStdoutHandle : DWORD) (os : Os)
    (hok : ∃ handle,
      ((runCalls localNamedPipeApi (pipe, pipeOs) window calls).1.redirectConsole
        localNamedPipeApi stderrStream nStderrHandle stdoutStream nStdoutHandle os).1
        = .ok handle) :
    (((runCalls localNamedPipeApi (pipe, pipeOs) window calls).1.redirectConsole
        localNamedPipeApi stderrStream nStderrHandle stdoutStream nStdoutHandle
        os).2.1.redirectTo.1.hWrite = nullptr ∧
      ((runCalls localNamedPipeApi (pipe, pipeOs) window calls).1.redirectConsole
        localNamedPipeApi stderrStream nStderrHandle stdoutStream nStdoutHandle
        os).2.1.redirectTo.1.writeFd = -1) ∧
    ∀ (p : LocalNamedPipe) (o : PipeOs),
      (p.closeWriteHandles o).1.closeWriteHandles (p.closeWriteHandles o).2
        = p.closeWriteHandles o := by
  refine ⟨?_, fun p o => ?_⟩
  · have hrule : (runCalls localNamedPipeApi (pipe, pipeOs) window calls).1.bIsRedirected = true →
        (runCalls localNamedPipeApi (pipe, pipeOs) window calls).1.redirectTo.1.hWrite = nullptr ∧
        (runCalls localNamedPipeApi (pipe, pipeOs) window calls).1.redirectTo.1.writeFd = -1 :=
      foldl_callStep_write_end_closed calls
        (construct (pipe, pipeOs) window, none) (fun h => by simp [construct] at h)
    generalize (runCalls localNamedPipeApi (pipe, pipeOs) window calls).1 = service
      at hok hrule ⊢
    cases hflag : service.bIsRedirected with
    | true =>
      rw [redirectConsole_redirected localNamedPipeApi service _ _ _ _ os hflag]
      exact hrule hflag
    | false =>
      by_cases hvalid : (localNamedPipeApi.writeHandle service.redirectTo).1 = nullptr
      · rw [redirectConsole_invalid localNamedPipeApi service _ _ _ _ os hflag hvalid] at hok
        obtain ⟨handle, hhandle⟩ := hok
        cases hhandle
      · rw [redirectConsole_valid localNamedPipeApi service _ _ _ _ os hflag hvalid]
        exact closeWriteHandles_closed _ _
  · exact closeWriteHandles_idle _ _ (closeWriteHandles_closed p o).1
      (closeWriteHandles_closed p o).2

/-- Witness of C23: a service built over the fresh pipe, on an operating system that opens its
write end, redirects the console of a process that has one; the call succeeds with the read
handle 30 and leaves the write end closed. -/
theorem redirectConsole_closes_write_end_witness :
    (∃ handle,
      ((runCalls localNamedPipeApi (freshPipe, willingPipeOs) 9 []).1.redirectConsole
        localNamedPipeApi stderr STD_ERROR_HANDLE stdout STD_OUTPUT_HANDLE consoleOs).1
        = .ok handle) ∧
    ((runCalls localNamedPipeApi (freshPipe, willingPipeOs) 9 []).1.redirectConsole
        localNamedPipeApi stderr STD_ERROR_HANDLE stdout STD_OUTPUT_HANDLE
        consoleOs).2.1.redirectTo.1.hWrite = nullptr ∧
    ((runCalls localNamedPipeApi (freshPipe, willingPipeOs) 9 []).1.redirectConsole
        localNamedPipeApi stderr STD_ERROR_HANDLE stdout STD_OUTPUT_HANDLE
        consoleOs).2.1.redirectTo.1.writeFd = -1 :=
  ⟨⟨30, rfl⟩,
   (redirectConsole_closes_write_end freshPipe willingPipeOs 9 [] stderr STD_ERROR_HANDLE
      stdout STD_OUTPUT_HANDLE consoleOs ⟨30, rfl⟩).1.1,
   (redirectConsole_closes_write_end freshPipe willingPipeOs 9 [] stderr STD_ERROR_HANDLE
      stdout STD_OUTPUT_HANDLE consoleOs ⟨30, rfl⟩).1.2⟩

end Win32Utils

/-! ## The status of `do_install` when every event is accepted -/

namespace Oobe

open Win32Utils SplashEnabledStrategy

variable {P I S : Type}

/-- The status the visitor of `do_install` accumulates is the one the last state gives that is
neither `PreparedTui` nor `Ready`, and `E_NOTIMPL` when there is no such state. -/
theorem statusAfterStates_eq_last_deciding (states : List InstallerState) :
    statusAfterStates states = statusOfLastDecidingState states := by
  induction states using List.reverseRecOn with
  | nil => rfl
  | append_singleton init state ih =>
    unfold statusAfterStates statusOfLastDecidingState at *
    rw [List.foldl_append, List.filter_append]
    cases state with
    | PreparedTui => simpa [statusAfterState] using ih
    | Ready => simpa [statusAfterState] using ih
    | PreparedGui => simp [statusAfterState, List.getLast?_append]
    | Success => simp [statusAfterState, List.getLast?_append]
    | UpstreamDefaultInstall code => simp [statusAfterState, List.getLast?_append]
    | Other tag => simp [statusAfterState, List.getLast?_append]

/-- On a strategy whose console service and splash controller exist, for every installer state
machine that accepts the three install events, whatever states it answers, `do_install` feeds
all three (the installer machine on return is the one the third event left) and returns the
status the last state gives that is neither `PreparedTui` nor `Ready`, `E_NOTIMPL` when all
three are. -/
theorem do_install_all_accepted (c : Controllers P I S) (ui : Mode)
    (self : SplashEnabledStrategy P I S) (w : World) (state1 state2 state3 : InstallerState)
    (sm1 sm2 sm3 : I)
    (hboth : self.hasConsoleAndSplash = true)
    (h1 : c.installer_addEvent self.installer (.InteractiveInstall ui) = (some state1, sm1))
    (h2 : c.installer_addEvent sm1 .StartInstaller = (some state2, sm2))
    (h3 : c.installer_addEvent sm2 .BlockOnInstaller = (some state3, sm3)) :
    ∃ self1 w1,
      do_install c ui self w
        = .ok (statusOfLastDecidingState [state1, state2, state3], self1, w1) ∧
      self1.installer = sm3 := by
  obtain ⟨self1, w1, hloop, hinst, _, _⟩ :=
    do_install_loop_ok c (do_install_eventSequence ui) E_NOTIMPL self w hboth
  have hfeed : feedInstaller c self.installer (do_install_eventSequence ui)
      = ([state1, state2, state3], sm3, false) := by
    simp [do_install_eventSequence, feedInstaller, h1, h2, h3]
  rw [hfeed] at hloop hinst
  refine ⟨self1, w1, ?_, hinst⟩
  rw [← statusAfterStates_eq_last_deciding]
  exact hloop

/-- C25: the code at the failing input.  On a strategy on which `do_run_splash` returned before
it created the console service and the splash controller, with `consoleGuard` free, the
installer accepts the three install events with the states `PreparedTui`, `PreparedGui` and
`Success`, or `PreparedGui`, `Ready` and `Other`; `do_install` does not return the status of
the last deciding state, it raises `bad_optional_access` at the first state that makes it call
`do_show_console` or `do_toggle_splash`. -/
theorem do_install_all_accepted_raises_without_console :
    (feedInstaller scriptedControllers
        (bareStrategy [some .PreparedTui, some .PreparedGui, some .Success]).installer
        (do_install_eventSequence 0))
      = ([.PreparedTui, .PreparedGui, .Success],
         { script := [], fed := [.InteractiveInstall 0, .StartInstaller, .BlockOnInstaller] },
         false) ∧
    do_install scriptedControllers 0
      (bareStrategy [some .PreparedTui, some .PreparedGui, some .Success]) consoleWorld
      = .error .bad_optional_access ∧
    (feedInstaller scriptedControllers
        (bareStrategy [some .PreparedGui, some .Ready, some (.Other 0)]).installer
        (do_install_eventSequence 0)).1 = [.PreparedGui, .Ready, .Other 0] ∧
    do_install scriptedControllers 0
      (bareStrategy [some .PreparedGui, some .Ready, some (.Other 0)]) consoleWorld
      = .error .bad_optional_access :=
  ⟨by decide, rfl, by decide, rfl⟩

end Oobe

/-! ## The flag `consoleIsVisible` and the console window -/

namespace Win32Utils

open ConsoleService

/-- `SetStdHandle` leaves the console window as it is. -/
theorem SetStdHandle_window (os : Os) (nStdHandle : DWORD) (h : HANDLE) :
    (SetStdHandle os nStdHandle h).consoleWindowVisible = os.consoleWindowVisible := by
  unfold SetStdHandle
  split_ifs <;> rfl

/-- `applyConsoleState` leaves the console window as it is. -/
theorem applyConsoleState_window (state : ConsoleState) (stderrStream : FILE)
    (nStderrHandle : DWORD) (stdoutStream : FILE) (nStdoutHandle : DWORD) (os : Os) :
    (applyConsoleState state stderrStream nStderrHandle stdoutStream nStdoutHandle
      os).consoleWindowVisible = os.consoleWindowVisible := by
  have hc := (consoleState_handles os).2.2.2.2.2
  unfold applyConsoleState
  by_cases heq : state.operator_eq (consoleState os).1 = true
  · simp only [heq, if_true]
    exact hc
  · simp only [heq]
    simp [dup2_frame, SetStdHandle_window, hc]

/-- `restoreConsole` leaves the console window as it is. -/
theorem restoreConsole_window {P : Type} (api : PipeApi P) (self : ConsoleService P)
    (stderrStream : FILE) (nStderrHandle : DWORD) (stdoutStream : FILE) (nStdoutHandle : DWORD)
    (os : Os) :
    (self.restoreConsole api stderrStream nStderrHandle stdoutStream nStdoutHandle
      os).2.consoleWindowVisible = os.consoleWindowVisible := by
  cases hflag : self.bIsRedirected with
  | false => rw [restoreConsole_idle api self _ _ _ _ os hflag]
  | true =>
    rw [restoreConsole_redirected api self _ _ _ _ os hflag]
    simp only [_close]
    exact applyConsoleState_window _ _ _ _ _ os

/-- `redirectConsole` leaves the console window as it is. -/
theorem redirectConsole_window {P : Type} (api : PipeApi P) (self : ConsoleService P)
    (stderrStream : FILE) (nStderrHandle : DWORD) (stdoutStream : FILE) (nStdoutHandle : DWORD)
    (os : Os) :
    (self.redirectConsole api stderrStream nStderrHandle stdoutStream nStdoutHandle
      os).2.2.consoleWindowVisible = os.consoleWindowVisible := by
  cases hflag : self.bIsRedirected with
  | true => rw [redirectConsole_redirected api self _ _ _ _ os hflag]
  | false =>
    by_cases hvalid : (api.writeHandle self.redirectTo).1 = nullptr
    · rw [redirectConsole_invalid api self _ _ _ _ os hflag hvalid]
    · rw [redirectConsole_valid api self _ _ _ _ os hflag hvalid]
      simp only [setvbuf_IONBF]
      rw [applyConsoleState_window]
      exact (consoleState_handles os).2.2.2.2.2

end Win32Utils

namespace Oobe

open Win32Utils SplashEnabledStrategy

variable {P I S : Type}

/-- An attempt to take `consoleGuard` leaves the operating system as it is. -/
theorem try_lock_for_os (w : World) : (try_lock_for w).2.os = w.os := by
  unfold try_lock_for
  cases w.guardOutcomes <;> rfl

/-- When `do_show_console` returns, a flag `consoleIsVisible` that told the truth still does. -/
theorem do_show_console_keeps_flag (c : Controllers P I S)
    (self self1 : SplashEnabledStrategy P I S) (w w1 : World)
    (hcall : do_show_console c self w = .ok (self1, w1))
    (hright : self.consoleFlagIsRight w = true) :
    self1.consoleFlagIsRight w1 = true := by
  have hos := try_lock_for_os w
  simp only [consoleFlagIsRight, beq_iff_eq] at hright ⊢
  unfold do_show_console at hcall
  rcases htry : try_lock_for w with ⟨acquired, w0⟩
  rw [htry] at hcall hos
  simp only at hcall hos
  cases acquired with
  | false =>
    simp only [Bool.not_false, if_true, Except.ok.injEq, Prod.mk.injEq] at hcall
    rw [← hcall.1, ← hcall.2, hos]
    exact hright
  | true =>
    cases hsvc : self.console with
    | none => simp [hsvc] at hcall
    | some service =>
      have hwindow := (restoreConsole_window c.pipe service stderr STD_ERROR_HANDLE stdout
        STD_OUTPUT_HANDLE w0.os).trans (congrArg Os.consoleWindowVisible hos)
      cases hvis : self.consoleIsVisible with
      | false =>
        have hhidden : w.os.consoleWindowVisible = false := by rw [← hright]; exact hvis
        simp only [hsvc, hvis, Bool.not_true, Bool.false_eq_true, if_false, Bool.not_false,
          if_true, Except.ok.injEq, Prod.mk.injEq] at hcall
        rw [← hcall.1, ← hcall.2]
        simp [ConsoleService.showConsoleWindow, ShowWindow_SW_SHOWNORMAL, hwindow, hhidden]
      | true =>
        simp only [hsvc, hvis, Bool.not_true, Bool.false_eq_true, if_false, Except.ok.injEq,
          Prod.mk.injEq] at hcall
        rw [← hcall.1, ← hcall.2]
        simp only [hwindow]
        rw [← hright]
        exact hvis.symm

/-- When `do_close_splash` returns, a flag `consoleIsVisible` that told the truth still
does. -/
theorem do_close_splash_keeps_flag (c : Controllers P I S)
    (self self1 : SplashEnabledStrategy P I S) (w w1 : World)
    (hcall : do_close_splash c self w = .ok (self1, w1))
    (hright : self.consoleFlagIsRight w = true) :
    self1.consoleFlagIsRight w1 = true := by
  unfold do_close_splash at hcall
  cases hshow : do_show_console c self w with
  | error e => simp [hshow] at hcall
  | ok shown =>
    obtain ⟨self0, w0⟩ := shown
    have hkept := do_show_console_keeps_flag c self self0 w w0 hshow hright
    simp only [hshow] at hcall
    cases hflag : self0.splashIsRunning with
    | false =>
      simp only [hflag, Bool.false_eq_true, if_false, Except.ok.injEq, Prod.mk.injEq] at hcall
      rw [← hcall.1, ← hcall.2]
      exact hkept
    | true =>
      cases hsm : self0.splash with
      | none => simp [hflag, hsm] at hcall
      | some sm =>
        simp only [hflag, hsm, if_true, Except.ok.injEq, Prod.mk.injEq] at hcall
        rw [← hcall.1, ← hcall.2]
        exact hkept

/-- `do_run_splash` keeps a flag `consoleIsVisible` that tells the truth as long as it is not
asked to hide a console window that is hidden already. -/
theorem do_run_splash_keeps_flag (c : Controllers P I S) (launch : SplashLaunch P S)
    (hideConsole : Bool) (self : SplashEnabledStrategy P I S) (w : World)
    (hright : self.consoleFlagIsRight w = true)
    (hsafe : hideConsole = false ∨ w.os.consoleWindowVisible = true) :
    (do_run_splash c launch hideConsole self w).1.consoleFlagIsRight
      (do_run_splash c launch hideConsole self w).2 = true := by
  have hos := try_lock_for_os w
  simp only [consoleFlagIsRight, beq_iff_eq] at hright ⊢
  unfold do_run_splash
  cases hexe : launch.splashExeExists with
  | false => simpa using hright
  | true =>
    cases hpipe : launch.pipe with
    | error message => simpa using hright
    | ok pipe =>
      rcases htry : try_lock_for w with ⟨acquired, w0⟩
      rw [htry] at hos
      simp only at hos
      cases acquired with
      | false => simpa [hos] using hright
      | true =>
        have hredirect := (redirectConsole_window c.pipe
          (ConsoleService.construct pipe launch.consoleWindow) stderr STD_ERROR_HANDLE stdout
          STD_OUTPUT_HANDLE w0.os).trans (congrArg Os.consoleWindowVisible hos)
        rcases hadd : c.splash_addEvent launch.splashController .Run with ⟨transition, sm1⟩
        cases transition with
        | none =>
          simp only [Bool.not_true, Bool.false_eq_true, if_false]
          rw [restoreConsole_window, hredirect]
          exact hright
        | some state =>
          cases state with
          | Visible window =>
            cases hideConsole with
            | false =>
              simp only [Bool.not_true, Bool.false_eq_true, if_false]
              rw [hredirect]
              exact hright
            | true =>
              have hshown : w.os.consoleWindowVisible = true := by
                rcases hsafe with h | h
                · cases h
                · exact h
              simp [ConsoleService.hideConsoleWindow, ShowWindow_SW_HIDE, hredirect, hshown]
          | _ =>
            simp only [Bool.not_true, Bool.false_eq_true, if_false]
            rw [restoreConsole_window, hredirect]
            exact hright

/-- `do_run_splash` asked to hide a console window that is hidden already, with everything in
place and the splash becoming `Visible`, leaves `consoleIsVisible` true and the window
hidden. -/
theorem do_run_splash_breaks_flag (c : Controllers P I S) (launch : SplashLaunch P S)
    (self : SplashEnabledStrategy P I S) (w : World) (pipe : P) (window : HWND)
    (hexe : launch.splashExeExists = true) (hpipe : launch.pipe = .ok pipe)
    (hlock : (try_lock_for w).1 = true)
    (hrun : (c.splash_addEvent launch.splashController .Run).1 = some (.Visible window))
    (hhidden : w.os.consoleWindowVisible = false) :
    (do_run_splash c launch true self w).1.consoleIsVisible = true ∧
    (do_run_splash c launch true self w).2.os.consoleWindowVisible = false := by
  have hos := try_lock_for_os w
  rcases htry : try_lock_for w with ⟨acquired, w0⟩
  rw [htry] at hos hlock
  simp only at hos hlock
  subst hlock
  have hredirect := (redirectConsole_window c.pipe
    (ConsoleService.construct pipe launch.consoleWindow) stderr STD_ERROR_HANDLE stdout
    STD_OUTPUT_HANDLE w0.os).trans (congrArg Os.consoleWindowVisible hos)
  rcases hadd : c.splash_addEvent launch.splashController .Run with ⟨transition, sm1⟩
  rw [hadd] at hrun
  simp only at hrun
  subst hrun
  simp [do_run_splash, hexe, hpipe, htry, hadd, ConsoleService.hideConsoleWindow,
    ShowWindow_SW_HIDE, hredirect, hhidden]

/-- C26: the code at the failing input.  The console window is hidden and `consoleIsVisible`
is false, so the flag tells the truth; `do_run_splash` is called with `hideConsole`, everything
is in place and the splash becomes `Visible`.  On return the window is hidden and
`consoleIsVisible` is true, and the `do_show_console` that follows, with nothing left to do for
a console it takes to be visible, leaves the window hidden.  The state is the one a first
`do_run_splash` with `hideConsole` leaves of a visible console: a second such call, on what
the first one left, ends with the flag true and the window hidden as well. -/
theorem do_run_splash_hides_hidden_console :
    (bareStrategy []).consoleFlagIsRight consoleWorld = true ∧
    (do_run_splash scriptedControllers readyLaunch true (bareStrategy [])
      consoleWorld).1.consoleFlagIsRight
      (do_run_splash scriptedControllers readyLaunch true (bareStrategy []) consoleWorld).2
      = true ∧
    (do_run_splash scriptedControllers readyLaunch true
      (do_run_splash scriptedControllers readyLaunch true (bareStrategy []) consoleWorld).1
      (do_run_splash scriptedControllers readyLaunch true (bareStrategy [])
        consoleWorld).2).1.consoleIsVisible = true ∧
    (do_run_splash scriptedControllers readyLaunch true
      (do_run_splash scriptedControllers readyLaunch true (bareStrategy []) consoleWorld).1
      (do_run_splash scriptedControllers readyLaunch true (bareStrategy [])
        consoleWorld).2).2.os.consoleWindowVisible = false ∧
    hiddenConsoleStrategy.consoleFlagIsRight hiddenConsoleWorld = true ∧
    (do_run_splash scriptedControllers readyLaunch true hiddenConsoleStrategy
      hiddenConsoleWorld).1.splashIsRunning = true ∧
    (do_run_splash scriptedControllers readyLaunch true hiddenConsoleStrategy
      hiddenConsoleWorld).1.consoleIsVisible = true ∧
    (do_run_splash scriptedControllers readyLaunch true hiddenConsoleStrategy
      hiddenConsoleWorld).2.os.consoleWindowVisible = false ∧
    (do_run_splash scriptedControllers readyLaunch true hiddenConsoleStrategy
      hiddenConsoleWorld).1.consoleFlagIsRight
      (do_run_splash scriptedControllers readyLaunch true hiddenConsoleStrategy
        hiddenConsoleWorld).2 = false ∧
    ∃ self1 w1,
      do_show_console scriptedControllers
        (do_run_splash scriptedControllers readyLaunch true hiddenConsoleStrategy
          hiddenConsoleWorld).1
        (do_run_splash scriptedControllers readyLaunch true hiddenConsoleStrategy
          hiddenConsoleWorld).2 = .ok (self1, w1) ∧
      self1.consoleIsVisible = true ∧ w1.os.consoleWindowVisible = false :=
  ⟨rfl, rfl, rfl, rfl, rfl, rfl, rfl, rfl, rfl, _, _, rfl, rfl, rfl⟩

end Oobe

/-! ## The flag `splashIsRunning` and the optional `splashWindow` -/

namespace Oobe

open Win32Utils SplashEnabledStrategy

variable {P I S : Type}

/-- Whether the two splash fields agree depends on those two fields alone. -/
theorem splashFieldsAgree_congr (a b : SplashEnabledStrategy P I S)
    (hflag : b.splashIsRunning = a.splashIsRunning) (hwindow : b.splashWindow = a.splashWindow) :
    b.splashFieldsAgree = a.splashFieldsAgree := by
  simp only [splashFieldsAgree, hflag, hwindow]

/-- When `do_show_console` returns it has left `splashIsRunning` and `splashWindow` as they
were. -/
theorem do_show_console_fields (c : Controllers P I S)
    (self self1 : SplashEnabledStrategy P I S) (w w1 : World)
    (hcall : do_show_console c self w = .ok (self1, w1)) :
    self1.splashIsRunning = self.splashIsRunning ∧ self1.splashWindow = self.splashWindow := by
  unfold do_show_console at hcall
  rcases htry : try_lock_for w with ⟨acquired, w0⟩
  rw [htry] at hcall
  simp only at hcall
  cases acquired with
  | false =>
    simp only [Bool.not_false, if_true, Except.ok.injEq, Prod.mk.injEq] at hcall
    rw [← hcall.1]
    exact ⟨rfl, rfl⟩
  | true =>
    cases hsvc : self.console with
    | none => simp [hsvc] at hcall
    | some service =>
      cases hvis : self.consoleIsVisible with
      | false =>
        simp only [hsvc, hvis, Bool.not_true, Bool.false_eq_true, if_false, Bool.not_false,
          if_true, Except.ok.injEq, Prod.mk.injEq] at hcall
        rw [← hcall.1]
        exact ⟨rfl, rfl⟩
      | true =>
        simp only [hsvc, hvis, Bool.not_true, Bool.false_eq_true, if_false, Except.ok.injEq,
          Prod.mk.injEq] at hcall
        rw [← hcall.1]
        exact ⟨rfl, rfl⟩

/-- When `do_toggle_splash` returns it has left `splashIsRunning` and `splashWindow` as they
were. -/
theorem do_toggle_splash_fields (c : Controllers P I S)
    (self self1 : SplashEnabledStrategy P I S)
    (hcall : do_toggle_splash c self = .ok self1) :
    self1.splashIsRunning = self.splashIsRunning ∧ self1.splashWindow = self.splashWindow := by
  unfold do_toggle_splash at hcall
  cases hsm : self.splash with
  | none => simp [hsm] at hcall
  | some sm =>
    simp only [hsm, Except.ok.injEq] at hcall
    rw [← hcall]
    exact ⟨rfl, rfl⟩

/-- When `do_close_splash` returns, two splash fields that agreed still agree. -/
theorem do_close_splash_agree (c : Controllers P I S)
    (self self1 : SplashEnabledStrategy P I S) (w w1 : World)
    (hcall : do_close_splash c self w = .ok (self1, w1))
    (hagree : self.splashFieldsAgree = true) : self1.splashFieldsAgree = true := by
  unfold do_close_splash at hcall
  cases hshow : do_show_console c self w with
  | error e => simp [hshow] at hcall
  | ok shown =>
    obtain ⟨self0, w0⟩ := shown
    obtain ⟨hflag0, hwindow0⟩ := do_show_console_fields c self self0 w w0 hshow
    have hagree0 : self0.splashFieldsAgree = true :=
      (splashFieldsAgree_congr self self0 hflag0 hwindow0).trans hagree
    simp only [hshow] at hcall
    cases hflag : self0.splashIsRunning with
    | false =>
      simp only [hflag, Bool.false_eq_true, if_false, Except.ok.injEq, Prod.mk.injEq] at hcall
      rw [← hcall.1]
      exact hagree0
    | true =>
      cases hsm : self0.splash with
      | none => simp [hflag, hsm] at hcall
      | some sm =>
        simp only [hflag, hsm, if_true, Except.ok.injEq, Prod.mk.injEq] at hcall
        rw [← hcall.1]
        rfl

/-- When the visitor of `do_install` returns, two splash fields that agreed still agree. -/
theorem do_install_visit_agree (c : Controllers P I S) (state : InstallerState)
    (hr hr1 : HRESULT) (self self1 : SplashEnabledStrategy P I S) (w w1 : World)
    (hcall : do_install_visit c state hr self w = .ok (hr1, self1, w1))
    (hagree : self.splashFieldsAgree = true) : self1.splashFieldsAgree = true := by
  cases state with
  | PreparedTui =>
    simp only [do_install_visit] at hcall
    cases hshow : do_show_console c self w with
    | error e => simp [hshow] at hcall
    | ok shown =>
      obtain ⟨self0, w0⟩ := shown
      obtain ⟨hflag0, hwindow0⟩ := do_show_console_fields c self self0 w w0 hshow
      simp only [hshow, Except.ok.injEq, Prod.mk.injEq] at hcall
      rw [← hcall.2.1]
      exact (splashFieldsAgree_congr self self0 hflag0 hwindow0).trans hagree
  | PreparedGui =>
    simp only [do_install_visit, Except.ok.injEq, Prod.mk.injEq] at hcall
    rw [← hcall.2.1]
    exact hagree
  | Ready =>
    simp only [do_install_visit] at hcall
    cases htoggle : do_toggle_splash c self with
    | error e => simp [htoggle] at hcall
    | ok self0 =>
      obtain ⟨hflag0, hwindow0⟩ := do_toggle_splash_fields c self self0 htoggle
      simp only [htoggle, Except.ok.injEq, Prod.mk.injEq] at hcall
      rw [← hcall.2.1]
      exact (splashFieldsAgree_congr self self0 hflag0 hwindow0).trans hagree
  | Success =>
    simp only [do_install_visit] at hcall
    cases hclose : do_close_splash c self w with
    | error e => simp [hclose] at hcall
    | ok closed =>
      obtain ⟨self0, w0⟩ := closed
      simp only [hclose, Except.ok.injEq, Prod.mk.injEq] at hcall
      rw [← hcall.2.1]
      exact do_close_splash_agree c self self0 w w0 hclose hagree
  | UpstreamDefaultInstall code =>
    simp only [do_install_visit] at hcall
    cases hshow : do_show_console c self w with
    | error e => simp [hshow] at hcall
    | ok shown =>
      obtain ⟨self0, w0⟩ := shown
      obtain ⟨hflag0, hwindow0⟩ := do_show_console_fields c self self0 w w0 hshow
      simp only [hshow, Except.ok.injEq, Prod.mk.injEq] at hcall
      rw [← hcall.2.1]
      exact (splashFieldsAgree_congr self self0 hflag0 hwindow0).trans hagree
  | Other tag =>
    simp only [do_install_visit, Except.ok.injEq, Prod.mk.injEq] at hcall
    rw [← hcall.2.1]
    exact hagree

/-- When the loop of `do_install` returns, two splash fields that agreed still agree. -/
theorem do_install_loop_agree (c : Controllers P I S) (events : List InstallerEvent) :
    ∀ (hr hr1 : HRESULT) (self self1 : SplashEnabledStrategy P I S) (w w1 : World),
      do_install_loop c events hr self w = .ok (hr1, self1, w1) →
      self.splashFieldsAgree = true → self1.splashFieldsAgree = true := by
  induction events with
  | nil =>
    intro hr hr1 self self1 w w1 hcall hagree
    simp only [do_install_loop, Except.ok.injEq, Prod.mk.injEq] at hcall
    rw [← hcall.2.1]
    exact hagree
  | cons ev rest ih =>
    intro hr hr1 self self1 w w1 hcall hagree
    rcases hadd : c.installer_addEvent self.installer ev with ⟨answer, sm1⟩
    have hagree1 : ({ self with installer := sm1 } : SplashEnabledStrategy P I S).splashFieldsAgree
        = true := hagree
    simp only [do_install_loop, hadd] at hcall
    cases answer with
    | none =>
      simp only at hcall
      cases hclose : do_close_splash c { self with installer := sm1 } w with
      | error e => simp [hclose] at hcall
      | ok closed =>
        obtain ⟨self0, w0⟩ := closed
        simp only [hclose, Except.ok.injEq, Prod.mk.injEq] at hcall
        rw [← hcall.2.1]
        exact do_close_splash_agree c _ self0 w w0 hclose hagree1
    | some state =>
      simp only at hcall
      cases hvisit : do_install_visit c state hr { self with installer := sm1 } w with
      | error e => simp [hvisit] at hcall
      | ok visited =>
        obtain ⟨hr0, self0, w0⟩ := visited
        simp only [hvisit] at hcall
        exact ih hr0 hr1 self0 self1 w0 w1 hcall
          (do_install_visit_agree c state hr hr0 _ self0 w w0 hvisit hagree1)

/-- After `do_run_splash`, two splash fields that agreed still agree. -/
theorem do_run_splash_agree (c : Controllers P I S) (launch : SplashLaunch P S)
    (hideConsole : Bool) (self : SplashEnabledStrategy P I S) (w : World)
    (hagree : self.splashFieldsAgree = true) :
    (do_run_splash c launch hideConsole self w).1.splashFieldsAgree = true := by
  unfold do_run_splash
  cases hexe : launch.splashExeExists with
  | false => simpa using hagree
  | true =>
    cases hpipe : launch.pipe with
    | error message => simpa using hagree
    | ok pipe =>
      rcases htry : try_lock_for w with ⟨acquired, w0⟩
      cases acquired with
      | false => simpa [splashFieldsAgree] using hagree
      | true =>
        rcases hadd : c.splash_addEvent launch.splashController .Run with ⟨transition, sm1⟩
        cases transition with
        | none => simpa [splashFieldsAgree] using hagree
        | some state =>
          cases state with
          | Visible window => cases hideConsole <;> simp [splashFieldsAgree]
          | _ => simpa [splashFieldsAgree] using hagree

/-- One call keeps two splash fields that agree in agreement. -/
theorem runStrategyCall_agree (c : Controllers P I S) (call : StrategyCall P S)
    (self self1 : SplashEnabledStrategy P I S)
    (hcall : runStrategyCall c self call = .ok self1)
    (hagree : self.splashFieldsAgree = true) : self1.splashFieldsAgree = true := by
  cases call with
  | do_run_splash launch hideConsole w =>
    simp only [runStrategyCall, Except.ok.injEq] at hcall
    rw [← hcall]
    exact do_run_splash_agree c launch hideConsole self w hagree
  | do_toggle_splash =>
    simp only [runStrategyCall] at hcall
    obtain ⟨hflag, hwindow⟩ := do_toggle_splash_fields c self self1 hcall
    exact (splashFieldsAgree_congr self self1 hflag hwindow).trans hagree
  | do_show_console w =>
    simp only [runStrategyCall] at hcall
    cases hshow : do_show_console c self w with
    | error e => simp [hshow] at hcall
    | ok shown =>
      obtain ⟨self0, w0⟩ := shown
      obtain ⟨hflag, hwindow⟩ := do_show_console_fields c self self0 w w0 hshow
      simp only [hshow, Except.ok.injEq] at hcall
      rw [← hcall]
      exact (splashFieldsAgree_congr self self0 hflag hwindow).trans hagree
  | do_close_splash w =>
    simp only [runStrategyCall] at hcall
    cases hclose : do_close_splash c self w with
    | error e => simp [hclose] at hcall
    | ok closed =>
      obtain ⟨self0, w0⟩ := closed
      simp only [hclose, Except.ok.injEq] at hcall
      rw [← hcall]
      exact do_close_splash_agree c self self0 w w0 hclose hagree
  | do_install ui w =>
    simp only [runStrategyCall] at hcall
    cases hinstall : do_install c ui self w with
    | error e => simp [hinstall] at hcall
    | ok installed =>
      obtain ⟨hr0, self0, w0⟩ := installed
      simp only [hinstall, Except.ok.injEq] at hcall
      rw [← hcall]
      exact do_install_loop_agree c (do_install_eventSequence ui) E_NOTIMPL hr0 self self0 w w0
        hinstall hagree

/-- Every sequence of calls keeps two splash fields that agree in agreement. -/
theorem runStrategyCalls_agree (c : Controllers P I S) (calls : List (StrategyCall P S)) :
    ∀ self self1 : SplashEnabledStrategy P I S,
      runStrategyCalls c calls self = .ok self1 →
      self.splashFieldsAgree = true → self1.splashFieldsAgree = true := by
  induction calls with
  | nil =>
    intro self self1 hrun hagree
    simp only [runStrategyCalls, Except.ok.injEq] at hrun
    rw [← hrun]
    exact hagree
  | cons call rest ih =>
    intro self self1 hrun hagree
    simp only [runStrategyCalls] at hrun
    cases hcall : runStrategyCall c self call with
    | error e => simp [hcall] at hrun
    | ok self0 =>
      simp only [hcall] at hrun
      exact ih self0 self1 hrun (runStrategyCall_agree c call self self0 hcall hagree)

/-- C27: in every state reached from a state with `splashIsRunning` false and `splashWindow`
empty by a sequence of `do_run_splash`, `do_toggle_splash`, `do_show_console`,
`do_close_splash` and `do_install` calls, each made in whatever state the operating system and
`consoleGuard` are in, `splashIsRunning` is true if and only if `splashWindow` holds a
value. -/
theorem splashIsRunning_iff_splashWindow (c : Controllers P I S)
    (calls : List (StrategyCall P S)) (initial final : SplashEnabledStrategy P I S)
    (hflag : initial.splashIsRunning = false) (hwindow : initial.splashWindow = none)
    (hrun : runStrategyCalls c calls initial = .ok final) :
    final.splashIsRunning = true ↔ ∃ window, final.splashWindow = some window := by
  have hagree := runStrategyCalls_agree c calls initial final hrun
    (by simp [splashFieldsAgree, hflag, hwindow])
  simp only [splashFieldsAgree, beq_iff_eq] at hagree
  rw [hagree, Option.isSome_iff_exists]

/-- Witness of C27: from the strategy that has nothing, `do_run_splash` with everything in
place leaves the flag true and the window 77; the `do_install` that follows, with an installer
that answers `PreparedGui`, `Ready` and `Success`, leaves the flag false and no window. -/
theorem splashIsRunning_iff_splashWindow_witness :
    ((bareStrategy [some .PreparedGui, some .Ready, some .Success]).splashIsRunning = false ∧
      (bareStrategy [some .PreparedGui, some .Ready, some .Success]).splashWindow = none) ∧
    (∃ final,
      runStrategyCalls scriptedControllers [.do_run_splash readyLaunch true consoleWorld]
        (bareStrategy [some .PreparedGui, some .Ready, some .Success]) = .ok final ∧
      (final.splashIsRunning = true ↔ ∃ window, final.splashWindow = some window) ∧
      final.splashIsRunning = true ∧ final.splashWindow = some 77) ∧
    ∃ final,
      runStrategyCalls scriptedControllers
        [.do_run_splash readyLaunch true consoleWorld, .do_install 0 splashWorld]
        (bareStrategy [some .PreparedGui, some .Ready, some .Success]) = .ok final ∧
      (final.splashIsRunning = true ↔ ∃ window, final.splashWindow = some window) ∧
      final.splashIsRunning = false ∧ final.splashWindow = none :=
  ⟨⟨rfl, rfl⟩,
   ⟨_, rfl,
    splashIsRunning_iff_splashWindow scriptedControllers
      [.do_run_splash readyLaunch true consoleWorld]
      (bareStrategy [some .PreparedGui, some .Ready, some .Success]) _ rfl rfl rfl,
    rfl, rfl⟩,
   ⟨_, rfl,
    splashIsRunning_iff_splashWindow scriptedControllers
      [.do_run_splash readyLaunch true consoleWorld, .do_install 0 splashWorld]
      (bareStrategy [some .PreparedGui, some .Ready, some .Success]) _ rfl rfl rfl,
    rfl, rfl⟩⟩

end Oobe

/-! ## Properties of the standard algorithms -/

namespace std

variable {α : Type} [DecidableEq α]

/-- What `mismatch` finds: the two ranges split into a common beginning, whose length is the
position answered in both ranges, and two rests of which one is empty or whose first elements
differ. -/
theorem mismatch_split (range1 : List α) :
    ∀ range2 : List α, ∃ common rest1 rest2,
      range1 = common ++ rest1 ∧ range2 = common ++ rest2 ∧
      mismatch range1 range2 = (common.length, common.length) ∧
      (rest1 = [] ∨ rest2 = [] ∨
        ∃ a b tail1 tail2, rest1 = a :: tail1 ∧ rest2 = b :: tail2 ∧ a ≠ b) := by
  induction range1 with
  | nil =>
    intro range2
    exact ⟨[], [], range2, rfl, rfl, by simp [mismatch], Or.inl rfl⟩
  | cons a tail ih =>
    intro range2
    cases range2 with
    | nil => exact ⟨[], a :: tail, [], rfl, rfl, by simp [mismatch], Or.inr (Or.inl rfl)⟩
    | cons b tail2 =>
      by_cases hab : a = b
      · subst hab
        obtain ⟨common, rest1, rest2, h1, h2, hm, hrest⟩ := ih tail2
        refine ⟨a :: common, rest1, rest2, by rw [h1]; rfl, by rw [h2]; rfl, ?_, hrest⟩
        simp [mismatch, hm]
      · exact ⟨[], a :: tail, b :: tail2, rfl, rfl, by simp [mismatch, hab],
          Or.inr (Or.inr ⟨a, b, tail, tail2, rfl, rfl, hab⟩)⟩

/-- `mismatch` reaches the end of the first range exactly when the second range begins with
the first. -/
theorem mismatch_first_eq_length_iff (range1 range2 : List α) :
    (mismatch range1 range2).1 = range1.length ↔ range1 <+: range2 := by
  obtain ⟨common, rest1, rest2, h1, h2, hm, hrest⟩ := mismatch_split range1 range2
  rw [hm, h1, h2]
  simp only [List.length_append]
  constructor
  · intro hlen
    have hempty : rest1 = [] := List.length_eq_zero.mp (by omega)
    subst hempty
    simp
  · intro hstart
    have hrests : rest1 <+: rest2 := (List.prefix_append_right_inj common).mp hstart
    rcases hrest with h | h | ⟨a, b, tail1, tail2, hr1, hr2, hab⟩
    · simp [h]
    · subst h
      have hempty := List.prefix_nil.mp hrests
      simp [hempty]
    · subst hr1 hr2
      exact absurd (List.cons_prefix_cons.mp hrests).1 hab

end std

/-! ## Properties of the upgrade policy -/

namespace internal

/-- `starts_with(tested, start)` is true exactly when `tested` begins with `start`. -/
theorem starts_with_iff (tested start : String) :
    starts_with tested start = true ↔ start.data <+: tested.data := by
  unfold starts_with
  by_cases hshort : tested.length < start.length
  · simp only [hshort, if_true, Bool.false_eq_true, false_iff]
    intro hstart
    have hle := hstart.length_le
    simp only [String.length] at hshort
    omega
  · simp only [hshort, if_false, beq_iff_eq]
    exact std.mismatch_first_eq_length_iff start.data tested.data

/-- `ends_with(tested, end)` is true exactly when `tested` ends with `end`. -/
theorem ends_with_iff (tested ending : String) :
    ends_with tested ending = true ↔ ending.data <:+ tested.data := by
  unfold ends_with
  by_cases hshort : tested.length < ending.length
  · simp only [hshort, if_true, Bool.false_eq_true, false_iff]
    intro hend
    have hle := hend.length_le
    simp only [String.length] at hshort
    omega
  · simp only [hshort, if_false, beq_iff_eq]
    rw [std.mismatch_first_eq_length_iff, List.reverse_prefix]

/-- C28: `starts_with(t, s)` is true exactly when `s` is a beginning of `t`, and
`ends_with(t, e)` exactly when `e` is an ending of `t`, for all strings, the empty one and
those shorter than the pattern included; and for every distribution name `GetUpgradePolicy`
returns `lts` if the name is exactly `Ubuntu`, otherwise `never` if the name begins with
`Ubuntu` and ends with `LTS`, otherwise `normal`. -/
theorem GetUpgradePolicy_by_name :
    (∀ tested start : String, starts_with tested start = true ↔ start.data <+: tested.data) ∧
    (∀ tested ending : String, ends_with tested ending = true ↔ ending.data <:+ tested.data) ∧
    ∀ name : String,
      GetUpgradePolicy name =
        if name = "Ubuntu" then "lts"
        else if "Ubuntu".data <+: name.data ∧ "LTS".data <:+ name.data then "never"
        else "normal" := by
  refine ⟨starts_with_iff, ends_with_iff, fun name => ?_⟩
  unfold GetUpgradePolicy
  by_cases hexact : name = "Ubuntu"
  · simp only [hexact, if_true]
  · simp only [hexact, if_false, Bool.and_eq_true, starts_with_iff, ends_with_iff]

/-- The policy of some distribution names, by the characterisation of C28: `Ubuntu` gets
`lts`, `Ubuntu20.04LTS` gets `never`, `UbuntuPreview`, `LTS` and the empty name get
`normal`. -/
theorem GetUpgradePolicy_by_name_witness :
    GetUpgradePolicy "Ubuntu" = "lts" ∧
    GetUpgradePolicy "Ubuntu20.04LTS" = "never" ∧
    GetUpgradePolicy "UbuntuPreview" = "normal" ∧
    GetUpgradePolicy "LTS" = "normal" ∧
    GetUpgradePolicy "" = "normal" ∧
    starts_with "" "" = true ∧ ends_with "LT" "LTS" = false :=
  ⟨(GetUpgradePolicy_by_name.2.2 "Ubuntu").trans (by decide),
   (GetUpgradePolicy_by_name.2.2 "Ubuntu20.04LTS").trans (by decide),
   (GetUpgradePolicy_by_name.2.2 "UbuntuPreview").trans (by decide),
   (GetUpgradePolicy_by_name.2.2 "LTS").trans (by decide),
   (GetUpgradePolicy_by_name.2.2 "").trans (by decide),
   (GetUpgradePolicy_by_name.1 "" "").2 (by decide),
   by decide⟩

end internal

/-! ## More properties of the standard algorithms -/

namespace std

variable {α : Type} [DecidableEq α]

/-- The two positions `mismatch` answers are the same number of elements into each range. -/
theorem mismatch_fst_eq_snd (range1 range2 : List α) :
    (mismatch range1 range2).1 = (mismatch range1 range2).2 := by
  obtain ⟨common, rest1, rest2, _, _, hm, _⟩ := mismatch_split range1 range2
  rw [hm]

/-- A range does not differ from itself. -/
theorem mismatch_self (range : List α) : mismatch range range = (range.length, range.length) := by
  induction range with
  | nil => rfl
  | cons a tail ih => simp [mismatch, ih]

/-- Two ranges with a common beginning followed by different elements differ right after that
beginning. -/
theorem mismatch_common (common : List α) (a b : α) (tail1 tail2 : List α) (hab : a ≠ b) :
    mismatch (common ++ a :: tail1) (common ++ b :: tail2)
      = (common.length, common.length) := by
  induction common with
  | nil => simp [mismatch, hab]
  | cons x rest ih => simp [mismatch, ih]

/-- `find` ends short of the end of the range exactly when the value is in the range. -/
theorem find_ne_length_iff (range : List α) (value : α) :
    find range value ≠ range.length ↔ value ∈ range := by
  induction range with
  | nil => simp [find]
  | cons x rest ih =>
    by_cases hx : x = value
    · simp [find, hx]
    · have hne : ¬ value = x := fun h => hx h.symm
      simp only [find, hx, if_false, List.length_cons, ne_eq, Nat.add_right_cancel_iff,
        List.mem_cons, hne, false_or]
      exact ih

end std

namespace std

variable {α : Type}

/-- Writing at a position inside the list, and taking the elements up to and with it. -/
theorem take_succ_set (l : List α) (n : Nat) (a : α) (h : n < l.length) :
    (l.set n a).take (n + 1) = l.take n ++ [a] := by
  induction l generalizing n with
  | nil => simp at h
  | cons x tail ih =>
    cases n with
    | zero => simp
    | succ m =>
      have hm : m < tail.length := by simpa using h
      simp [ih m hm]

/-- The loop of `remove_if` against `filter`: when the elements before the write position are
the ones kept of those before the read position, and the elements from the read position on
are still the original ones, the loop ends with the kept elements of the whole range in
front, the write position right after them, and the length of the range unchanged. -/
theorem remove_if_loop_filter (pred : α → Bool) (original : List α) :
    ∀ (todo : Nat) (range : List α) (first i : Nat),
      first ≤ i → i + todo = original.length → range.length = original.length →
      range.take first = (original.take i).filter (fun x => !pred x) →
      range.drop i = original.drop i →
      (remove_if_loop pred todo range first i).1.take (remove_if_loop pred todo range first i).2
          = original.filter (fun x => !pred x) ∧
        (remove_if_loop pred todo range first i).1.length = original.length := by
  intro todo
  induction todo with
  | zero =>
    intro range first i _ hdone hlen hkept _
    have hi : i = original.length := by omega
    subst hi
    simp only [remove_if_loop]
    rw [hkept, List.take_length]
    exact ⟨rfl, hlen⟩
  | succ todo ih =>
    intro range first i hle hdone hlen hkept hrest
    have hi : i < original.length := by omega
    have hread : range[i]? = original[i]? := by
      have h := congrArg (fun l => l[0]?) hrest
      simpa [List.getElem?_drop] using h
    have hx : original[i]? = some original[i] := List.getElem?_eq_getElem hi
    rw [hx] at hread
    have hnext : range.drop (i + 1) = original.drop (i + 1) := by
      have h := congrArg (List.drop 1) hrest
      simpa [List.drop_drop] using h
    have htake : original.take (i + 1) = original.take i ++ [original[i]] := by
      rw [List.take_succ, hx]
      rfl
    simp only [remove_if_loop, hread]
    cases hpred : pred original[i] with
    | true =>
      simp only [if_true]
      refine ih range first (i + 1) (by omega) (by omega) hlen ?_ hnext
      rw [htake, List.filter_append, hkept]
      simp [hpred]
    | false =>
      simp only [Bool.false_eq_true, if_false]
      refine ih (range.set first original[i]) (first + 1) (i + 1) (by omega) (by omega)
        (by rw [List.length_set]; exact hlen) ?_ ?_
      · rw [take_succ_set range first _ (by omega), htake, List.filter_append, hkept]
        simp [hpred]
      · rw [List.drop_set_of_lt _ _ (by omega)]
        exact hnext

/-- `remove_if` leaves in front, in their order, the elements the predicate does not hold of,
and answers the position right after them. -/
theorem remove_if_filter (pred : α → Bool) (range : List α) :
    (remove_if pred range).1.take (remove_if pred range).2 = range.filter (fun x => !pred x) ∧
    (remove_if pred range).1.length = range.length := by
  unfold remove_if
  exact remove_if_loop_filter pred range range.length range 0 0 (Nat.le_refl 0) (by omega) rfl
    rfl rfl

end std

/-! ## Properties of the extended command-line parser -/

namespace Oobe.internal

/-- The predicate handed to `remove_if` holds of the members of `allExtendedArgs`. -/
theorem isExtendedArg_iff (g : Grammar) (arg : String) :
    isExtendedArg g arg = true ↔ arg ∈ g.allExtendedArgs := by
  unfold isExtendedArg
  rw [decide_eq_true_iff]
  exact std.find_ne_length_iff g.allExtendedArgs arg

/-- What `parseExtendedOptions` leaves of the arguments: those that are not members of
`allExtendedArgs`, in their order. -/
theorem parseExtendedOptions_arguments (g : Grammar) (arguments : List String) :
    (parseExtendedOptions g arguments).2
      = arguments.filter (fun arg => decide (arg ∉ g.allExtendedArgs)) := by
  have hremoved := std.remove_if_filter (isExtendedArg g) arguments
  have hpred : (fun arg => !isExtendedArg g arg)
      = (fun arg => decide (arg ∉ g.allExtendedArgs)) := by
    funext arg
    by_cases hmem : arg ∈ g.allExtendedArgs
    · simp [hmem, (isExtendedArg_iff g arg).2 hmem]
    · have hnot : isExtendedArg g arg = false := by
        cases h : isExtendedArg g arg with
        | false => rfl
        | true => exact absurd ((isExtendedArg_iff g arg).1 h) hmem
      simp [hmem, hnot]
  simp only [parseExtendedOptions, std.erase, List.drop_length, List.append_nil]
  rw [hremoved.1, hpred]

/-- C29: for every argument list, `parseExtendedOptions` returns the options `parse` computes
on the list as it was given, and leaves in the list exactly the arguments that are not members
of `allExtendedArgs`, in their original order; applied again to the list it left, it removes
nothing more. -/
theorem parseExtendedOptions_erases_extended_args (g : Grammar) (arguments : List String) :
    (parseExtendedOptions g arguments).1 = parse g arguments ∧
    (parseExtendedOptions g arguments).2
      = arguments.filter (fun arg => decide (arg ∉ g.allExtendedArgs)) ∧
    (parseExtendedOptions g (parseExtendedOptions g arguments).2).2
      = (parseExtendedOptions g arguments).2 := by
  refine ⟨rfl, parseExtendedOptions_arguments g arguments, ?_⟩
  rw [parseExtendedOptions_arguments g (parseExtendedOptions g arguments).2,
    parseExtendedOptions_arguments g arguments, List.filter_filter]
  simp

/-- C29 at a command line: `install --ui=gui --verbose` is parsed as the install-only command
with the graphical installer, and `install --verbose` is what is left of it. -/
theorem parseExtendedOptions_erases_extended_args_witness :
    parseExtendedOptions sampleGrammar ["install", "--ui=gui"]
      = (Opts.InteractiveInstallOnly_OobeGui, ["install"]) ∧
    (parseExtendedOptions sampleGrammar ["install", "--ui=gui", "--verbose"]).2
      = ["install", "--verbose"] ∧
    (parseExtendedOptions sampleGrammar
      (parseExtendedOptions sampleGrammar ["install", "--ui=gui", "--verbose"]).2).2
      = ["install", "--verbose"] :=
  ⟨by decide,
   (parseExtendedOptions_erases_extended_args sampleGrammar
      ["install", "--ui=gui", "--verbose"]).2.1.trans (by decide),
   ((parseExtendedOptions_erases_extended_args sampleGrammar
      ["install", "--ui=gui", "--verbose"]).2.2).trans (by decide)⟩

/-- The generic `tryParse` returns its value exactly on the list `requirements`. -/
theorem tryParse_eq {ParsedOpt : Type} (requirements : List String) (value : ParsedOpt)
    (arguments : List String) :
    tryParse requirements value arguments
      = if arguments = requirements then some value else none := by
  unfold tryParse
  by_cases heq : arguments = requirements
  · subst heq
    simp [std.mismatch_self]
  · simp only [heq, if_false]
    by_cases hlen : arguments.length = requirements.length
    · have hfirst : ¬ (std.mismatch requirements arguments).1 = requirements.length := by
        intro hend
        have hstart := (std.mismatch_first_eq_length_iff requirements arguments).1 hend
        exact heq (hstart.eq_of_length hlen.symm).symm
      simp [hlen, hfirst]
    · simp [hlen]

/-- C30: for every argument list, the generic `tryParse<ParsedOpt>` returns a value, and then
`ParsedOpt{}`, if and only if the list equals `ParsedOpt::requirements`; for a non-empty
`AutoInstall::requirements`, `tryParse<AutoInstall>` returns a value if and only if the list
has the length of the requirements, agrees with them at every position but the last and
differs from them at the last one, and the value then carries the last argument as the path
of the autoinstall file. -/
theorem tryParse_matches_requirements {ParsedOpt : Type} (requirements : List String)
    (value : ParsedOpt) (autoInstallRequirements : List String) (arguments : List String)
    (hreq : autoInstallRequirements ≠ []) :
    (∀ parsed, tryParse requirements value arguments = some parsed ↔
      arguments = requirements ∧ parsed = value) ∧
    (∀ parsed, tryParse_AutoInstall autoInstallRequirements arguments = some parsed ↔
      ∃ init required given,
        autoInstallRequirements = init ++ [required] ∧ arguments = init ++ [given] ∧
        given ≠ required ∧ parsed = { autoInstallFile := given }) := by
  refine ⟨fun parsed => ?_, fun parsed => ⟨fun hsome => ?_, ?_⟩⟩
  · rw [tryParse_eq]
    by_cases heq : arguments = requirements
    · simp [heq, eq_comm]
    · simp [heq]
  · unfold tryParse_AutoInstall at hsome
    by_cases hlen : arguments.length = autoInstallRequirements.length
    · simp only [hlen, ne_eq, not_true_eq_false, if_false] at hsome
      obtain ⟨common, rest1, rest2, h1, h2, hm, hrest⟩ :=
        std.mismatch_split autoInstallRequirements arguments
      rw [hm] at hsome
      have hpos : 0 < autoInstallRequirements.length := List.length_pos.mpr hreq
      by_cases hlast : common.length = autoInstallRequirements.length - 1
      · have hlen1 : rest1.length = 1 := by
          have h := congrArg List.length h1
          rw [List.length_append] at h
          omega
        have hlen2 : rest2.length = 1 := by
          have h := congrArg List.length h2
          rw [List.length_append] at h
          omega
        obtain ⟨required, hrequired⟩ := List.length_eq_one.mp hlen1
        obtain ⟨given, hgiven⟩ := List.length_eq_one.mp hlen2
        subst hrequired hgiven
        have hdiffer : given ≠ required := by
          rcases hrest with h | h | ⟨a, b, tail1, tail2, ha, hb, hab⟩
          · cases h
          · cases h
          · cases ha
            cases hb
            exact fun h => hab h.symm
        refine ⟨common, required, given, h1, h2, hdiffer, ?_⟩
        simp only [hlast, true_and] at hsome
        have hsecond : autoInstallRequirements.length - 1 = arguments.length - 1 := by
          rw [hlen]
        simp only [hsecond, if_true, Option.some.injEq] at hsome
        rw [← hsome, h2]
        simp
      · simp [hlast] at hsome
    · simp [hlen] at hsome
  · rintro ⟨init, required, given, hrequirements, harguments, hdiffer, hparsed⟩
    subst hrequirements harguments hparsed
    unfold tryParse_AutoInstall
    have hm := std.mismatch_common init required given [] []
      (fun h => hdiffer h.symm)
    simp [hm]

/-- Witness of C30 at the command lines of `parse`: `install` is what the install-only command
requires and `install --ui=gui` is not; with the requirements `install`, `--autoinstall` and a
placeholder, `install --autoinstall a.yaml` gives the autoinstall file `a.yaml`, and the
requirements themselves give nothing. -/
theorem tryParse_matches_requirements_witness :
    sampleGrammar.AutoInstall ≠ [] ∧
    tryParse sampleGrammar.InstallOnlyDefault Opts.InstallOnlyDefault ["install"]
      = some Opts.InstallOnlyDefault ∧
    tryParse sampleGrammar.InstallOnlyDefault Opts.InstallOnlyDefault ["install", "--ui=gui"]
      = none ∧
    tryParse_AutoInstall sampleGrammar.AutoInstall ["install", "--autoinstall", "a.yaml"]
      = some { autoInstallFile := "a.yaml" } ∧
    tryParse_AutoInstall sampleGrammar.AutoInstall sampleGrammar.AutoInstall = none :=
  ⟨by decide,
   ((tryParse_matches_requirements sampleGrammar.InstallOnlyDefault Opts.InstallOnlyDefault
      sampleGrammar.AutoInstall ["install"] (by decide)).1 Opts.InstallOnlyDefault).2
      ⟨rfl, rfl⟩,
   by decide,
   ((tryParse_matches_requirements sampleGrammar.InstallOnlyDefault Opts.InstallOnlyDefault
      sampleGrammar.AutoInstall ["install", "--autoinstall", "a.yaml"] (by decide)).2
      { autoInstallFile := "a.yaml" }).2
      ⟨["install", "--autoinstall"], "", "a.yaml", rfl, rfl, by decide, rfl⟩,
   by decide⟩

end Oobe.internal

/-! ## `do_close_splash` on the states a strategy reaches -/

namespace Oobe

open Win32Utils SplashEnabledStrategy

variable {P I S : Type}

end Oobe
